import Mathlib

/-!
Shallow embedding of the Sudoku solving engine (SudokuSolver class,
isValidBoard, applySolutionToBoard, autoSolveCells) and proofs of the
specification claims about it.

Symbols are JS strings used only for equality and set membership; they are
embedded as naturals (the digit strings one to nine as 1..9). JS
Set<string> supports only has, add and delete here, so it is embedded as
Finset Nat; JS mutation becomes explicit state passing.
-/

namespace Sudoku

/-- A cell position on the 9 by 9 grid. -/
abbrev Pos := Fin 9 × Fin 9

/-- Plain board, source type SudokuBoard: each cell holds a symbol or null. -/
abbrev SBoard := Fin 9 → Fin 9 → Option Nat

/-- Provenance tag, the source field SudokuCell.source. -/
inductive Src where
  | user : Src
  | system : Src
deriving DecidableEq

/-- A cell with provenance, source type SudokuCell. -/
structure SCell where
  value : Option Nat
  source : Option Src
deriving DecidableEq

/-- Board with provenance, source type SudokuBoardWithSource. -/
abbrev BoardWS := Fin 9 → Fin 9 → SCell

/-- The symbol alphabet, the source's literal list of the nine digits. -/
def digits : List Nat := [1, 2, 3, 4, 5, 6, 7, 8, 9]

/-- Block index of a cell: floor(row/3)*3 + floor(col/3). -/
def getSquareIndex (i j : Fin 9) : Fin 9 :=
  ⟨i.val / 3 * 3 + j.val / 3, by have hi := i.isLt; have hj := j.isLt; omega⟩

/-- All positions in row-major order, mirroring the source's nested loops
(i outer ascending, j inner ascending). -/
def allCells : List Pos :=
  (List.finRange 9).flatMap fun i => (List.finRange 9).map fun j => (i, j)

/-- The nine cells of block q in the source's iteration order
(rows startRow..startRow+2 outer, cols startCol..startCol+2 inner). -/
def squareCells (q : Fin 9) : List Pos :=
  (List.finRange 3).flatMap fun r => (List.finRange 3).map fun c =>
    (⟨q.val / 3 * 3 + r.val, by have := q.isLt; have := r.isLt; omega⟩,
     ⟨q.val % 3 * 3 + c.val, by have := q.isLt; have := c.isLt; omega⟩)

/-- State of a SudokuSolver instance: its working board and the row, column
and block symbol sets. -/
structure SolverState where
  board : SBoard
  rows : Fin 9 → Finset Nat
  cols : Fin 9 → Finset Nat
  squares : Fin 9 → Finset Nat

/-- The constructor together with initializeConstraints: the scan adds every
filled cell's symbol to its row, column and block set, so each set ends up as
exactly the symbols present in that unit (the constructor's row copies are
identity on a persistent board). -/
def initState (b : SBoard) : SolverState where
  board := b
  rows := fun i => ((List.finRange 9).filterMap fun j => b i j).toFinset
  cols := fun j => ((List.finRange 9).filterMap fun i => b i j).toFinset
  squares := fun q => ((squareCells q).filterMap fun p => b p.1 p.2).toFinset

/-- getValidNumbers: the digit list filtered against the union of the three
constraint sets of the cell. -/
def getValidNumbers (s : SolverState) (i j : Fin 9) : List Nat :=
  digits.filter fun v =>
    !(decide (v ∈ s.rows i ∨ v ∈ s.cols j ∨ v ∈ s.squares (getSquareIndex i j)))

/-- findBestCell's result record. -/
structure BestCell where
  row : Fin 9
  col : Fin 9
  options : List Nat
deriving DecidableEq

/-- The findBestCell scan: bestCell and minOptions accumulate over the cells;
a cell whose options list has exactly one member returns at once. -/
def findBestAux (s : SolverState) : List Pos → Option BestCell → Nat → Option BestCell
  | [], best, _ => best
  | p :: rest, best, minOptions =>
    match s.board p.1 p.2 with
    | some _ => findBestAux s rest best minOptions
    | none =>
      let options := getValidNumbers s p.1 p.2
      if options.length < minOptions then
        if options.length = 1 then some ⟨p.1, p.2, options⟩
        else findBestAux s rest (some ⟨p.1, p.2, options⟩) options.length
      else findBestAux s rest best minOptions

/-- findBestCell: scan all cells starting from no best cell and minOptions 10. -/
def findBestCell (s : SolverState) : Option BestCell :=
  findBestAux s allCells none 10

/-- Write a value into a plain board cell. -/
def setCell (b : SBoard) (i j : Fin 9) (v : Option Nat) : SBoard :=
  fun a c => if a = i ∧ c = j then v else b a c

/-- One trial placement inside backtrack: write the cell and add the symbol
to the three constraint sets. -/
def place (s : SolverState) (i j : Fin 9) (v : Nat) : SolverState where
  board := setCell s.board i j (some v)
  rows := Function.update s.rows i (insert v (s.rows i))
  cols := Function.update s.cols j (insert v (s.cols j))
  squares := Function.update s.squares (getSquareIndex i j)
    (insert v (s.squares (getSquareIndex i j)))

/-- The for-loop of backtrack over the chosen cell's options, with the
recursive call abstracted. The source's undo after a failed recursion
restores exactly the pre-trial state, because a tried symbol is never
already present in the cell or the three sets, so with persistent states the
failed branch simply resumes from s. -/
def tryOptionsWith (bt : SolverState → Option SolverState) (s : SolverState)
    (i j : Fin 9) : List Nat → Option SolverState
  | [] => none
  | v :: vs =>
    match bt (place s i j v) with
    | some s' => some s'
    | none => tryOptionsWith bt s i j vs

/-- backtrack, with explicit fuel: the source recursion's depth is bounded by
the number of empty cells (each recursive call follows a placement), at most
81, so solve's fuel of 82 is never exhausted. -/
def backtrack : Nat → SolverState → Option SolverState
  | 0, _ => none
  | n + 1, s =>
    match findBestCell s with
    | none => some s
    | some bc => tryOptionsWith (backtrack n) s bc.row bc.col bc.options

/-- solve: run backtrack on the freshly constructed solver and return its
board on success, null on failure. -/
def solve (b : SBoard) : Option SBoard :=
  (backtrack 82 (initState b)).map SolverState.board

/-- The isValidBoard scan: symbols seen so far per unit accumulate in the
three set families; the source's early return false is the Bool result. -/
def isValidAux (b : SBoard) (rows cols squares : Fin 9 → Finset Nat) :
    List Pos → Bool
  | [] => true
  | p :: rest =>
    match b p.1 p.2 with
    | none => isValidAux b rows cols squares rest
    | some v =>
      if v ∈ rows p.1 ∨ v ∈ cols p.2 ∨ v ∈ squares (getSquareIndex p.1 p.2) then false
      else
        isValidAux b
          (Function.update rows p.1 (insert v (rows p.1)))
          (Function.update cols p.2 (insert v (cols p.2)))
          (Function.update squares (getSquareIndex p.1 p.2)
            (insert v (squares (getSquareIndex p.1 p.2)))) rest

/-- isValidBoard: scan all cells with initially empty unit sets. -/
def isValidBoard (b : SBoard) : Bool :=
  isValidAux b (fun _ => ∅) (fun _ => ∅) (fun _ => ∅) allCells

/-- boardWithSourceToSimple: drop the provenance tags. -/
def boardWithSourceToSimple (b : BoardWS) : SBoard := fun i j => (b i j).value

/-- applySolutionToBoard: fill each cell that is empty in the original and
filled in the solution, tagging it system; keep every other cell. -/
def applySolutionToBoard (ob : BoardWS) (sol : SBoard) : BoardWS := fun i j =>
  if (ob i j).value = none ∧ sol i j ≠ none then ⟨sol i j, some Src.system⟩
  else ob i j

/-- The candidate map of autoSolveCells, keyed by the cell coordinates. -/
abbrev CandMap := Fin 9 → Fin 9 → Option (Finset Nat)

/-- Write one entry of the candidate map. -/
def setCand (m : CandMap) (i j : Fin 9) (v : Option (Finset Nat)) : CandMap :=
  fun a c => if a = i ∧ c = j then v else m a c

/-- Write one cell of a board with provenance. -/
def setCellWS (b : BoardWS) (i j : Fin 9) (c : SCell) : BoardWS :=
  fun a d => if a = i ∧ d = j then c else b a d

/-- Mutable state of one autoSolveCells run: the result board, the helper
solver (whose internal board setBoardCell keeps in step), the candidate map
and the two change flags. -/
structure PropSt where
  newBoard : BoardWS
  solver : SolverState
  cands : CandMap
  hasChanges : Bool
  iterChanges : Bool

/-- removeCandidate: delete num from one cell's candidate set, reporting
whether something was removed. -/
def removeCandidate (st : PropSt) (i j : Fin 9) (num : Nat) : PropSt × Bool :=
  match st.cands i j with
  | some cc =>
    if num ∈ cc then ({ st with cands := setCand st.cands i j (some (cc.erase num)) }, true)
    else (st, false)
  | none => (st, false)

/-- removeCandidate with the report dropped, as updateCell calls it. -/
def pruneCell (num : Nat) (st : PropSt) (p : Pos) : PropSt :=
  (removeCandidate st p.1 p.2 num).1

/-- The cells updateCell prunes the placed value from: the whole row and
column, interleaved as in the source's single loop, then the 3 by 3 block. -/
def prunePositions (row col : Fin 9) : List Pos :=
  ((List.finRange 9).flatMap fun i => [(row, i), (i, col)]) ++
    squareCells (getSquareIndex row col)

/-- updateCell: write the system-tagged value into the result board, update
the solver's board and its three sets, raise both change flags, drop the
cell's candidate entry, and prune the value from all row, column and block
peers. -/
def updateCell (st : PropSt) (row col : Fin 9) (value : Nat) : PropSt :=
  let st1 : PropSt :=
    { newBoard := setCellWS st.newBoard row col ⟨some value, some Src.system⟩
      solver :=
        { board := setCell st.solver.board row col (some value)
          rows := Function.update st.solver.rows row (insert value (st.solver.rows row))
          cols := Function.update st.solver.cols col (insert value (st.solver.cols col))
          squares := Function.update st.solver.squares (getSquareIndex row col)
            (insert value (st.solver.squares (getSquareIndex row col))) }
      cands := setCand st.cands row col none
      hasChanges := true
      iterChanges := true }
  (prunePositions row col).foldl (pruneCell value) st1

/-- The sole member of a one-element set, as Array.from(set)[0] reads it. -/
def theOnly (s : Finset Nat) : Nat := s.fold max 0 id

/-- Membership test against the candidate map, false for a missing entry. -/
def candHas (m : CandMap) (i j : Fin 9) (num : Nat) : Bool :=
  match m i j with
  | some cc => decide (num ∈ cc)
  | none => false

/-- Naked single at one cell: an empty cell with a one-candidate entry is
filled with that candidate. -/
def nakedStep (st : PropSt) (p : Pos) : PropSt :=
  if (st.newBoard p.1 p.2).value = none then
    match st.cands p.1 p.2 with
    | some cc => if cc.card = 1 then updateCell st p.1 p.2 (theOnly cc) else st
    | none => st
  else st

/-- First technique pass: naked singles over all cells in row-major order. -/
def nakedPass (st : PropSt) : PropSt := allCells.foldl nakedStep st

/-- Hidden single in one row for one symbol: skip a symbol already in the
row set; fill when exactly one empty cell of the row has it as candidate. -/
def hiddenRowStep (st : PropSt) (row : Fin 9) (num : Nat) : PropSt :=
  if num ∈ st.solver.rows row then st
  else
    match (List.finRange 9).filter (fun col =>
        decide ((st.newBoard row col).value = none) && candHas st.cands row col num) with
    | [col] => updateCell st row col num
    | _ => st

/-- Second technique pass, row direction. -/
def hiddenRowsPass (st : PropSt) : PropSt :=
  (List.finRange 9).foldl (fun s row => digits.foldl (fun s2 num => hiddenRowStep s2 row num) s) st

/-- Hidden single in one column for one symbol. -/
def hiddenColStep (st : PropSt) (col : Fin 9) (num : Nat) : PropSt :=
  if num ∈ st.solver.cols col then st
  else
    match (List.finRange 9).filter (fun row =>
        decide ((st.newBoard row col).value = none) && candHas st.cands row col num) with
    | [row] => updateCell st row col num
    | _ => st

/-- Second technique pass, column direction. -/
def hiddenColsPass (st : PropSt) : PropSt :=
  (List.finRange 9).foldl (fun s col => digits.foldl (fun s2 num => hiddenColStep s2 col num) s) st

/-- The empty cells of block q that have num as a candidate. -/
def squarePossible (st : PropSt) (q : Fin 9) (num : Nat) : List Pos :=
  (squareCells q).filter fun p =>
    decide ((st.newBoard p.1 p.2).value = none) && candHas st.cands p.1 p.2 num

/-- Hidden single in one block for one symbol. -/
def hiddenSquareStep (st : PropSt) (q : Fin 9) (num : Nat) : PropSt :=
  if num ∈ st.solver.squares q then st
  else
    match squarePossible st q num with
    | [p] => updateCell st p.1 p.2 num
    | _ => st

/-- Second technique pass, block direction. -/
def hiddenSquaresPass (st : PropSt) : PropSt :=
  (List.finRange 9).foldl (fun s q => digits.foldl (fun s2 num => hiddenSquareStep s2 q num) s) st

/-- The sole member of a one-element set of indices. -/
def theOnlyFin (s : Finset (Fin 9)) : Fin 9 := s.fold max 0 id

/-- removeCandidate wrapped with the flag raises box/line reduction performs
when something was actually removed. -/
def removeFlag (st : PropSt) (i j : Fin 9) (num : Nat) : PropSt :=
  match removeCandidate st i j num with
  | (st', true) => { st' with iterChanges := true, hasChanges := true }
  | (st', false) => st'

/-- Box/line reduction, row direction, for one block and one symbol: when
every in-block candidate cell for num lies in one row, prune num from that
row's cells outside the block. -/
def boxLineRowStep (st : PropSt) (q : Fin 9) (num : Nat) : PropSt :=
  let rowsWith : Finset (Fin 9) := ((squarePossible st q num).map Prod.fst).toFinset
  if rowsWith.card = 1 then
    let targetRow := theOnlyFin rowsWith
    (List.finRange 9).foldl (fun acc col =>
      if q.val % 3 * 3 ≤ col.val ∧ col.val < q.val % 3 * 3 + 3 then acc
      else if (acc.newBoard targetRow col).value = none then removeFlag acc targetRow col num
      else acc) st
  else st

/-- Box/line reduction, column direction, for one block and one symbol. -/
def boxLineColStep (st : PropSt) (q : Fin 9) (num : Nat) : PropSt :=
  let colsWith : Finset (Fin 9) := ((squarePossible st q num).map Prod.snd).toFinset
  if colsWith.card = 1 then
    let targetCol := theOnlyFin colsWith
    (List.finRange 9).foldl (fun acc row =>
      if q.val / 3 * 3 ≤ row.val ∧ row.val < q.val / 3 * 3 + 3 then acc
      else if (acc.newBoard row targetCol).value = none then removeFlag acc row targetCol num
      else acc) st
  else st

/-- Third technique for one block and one symbol: symbols already placed in
the block are skipped once for both directions, then the row direction runs
before the column direction. -/
def boxLineStep (st : PropSt) (q : Fin 9) (num : Nat) : PropSt :=
  if num ∈ st.solver.squares q then st
  else boxLineColStep (boxLineRowStep st q num) q num

/-- Third technique pass: box/line reduction over all blocks and symbols. -/
def boxLinePass (st : PropSt) : PropSt :=
  (List.finRange 9).foldl (fun s q => digits.foldl (fun s2 num => boxLineStep s2 q num) s) st

/-- One round of the main loop: the three technique passes in source order. -/
def runRound (st : PropSt) : PropSt :=
  boxLinePass (hiddenSquaresPass (hiddenColsPass (hiddenRowsPass (nakedPass st))))

/-- The iteration cap the source hard-codes: maxIterations = 10. -/
def maxIterations : Nat := 10

/-- The main while loop: run rounds while the last round changed something
and fuel remains. -/
def propLoop : Nat → PropSt → PropSt
  | 0, st => st
  | n + 1, st =>
    if st.iterChanges then propLoop n (runRound { st with iterChanges := false }) else st

/-- initializeCandidates: each empty cell maps to its valid numbers as a set,
other cells have no entry. The source loop writes only the candidate map and
reads only the untouched solver and board, so the map is this direct
function of them. -/
def initCands (s : SolverState) (b : BoardWS) : CandMap := fun i j =>
  if (b i j).value = none then some (getValidNumbers s i j).toFinset else none

/-- The state autoSolveCells sets up before its main loop (the deep copy of
the board is identity on persistent boards). -/
def initPropSt (b : BoardWS) : PropSt where
  newBoard := b
  solver := initState (boardWithSourceToSimple b)
  cands := initCands (initState (boardWithSourceToSimple b)) b
  hasChanges := false
  iterChanges := true

/-- autoSolveCells: validity gate, then the capped fixed-point loop over the
three techniques; the new board is returned exactly when some change
happened, the input board otherwise. -/
def autoSolveCells (b : BoardWS) : BoardWS :=
  if isValidBoard (boardWithSourceToSimple b) then
    let final := propLoop maxIterations (initPropSt b)
    if final.hasChanges then final.newBoard else b
  else b

/-! ### Specification-side definitions -/

/-- Positions p and q share a row, a column or a block. -/
def sameUnit (p q : Pos) : Prop :=
  p.1 = q.1 ∨ p.2 = q.2 ∨ getSquareIndex p.1 p.2 = getSquareIndex q.1 q.2

instance sameUnit.dec (p q : Pos) : Decidable (sameUnit p q) := by
  unfold sameUnit; infer_instance

/-- The spec's invariant violation: some row, column or block contains two
equal symbols among its filled cells. -/
def specHasDuplicate (b : SBoard) : Prop :=
  ∃ p q : Pos, p ≠ q ∧ sameUnit p q ∧ ∃ v, b p.1 p.2 = some v ∧ b q.1 q.2 = some v

instance specHasDuplicate.dec (b : SBoard) : Decidable (specHasDuplicate b) :=
  decidable_of_iff
    (∃ p q : Pos, p ≠ q ∧ sameUnit p q ∧ b p.1 p.2 ≠ none ∧ b p.1 p.2 = b q.1 q.2) <| by
  constructor
  · rintro ⟨p, q, hne, hu, hv, he⟩
    obtain ⟨v, hv⟩ := Option.ne_none_iff_exists'.mp hv
    exact ⟨p, q, hne, hu, v, hv, by rw [← he, hv]⟩
  · rintro ⟨p, q, hne, hu, v, h1, h2⟩
    exact ⟨p, q, hne, hu, by simp [h1], by rw [h1, h2]⟩

/-- The uniqueness invariant of the spec: no row, column or block holds a
duplicate symbol. -/
def validB (b : SBoard) : Prop := ¬ specHasDuplicate b

instance validB.dec (b : SBoard) : Decidable (validB b) := by
  unfold validB; infer_instance

/-- A board with no empty cell. -/
def completeB (b : SBoard) : Prop := ∀ i j, b i j ≠ none

/-- Every filled cell of b keeps its symbol in b'. -/
def extendsB (b b' : SBoard) : Prop := ∀ i j v, b i j = some v → b' i j = some v

/-- The constraint sets mirror a plain board: a symbol is in a row, column
or block set exactly when some cell of that unit holds it. -/
def SetsSync (s : SolverState) : Prop :=
  (∀ i v, v ∈ s.rows i ↔ ∃ j, s.board i j = some v) ∧
  (∀ j v, v ∈ s.cols j ↔ ∃ i, s.board i j = some v) ∧
  (∀ k v, v ∈ s.squares k ↔ ∃ p : Pos, getSquareIndex p.1 p.2 = k ∧ s.board p.1 p.2 = some v)

/-- The invariant carried through backtrack: synced constraint sets over a
duplicate-free board. -/
def SInv (s : SolverState) : Prop := SetsSync s ∧ validB s.board

/-- Decode one row of a literal grid; 0 stands for an empty cell. -/
def ofRow (l : List Nat) : Fin 9 → Option Nat := fun j =>
  match l.getD j.val 0 with
  | 0 => none
  | n + 1 => some (n + 1)

/-- Decode a literal grid of naturals into a plain board. -/
def ofL (l : List (List Nat)) : SBoard := fun i j => ofRow (l.getD i.val []) j

/-- Lift a plain board into a provenance board, tagging filled cells user. -/
def toWS (b : SBoard) : BoardWS := fun i j =>
  match b i j with
  | none => ⟨none, none⟩
  | some v => ⟨some v, some Src.user⟩

/-- A complete board that satisfies the uniqueness invariant. -/
def bComplete : SBoard := ofL [
  [1,2,3,4,5,6,7,8,9],
  [4,5,6,7,8,9,1,2,3],
  [7,8,9,1,2,3,4,5,6],
  [2,3,4,5,6,7,8,9,1],
  [5,6,7,8,9,1,2,3,4],
  [8,9,1,2,3,4,5,6,7],
  [3,4,5,6,7,8,9,1,2],
  [6,7,8,9,1,2,3,4,5],
  [9,1,2,3,4,5,6,7,8]]

/-- bComplete with the first cell overwritten by its right neighbour's
symbol (a row and block duplicate) and one cell cleared: an invalid board
that backtracking still completes. -/
def g9 : SBoard := ofL [
  [2,2,3,4,5,6,7,8,9],
  [4,5,6,7,8,9,1,2,3],
  [7,8,9,1,2,3,4,5,6],
  [2,3,4,5,6,7,8,9,1],
  [5,6,7,8,9,1,2,3,4],
  [8,9,1,2,3,4,5,6,7],
  [3,4,5,6,7,8,9,1,2],
  [6,7,8,9,1,2,3,4,5],
  [9,1,2,3,4,5,6,7,0]]

/-- The grid solve returns on g9: the cleared cell filled back in, the
duplicate kept. -/
def sol9 : SBoard := ofL [
  [2,2,3,4,5,6,7,8,9],
  [4,5,6,7,8,9,1,2,3],
  [7,8,9,1,2,3,4,5,6],
  [2,3,4,5,6,7,8,9,1],
  [5,6,7,8,9,1,2,3,4],
  [8,9,1,2,3,4,5,6,7],
  [3,4,5,6,7,8,9,1,2],
  [6,7,8,9,1,2,3,4,5],
  [9,1,2,3,4,5,6,7,8]]

instance completeB.dec (b : SBoard) : Decidable (completeB b) := by
  unfold completeB; infer_instance

/-- Read one cell through an optional board, none when the board is absent
(lets concrete solve results be checked cell by cell). -/
def cellAt (o : Option SBoard) (i j : Fin 9) : Option Nat :=
  match o with
  | some b => b i j
  | none => none

/-- The solver sets of a propagation state mirror the result board. -/
def PSync (st : PropSt) : Prop :=
  (∀ i v, v ∈ st.solver.rows i ↔ ∃ j, (st.newBoard i j).value = some v) ∧
  (∀ j v, v ∈ st.solver.cols j ↔ ∃ i, (st.newBoard i j).value = some v) ∧
  (∀ k v, v ∈ st.solver.squares k ↔
    ∃ p : Pos, getSquareIndex p.1 p.2 = k ∧ (st.newBoard p.1 p.2).value = some v)

/-- Every candidate entry avoids the symbols already committed in its row,
column and block. -/
def CandsSub (st : PropSt) : Prop :=
  ∀ i j cc, st.cands i j = some cc → ∀ v ∈ cc,
    v ∉ st.solver.rows i ∧ v ∉ st.solver.cols j ∧ v ∉ st.solver.squares (getSquareIndex i j)

/-- The invariant carried through autoSolveCells: synced sets, constraint-safe
candidates, and a duplicate-free board. -/
def PInv (st : PropSt) : Prop :=
  PSync st ∧ CandsSub st ∧ validB (boardWithSourceToSimple st.newBoard)

/-- Frame property against the input board: every originally filled cell is
untouched (value and provenance tag). -/
def FrameOf (b0 : BoardWS) (st : PropSt) : Prop :=
  ∀ i j, (b0 i j).value ≠ none → st.newBoard i j = b0 i j

/-- A property preserved by the three kinds of state changes a technique pass
performs: a guarded updateCell, a candidate prune, and a flag write. -/
structure StepClosed (P : PropSt → Prop) : Prop where
  update : ∀ st r c v cc, P st → (st.newBoard r c).value = none →
    st.cands r c = some cc → v ∈ cc → P (updateCell st r c v)
  prune : ∀ st p v, P st → P (pruneCell v st p)
  flags : ∀ st h i, P st → P { st with hasChanges := h, iterChanges := i }

/-- Number of empty cells of a provenance board. -/
def emptyCountWS (b : BoardWS) : Nat :=
  (allCells.filter fun p => decide ((b p.1 p.2).value = none)).length

/-- The all-empty board. -/
def emptyBoardWS : BoardWS := fun _ _ => ⟨none, none⟩

/-- The number of loop rounds autoSolveCells actually executes, mirroring
propLoop step for step. -/
def propLoopCount : Nat → PropSt → Nat
  | 0, _ => 0
  | n + 1, st =>
    if st.iterChanges then
      propLoopCount n (runRound { st with iterChanges := false }) + 1
    else 0

/-- Rounds executed by one autoSolveCells call. -/
def propagateRounds (b : BoardWS) : Nat :=
  if isValidBoard (boardWithSourceToSimple b) then
    propLoopCount maxIterations (initPropSt b)
  else 0

/-- Decode literal unit-set families. -/
def mkSets (l : List (List Nat)) : Fin 9 → Finset Nat := fun i => (l.getD i.val []).toFinset

/-- Decode a literal candidate map; the entry 0-list stands for a missing
entry. -/
def mkCands (l : List (List (List Nat))) : CandMap := fun i j =>
  match (l.getD i.val []).getD j.val [0] with
  | [0] => none
  | cs => some cs.toFinset

/-- Decode a literal provenance board: values plus a tag matrix
(0 none, 1 user, 2 system). -/
def mkWS (vals tags : List (List Nat)) : BoardWS := fun i j =>
  ⟨ofL vals i j,
   match (tags.getD i.val []).getD j.val 0 with
   | 1 => some Src.user
   | 2 => some Src.system
   | _ => none⟩

/-- Build a literal propagation state from matrices (the solver board always
equals the value matrix: setBoardCell keeps them in step). -/
def mkPropSt (vals tags rows cols squares : List (List Nat))
    (cands : List (List (List Nat))) (hc ic : Bool) : PropSt where
  newBoard := mkWS vals tags
  solver :=
    { board := ofL vals
      rows := mkSets rows
      cols := mkSets cols
      squares := mkSets squares }
  cands := mkCands cands
  hasChanges := hc
  iterChanges := ic

instance SolverState.decEq : DecidableEq SolverState := fun a b =>
  decidable_of_iff
    (a.board = b.board ∧ a.rows = b.rows ∧ a.cols = b.cols ∧ a.squares = b.squares)
    (by cases a; cases b; simp)

instance PropSt.decEq : DecidableEq PropSt := fun a b =>
  decidable_of_iff
    (a.newBoard = b.newBoard ∧ a.solver = b.solver ∧ a.cands = b.cands ∧
      a.hasChanges = b.hasChanges ∧ a.iterChanges = b.iterChanges)
    (by cases a; cases b; simp)

/-- The idempotence counterexample grid: a valid 35-clue board on which a
second autoSolveCells call still fills one more cell. -/
def gC3 : BoardWS := toWS (ofL [
  [3,1,8,4,9,0,0,0,0],
  [5,2,0,1,8,0,4,0,0],
  [4,6,0,5,0,0,1,0,8],
  [7,5,0,8,1,0,2,4,0],
  [0,0,0,0,0,0,3,0,0],
  [0,0,0,0,6,0,7,0,0],
  [0,0,0,0,4,0,5,7,0],
  [0,3,2,0,5,0,9,0,4],
  [0,7,4,0,0,0,6,0,0]])

/-- Intermediate propagation state c1_init on the idempotence counterexample grid. -/
def Tc1_init : PropSt := mkPropSt
  [[3,1,8,4,9,0,0,0,0],
   [5,2,0,1,8,0,4,0,0],
   [4,6,0,5,0,0,1,0,8],
   [7,5,0,8,1,0,2,4,0],
   [0,0,0,0,0,0,3,0,0],
   [0,0,0,0,6,0,7,0,0],
   [0,0,0,0,4,0,5,7,0],
   [0,3,2,0,5,0,9,0,4],
   [0,7,4,0,0,0,6,0,0]]
  [[1,1,1,1,1,0,0,0,0],
   [1,1,0,1,1,0,1,0,0],
   [1,1,0,1,0,0,1,0,1],
   [1,1,0,1,1,0,1,1,0],
   [0,0,0,0,0,0,1,0,0],
   [0,0,0,0,1,0,1,0,0],
   [0,0,0,0,1,0,1,1,0],
   [0,1,1,0,1,0,1,0,1],
   [0,1,1,0,0,0,1,0,0]]
  [[1,3,4,8,9], [1,2,4,5,8], [1,4,5,6,8], [1,2,4,5,7,8], [3], [6,7], [4,5,7], [2,3,4,5,9], [4,6,7]]
  [[3,4,5,7], [1,2,3,5,6,7], [2,4,8], [1,4,5,8], [1,4,5,6,8,9], [], [1,2,3,4,5,6,7,9], [4,7], [4,8]]
  [[1,2,3,4,5,6,8], [1,4,5,8,9], [1,4,8], [5,7], [1,6,8], [2,3,4,7], [2,3,4,7], [4,5], [4,5,6,7,9]]
  [[[0], [0], [0], [0], [0], [2,6,7], [], [2,5,6], [2,5,6,7]],
   [[0], [0], [7,9], [0], [0], [3,6,7], [0], [3,6,9], [3,6,7,9]],
   [[0], [0], [7,9], [0], [2,3,7], [2,3,7], [0], [2,3,9], [0]],
   [[0], [0], [3,6,9], [0], [0], [3,9], [0], [0], [6,9]],
   [[1,2,6,8,9], [4,8,9], [1,6,9], [2,7,9], [2,7], [2,4,5,7,9], [0], [1,5,6,8,9], [1,5,6,9]],
   [[1,2,8,9], [4,8,9], [1,3,9], [2,3,9], [0], [2,3,4,5,9], [0], [1,5,8,9], [1,5,9]],
   [[1,6,8,9], [8,9], [1,6,9], [2,3,6,9], [0], [1,2,3,6,8,9], [0], [0], [1,2,3]],
   [[1,6,8], [0], [0], [6,7], [0], [1,6,7,8], [0], [1,8], [0]],
   [[1,8,9], [0], [0], [2,3,9], [2,3], [1,2,3,8,9], [0], [1,2,3,8], [1,2,3]]]
  false true

/-- Intermediate propagation state c1_r1_naked on the idempotence counterexample grid. -/
def Tc1_r1_naked : PropSt := mkPropSt
  [[3,1,8,4,9,0,0,0,0],
   [5,2,0,1,8,0,4,0,0],
   [4,6,0,5,0,0,1,0,8],
   [7,5,0,8,1,0,2,4,0],
   [0,0,0,0,0,0,3,0,0],
   [0,0,0,0,6,0,7,0,0],
   [0,0,0,0,4,0,5,7,0],
   [0,3,2,0,5,0,9,0,4],
   [0,7,4,0,0,0,6,0,0]]
  [[1,1,1,1,1,0,0,0,0],
   [1,1,0,1,1,0,1,0,0],
   [1,1,0,1,0,0,1,0,1],
   [1,1,0,1,1,0,1,1,0],
   [0,0,0,0,0,0,1,0,0],
   [0,0,0,0,1,0,1,0,0],
   [0,0,0,0,1,0,1,1,0],
   [0,1,1,0,1,0,1,0,1],
   [0,1,1,0,0,0,1,0,0]]
  [[1,3,4,8,9], [1,2,4,5,8], [1,4,5,6,8], [1,2,4,5,7,8], [3], [6,7], [4,5,7], [2,3,4,5,9], [4,6,7]]
  [[3,4,5,7], [1,2,3,5,6,7], [2,4,8], [1,4,5,8], [1,4,5,6,8,9], [], [1,2,3,4,5,6,7,9], [4,7], [4,8]]
  [[1,2,3,4,5,6,8], [1,4,5,8,9], [1,4,8], [5,7], [1,6,8], [2,3,4,7], [2,3,4,7], [4,5], [4,5,6,7,9]]
  [[[0], [0], [0], [0], [0], [2,6,7], [], [2,5,6], [2,5,6,7]],
   [[0], [0], [7,9], [0], [0], [3,6,7], [0], [3,6,9], [3,6,7,9]],
   [[0], [0], [7,9], [0], [2,3,7], [2,3,7], [0], [2,3,9], [0]],
   [[0], [0], [3,6,9], [0], [0], [3,9], [0], [0], [6,9]],
   [[1,2,6,8,9], [4,8,9], [1,6,9], [2,7,9], [2,7], [2,4,5,7,9], [0], [1,5,6,8,9], [1,5,6,9]],
   [[1,2,8,9], [4,8,9], [1,3,9], [2,3,9], [0], [2,3,4,5,9], [0], [1,5,8,9], [1,5,9]],
   [[1,6,8,9], [8,9], [1,6,9], [2,3,6,9], [0], [1,2,3,6,8,9], [0], [0], [1,2,3]],
   [[1,6,8], [0], [0], [6,7], [0], [1,6,7,8], [0], [1,8], [0]],
   [[1,8,9], [0], [0], [2,3,9], [2,3], [1,2,3,8,9], [0], [1,2,3,8], [1,2,3]]]
  false false

/-- Intermediate propagation state c1_r1_hrows on the idempotence counterexample grid. -/
def Tc1_r1_hrows : PropSt := mkPropSt
  [[3,1,8,4,9,0,0,0,0],
   [5,2,0,1,8,0,4,0,0],
   [4,6,0,5,0,0,1,0,8],
   [7,5,0,8,1,0,2,4,0],
   [0,0,0,0,0,0,3,0,0],
   [0,0,0,0,6,0,7,0,0],
   [0,0,0,0,4,0,5,7,0],
   [0,3,2,0,5,0,9,0,4],
   [0,7,4,0,0,0,6,0,0]]
  [[1,1,1,1,1,0,0,0,0],
   [1,1,0,1,1,0,1,0,0],
   [1,1,0,1,0,0,1,0,1],
   [1,1,0,1,1,0,1,1,0],
   [0,0,0,0,0,0,1,0,0],
   [0,0,0,0,1,0,1,0,0],
   [0,0,0,0,1,0,1,1,0],
   [0,1,1,0,1,0,1,0,1],
   [0,1,1,0,0,0,1,0,0]]
  [[1,3,4,8,9], [1,2,4,5,8], [1,4,5,6,8], [1,2,4,5,7,8], [3], [6,7], [4,5,7], [2,3,4,5,9], [4,6,7]]
  [[3,4,5,7], [1,2,3,5,6,7], [2,4,8], [1,4,5,8], [1,4,5,6,8,9], [], [1,2,3,4,5,6,7,9], [4,7], [4,8]]
  [[1,2,3,4,5,6,8], [1,4,5,8,9], [1,4,8], [5,7], [1,6,8], [2,3,4,7], [2,3,4,7], [4,5], [4,5,6,7,9]]
  [[[0], [0], [0], [0], [0], [2,6,7], [], [2,5,6], [2,5,6,7]],
   [[0], [0], [7,9], [0], [0], [3,6,7], [0], [3,6,9], [3,6,7,9]],
   [[0], [0], [7,9], [0], [2,3,7], [2,3,7], [0], [2,3,9], [0]],
   [[0], [0], [3,6,9], [0], [0], [3,9], [0], [0], [6,9]],
   [[1,2,6,8,9], [4,8,9], [1,6,9], [2,7,9], [2,7], [2,4,5,7,9], [0], [1,5,6,8,9], [1,5,6,9]],
   [[1,2,8,9], [4,8,9], [1,3,9], [2,3,9], [0], [2,3,4,5,9], [0], [1,5,8,9], [1,5,9]],
   [[1,6,8,9], [8,9], [1,6,9], [2,3,6,9], [0], [1,2,3,6,8,9], [0], [0], [1,2,3]],
   [[1,6,8], [0], [0], [6,7], [0], [1,6,7,8], [0], [1,8], [0]],
   [[1,8,9], [0], [0], [2,3,9], [2,3], [1,2,3,8,9], [0], [1,2,3,8], [1,2,3]]]
  false false

/-- Intermediate propagation state c1_r1_hcols on the idempotence counterexample grid. -/
def Tc1_r1_hcols : PropSt := mkPropSt
  [[3,1,8,4,9,0,0,0,0],
   [5,2,0,1,8,0,4,0,0],
   [4,6,0,5,0,0,1,0,8],
   [7,5,0,8,1,0,2,4,0],
   [0,0,0,0,0,0,3,0,0],
   [0,0,0,0,6,0,7,0,0],
   [0,0,0,0,4,0,5,7,0],
   [0,3,2,0,5,0,9,0,4],
   [0,7,4,0,0,0,6,0,0]]
  [[1,1,1,1,1,0,0,0,0],
   [1,1,0,1,1,0,1,0,0],
   [1,1,0,1,0,0,1,0,1],
   [1,1,0,1,1,0,1,1,0],
   [0,0,0,0,0,0,1,0,0],
   [0,0,0,0,1,0,1,0,0],
   [0,0,0,0,1,0,1,1,0],
   [0,1,1,0,1,0,1,0,1],
   [0,1,1,0,0,0,1,0,0]]
  [[1,3,4,8,9], [1,2,4,5,8], [1,4,5,6,8], [1,2,4,5,7,8], [3], [6,7], [4,5,7], [2,3,4,5,9], [4,6,7]]
  [[3,4,5,7], [1,2,3,5,6,7], [2,4,8], [1,4,5,8], [1,4,5,6,8,9], [], [1,2,3,4,5,6,7,9], [4,7], [4,8]]
  [[1,2,3,4,5,6,8], [1,4,5,8,9], [1,4,8], [5,7], [1,6,8], [2,3,4,7], [2,3,4,7], [4,5], [4,5,6,7,9]]
  [[[0], [0], [0], [0], [0], [2,6,7], [], [2,5,6], [2,5,6,7]],
   [[0], [0], [7,9], [0], [0], [3,6,7], [0], [3,6,9], [3,6,7,9]],
   [[0], [0], [7,9], [0], [2,3,7], [2,3,7], [0], [2,3,9], [0]],
   [[0], [0], [3,6,9], [0], [0], [3,9], [0], [0], [6,9]],
   [[1,2,6,8,9], [4,8,9], [1,6,9], [2,7,9], [2,7], [2,4,5,7,9], [0], [1,5,6,8,9], [1,5,6,9]],
   [[1,2,8,9], [4,8,9], [1,3,9], [2,3,9], [0], [2,3,4,5,9], [0], [1,5,8,9], [1,5,9]],
   [[1,6,8,9], [8,9], [1,6,9], [2,3,6,9], [0], [1,2,3,6,8,9], [0], [0], [1,2,3]],
   [[1,6,8], [0], [0], [6,7], [0], [1,6,7,8], [0], [1,8], [0]],
   [[1,8,9], [0], [0], [2,3,9], [2,3], [1,2,3,8,9], [0], [1,2,3,8], [1,2,3]]]
  false false

/-- Intermediate propagation state c1_r1_hsq on the idempotence counterexample grid. -/
def Tc1_r1_hsq : PropSt := mkPropSt
  [[3,1,8,4,9,0,0,0,0],
   [5,2,0,1,8,0,4,0,0],
   [4,6,0,5,0,0,1,0,8],
   [7,5,0,8,1,0,2,4,0],
   [0,0,0,0,0,0,3,0,0],
   [0,0,0,0,6,0,7,0,0],
   [0,0,0,0,4,0,5,7,0],
   [0,3,2,0,5,0,9,0,4],
   [0,7,4,0,0,0,6,0,0]]
  [[1,1,1,1,1,0,0,0,0],
   [1,1,0,1,1,0,1,0,0],
   [1,1,0,1,0,0,1,0,1],
   [1,1,0,1,1,0,1,1,0],
   [0,0,0,0,0,0,1,0,0],
   [0,0,0,0,1,0,1,0,0],
   [0,0,0,0,1,0,1,1,0],
   [0,1,1,0,1,0,1,0,1],
   [0,1,1,0,0,0,1,0,0]]
  [[1,3,4,8,9], [1,2,4,5,8], [1,4,5,6,8], [1,2,4,5,7,8], [3], [6,7], [4,5,7], [2,3,4,5,9], [4,6,7]]
  [[3,4,5,7], [1,2,3,5,6,7], [2,4,8], [1,4,5,8], [1,4,5,6,8,9], [], [1,2,3,4,5,6,7,9], [4,7], [4,8]]
  [[1,2,3,4,5,6,8], [1,4,5,8,9], [1,4,8], [5,7], [1,6,8], [2,3,4,7], [2,3,4,7], [4,5], [4,5,6,7,9]]
  [[[0], [0], [0], [0], [0], [2,6,7], [], [2,5,6], [2,5,6,7]],
   [[0], [0], [7,9], [0], [0], [3,6,7], [0], [3,6,9], [3,6,7,9]],
   [[0], [0], [7,9], [0], [2,3,7], [2,3,7], [0], [2,3,9], [0]],
   [[0], [0], [3,6,9], [0], [0], [3,9], [0], [0], [6,9]],
   [[1,2,6,8,9], [4,8,9], [1,6,9], [2,7,9], [2,7], [2,4,5,7,9], [0], [1,5,6,8,9], [1,5,6,9]],
   [[1,2,8,9], [4,8,9], [1,3,9], [2,3,9], [0], [2,3,4,5,9], [0], [1,5,8,9], [1,5,9]],
   [[1,6,8,9], [8,9], [1,6,9], [2,3,6,9], [0], [1,2,3,6,8,9], [0], [0], [1,2,3]],
   [[1,6,8], [0], [0], [6,7], [0], [1,6,7,8], [0], [1,8], [0]],
   [[1,8,9], [0], [0], [2,3,9], [2,3], [1,2,3,8,9], [0], [1,2,3,8], [1,2,3]]]
  false false

/-- Intermediate propagation state c1_r1_bline on the idempotence counterexample grid. -/
def Tc1_r1_bline : PropSt := mkPropSt
  [[3,1,8,4,9,0,0,0,0],
   [5,2,0,1,8,0,4,0,0],
   [4,6,0,5,0,0,1,0,8],
   [7,5,0,8,1,0,2,4,0],
   [0,0,0,0,0,0,3,0,0],
   [0,0,0,0,6,0,7,0,0],
   [0,0,0,0,4,0,5,7,0],
   [0,3,2,0,5,0,9,0,4],
   [0,7,4,0,0,0,6,0,0]]
  [[1,1,1,1,1,0,0,0,0],
   [1,1,0,1,1,0,1,0,0],
   [1,1,0,1,0,0,1,0,1],
   [1,1,0,1,1,0,1,1,0],
   [0,0,0,0,0,0,1,0,0],
   [0,0,0,0,1,0,1,0,0],
   [0,0,0,0,1,0,1,1,0],
   [0,1,1,0,1,0,1,0,1],
   [0,1,1,0,0,0,1,0,0]]
  [[1,3,4,8,9], [1,2,4,5,8], [1,4,5,6,8], [1,2,4,5,7,8], [3], [6,7], [4,5,7], [2,3,4,5,9], [4,6,7]]
  [[3,4,5,7], [1,2,3,5,6,7], [2,4,8], [1,4,5,8], [1,4,5,6,8,9], [], [1,2,3,4,5,6,7,9], [4,7], [4,8]]
  [[1,2,3,4,5,6,8], [1,4,5,8,9], [1,4,8], [5,7], [1,6,8], [2,3,4,7], [2,3,4,7], [4,5], [4,5,6,7,9]]
  [[[0], [0], [0], [0], [0], [2,6,7], [], [2,5,6], [2,5,6,7]],
   [[0], [0], [7,9], [0], [0], [3,6,7], [0], [3,6,9], [3,6,7,9]],
   [[0], [0], [7,9], [0], [2,3,7], [2,3,7], [0], [2,3,9], [0]],
   [[0], [0], [3,6], [0], [0], [3,9], [0], [0], [6,9]],
   [[1,2,6,8,9], [4,8,9], [1,6], [2,7,9], [2,7], [2,4,5,7,9], [0], [1,5,6,8,9], [1,5,6,9]],
   [[1,2,8,9], [4,8,9], [1,3], [2,3,9], [0], [2,3,4,5,9], [0], [1,5,8,9], [1,5,9]],
   [[1,6,8,9], [8,9], [1,6], [2,3,6,9], [0], [1,2,3,8,9], [0], [0], [1,2,3]],
   [[1,6,8], [0], [0], [6,7], [0], [1,7,8], [0], [1], [0]],
   [[1,8,9], [0], [0], [2,3,9], [2,3], [1,2,3,8,9], [0], [1,2,3], [1,2,3]]]
  true true

/-- Intermediate propagation state c1_r2_naked on the idempotence counterexample grid. -/
def Tc1_r2_naked : PropSt := mkPropSt
  [[3,1,8,4,9,0,0,0,0],
   [5,2,0,1,8,0,4,0,0],
   [4,6,0,5,0,0,1,0,8],
   [7,5,0,8,1,0,2,4,0],
   [0,0,0,0,0,0,3,0,0],
   [0,0,0,0,6,0,7,0,0],
   [0,0,0,0,4,0,5,7,0],
   [0,3,2,0,5,0,9,1,4],
   [0,7,4,0,0,0,6,0,0]]
  [[1,1,1,1,1,0,0,0,0],
   [1,1,0,1,1,0,1,0,0],
   [1,1,0,1,0,0,1,0,1],
   [1,1,0,1,1,0,1,1,0],
   [0,0,0,0,0,0,1,0,0],
   [0,0,0,0,1,0,1,0,0],
   [0,0,0,0,1,0,1,1,0],
   [0,1,1,0,1,0,1,2,1],
   [0,1,1,0,0,0,1,0,0]]
  [[1,3,4,8,9], [1,2,4,5,8], [1,4,5,6,8], [1,2,4,5,7,8], [3], [6,7], [4,5,7], [1,2,3,4,5,9], [4,6,7]]
  [[3,4,5,7], [1,2,3,5,6,7], [2,4,8], [1,4,5,8], [1,4,5,6,8,9], [], [1,2,3,4,5,6,7,9], [1,4,7], [4,8]]
  [[1,2,3,4,5,6,8], [1,4,5,8,9], [1,4,8], [5,7], [1,6,8], [2,3,4,7], [2,3,4,7], [4,5], [1,4,5,6,7,9]]
  [[[0], [0], [0], [0], [0], [2,6,7], [], [2,5,6], [2,5,6,7]],
   [[0], [0], [7,9], [0], [0], [3,6,7], [0], [3,6,9], [3,6,7,9]],
   [[0], [0], [7,9], [0], [2,3,7], [2,3,7], [0], [2,3,9], [0]],
   [[0], [0], [3,6], [0], [0], [3,9], [0], [0], [6,9]],
   [[1,2,6,8,9], [4,8,9], [1,6], [2,7,9], [2,7], [2,4,5,7,9], [0], [5,6,8,9], [1,5,6,9]],
   [[1,2,8,9], [4,8,9], [1,3], [2,3,9], [0], [2,3,4,5,9], [0], [5,8,9], [1,5,9]],
   [[1,6,8,9], [8,9], [1,6], [2,3,6,9], [0], [1,2,3,8,9], [0], [0], [2,3]],
   [[6,8], [0], [0], [6,7], [0], [7,8], [0], [0], [0]],
   [[1,8,9], [0], [0], [2,3,9], [2,3], [1,2,3,8,9], [0], [2,3], [2,3]]]
  true true

/-- Intermediate propagation state c1_r2_hrows on the idempotence counterexample grid. -/
def Tc1_r2_hrows : PropSt := mkPropSt
  [[3,1,8,4,9,0,0,0,0],
   [5,2,0,1,8,0,4,0,0],
   [4,6,0,5,0,0,1,0,8],
   [7,5,0,8,1,0,2,4,0],
   [0,0,0,0,0,0,3,0,0],
   [0,0,0,0,6,0,7,0,0],
   [0,0,0,0,4,0,5,7,0],
   [0,3,2,0,5,0,9,1,4],
   [0,7,4,0,0,0,6,0,0]]
  [[1,1,1,1,1,0,0,0,0],
   [1,1,0,1,1,0,1,0,0],
   [1,1,0,1,0,0,1,0,1],
   [1,1,0,1,1,0,1,1,0],
   [0,0,0,0,0,0,1,0,0],
   [0,0,0,0,1,0,1,0,0],
   [0,0,0,0,1,0,1,1,0],
   [0,1,1,0,1,0,1,2,1],
   [0,1,1,0,0,0,1,0,0]]
  [[1,3,4,8,9], [1,2,4,5,8], [1,4,5,6,8], [1,2,4,5,7,8], [3], [6,7], [4,5,7], [1,2,3,4,5,9], [4,6,7]]
  [[3,4,5,7], [1,2,3,5,6,7], [2,4,8], [1,4,5,8], [1,4,5,6,8,9], [], [1,2,3,4,5,6,7,9], [1,4,7], [4,8]]
  [[1,2,3,4,5,6,8], [1,4,5,8,9], [1,4,8], [5,7], [1,6,8], [2,3,4,7], [2,3,4,7], [4,5], [1,4,5,6,7,9]]
  [[[0], [0], [0], [0], [0], [2,6,7], [], [2,5,6], [2,5,6,7]],
   [[0], [0], [7,9], [0], [0], [3,6,7], [0], [3,6,9], [3,6,7,9]],
   [[0], [0], [7,9], [0], [2,3,7], [2,3,7], [0], [2,3,9], [0]],
   [[0], [0], [3,6], [0], [0], [3,9], [0], [0], [6,9]],
   [[1,2,6,8,9], [4,8,9], [1,6], [2,7,9], [2,7], [2,4,5,7,9], [0], [5,6,8,9], [1,5,6,9]],
   [[1,2,8,9], [4,8,9], [1,3], [2,3,9], [0], [2,3,4,5,9], [0], [5,8,9], [1,5,9]],
   [[1,6,8,9], [8,9], [1,6], [2,3,6,9], [0], [1,2,3,8,9], [0], [0], [2,3]],
   [[6,8], [0], [0], [6,7], [0], [7,8], [0], [0], [0]],
   [[1,8,9], [0], [0], [2,3,9], [2,3], [1,2,3,8,9], [0], [2,3], [2,3]]]
  true true

/-- Intermediate propagation state c1_r2_hcols on the idempotence counterexample grid. -/
def Tc1_r2_hcols : PropSt := mkPropSt
  [[3,1,8,4,9,0,0,0,0],
   [5,2,0,1,8,0,4,0,0],
   [4,6,0,5,0,0,1,0,8],
   [7,5,0,8,1,0,2,4,0],
   [0,0,0,0,0,0,3,0,0],
   [0,0,0,0,6,0,7,0,0],
   [0,0,0,0,4,0,5,7,0],
   [0,3,2,0,5,0,9,1,4],
   [0,7,4,0,0,0,6,0,0]]
  [[1,1,1,1,1,0,0,0,0],
   [1,1,0,1,1,0,1,0,0],
   [1,1,0,1,0,0,1,0,1],
   [1,1,0,1,1,0,1,1,0],
   [0,0,0,0,0,0,1,0,0],
   [0,0,0,0,1,0,1,0,0],
   [0,0,0,0,1,0,1,1,0],
   [0,1,1,0,1,0,1,2,1],
   [0,1,1,0,0,0,1,0,0]]
  [[1,3,4,8,9], [1,2,4,5,8], [1,4,5,6,8], [1,2,4,5,7,8], [3], [6,7], [4,5,7], [1,2,3,4,5,9], [4,6,7]]
  [[3,4,5,7], [1,2,3,5,6,7], [2,4,8], [1,4,5,8], [1,4,5,6,8,9], [], [1,2,3,4,5,6,7,9], [1,4,7], [4,8]]
  [[1,2,3,4,5,6,8], [1,4,5,8,9], [1,4,8], [5,7], [1,6,8], [2,3,4,7], [2,3,4,7], [4,5], [1,4,5,6,7,9]]
  [[[0], [0], [0], [0], [0], [2,6,7], [], [2,5,6], [2,5,6,7]],
   [[0], [0], [7,9], [0], [0], [3,6,7], [0], [3,6,9], [3,6,7,9]],
   [[0], [0], [7,9], [0], [2,3,7], [2,3,7], [0], [2,3,9], [0]],
   [[0], [0], [3,6], [0], [0], [3,9], [0], [0], [6,9]],
   [[1,2,6,8,9], [4,8,9], [1,6], [2,7,9], [2,7], [2,4,5,7,9], [0], [5,6,8,9], [1,5,6,9]],
   [[1,2,8,9], [4,8,9], [1,3], [2,3,9], [0], [2,3,4,5,9], [0], [5,8,9], [1,5,9]],
   [[1,6,8,9], [8,9], [1,6], [2,3,6,9], [0], [1,2,3,8,9], [0], [0], [2,3]],
   [[6,8], [0], [0], [6,7], [0], [7,8], [0], [0], [0]],
   [[1,8,9], [0], [0], [2,3,9], [2,3], [1,2,3,8,9], [0], [2,3], [2,3]]]
  true true

/-- Intermediate propagation state c1_r2_hsq on the idempotence counterexample grid. -/
def Tc1_r2_hsq : PropSt := mkPropSt
  [[3,1,8,4,9,0,0,0,0],
   [5,2,0,1,8,0,4,0,0],
   [4,6,0,5,0,0,1,0,8],
   [7,5,0,8,1,0,2,4,0],
   [0,0,0,0,0,0,3,0,0],
   [0,0,0,0,6,0,7,0,0],
   [0,0,0,0,4,0,5,7,0],
   [0,3,2,0,5,0,9,1,4],
   [0,7,4,0,0,0,6,0,0]]
  [[1,1,1,1,1,0,0,0,0],
   [1,1,0,1,1,0,1,0,0],
   [1,1,0,1,0,0,1,0,1],
   [1,1,0,1,1,0,1,1,0],
   [0,0,0,0,0,0,1,0,0],
   [0,0,0,0,1,0,1,0,0],
   [0,0,0,0,1,0,1,1,0],
   [0,1,1,0,1,0,1,2,1],
   [0,1,1,0,0,0,1,0,0]]
  [[1,3,4,8,9], [1,2,4,5,8], [1,4,5,6,8], [1,2,4,5,7,8], [3], [6,7], [4,5,7], [1,2,3,4,5,9], [4,6,7]]
  [[3,4,5,7], [1,2,3,5,6,7], [2,4,8], [1,4,5,8], [1,4,5,6,8,9], [], [1,2,3,4,5,6,7,9], [1,4,7], [4,8]]
  [[1,2,3,4,5,6,8], [1,4,5,8,9], [1,4,8], [5,7], [1,6,8], [2,3,4,7], [2,3,4,7], [4,5], [1,4,5,6,7,9]]
  [[[0], [0], [0], [0], [0], [2,6,7], [], [2,5,6], [2,5,6,7]],
   [[0], [0], [7,9], [0], [0], [3,6,7], [0], [3,6,9], [3,6,7,9]],
   [[0], [0], [7,9], [0], [2,3,7], [2,3,7], [0], [2,3,9], [0]],
   [[0], [0], [3,6], [0], [0], [3,9], [0], [0], [6,9]],
   [[1,2,6,8,9], [4,8,9], [1,6], [2,7,9], [2,7], [2,4,5,7,9], [0], [5,6,8,9], [1,5,6,9]],
   [[1,2,8,9], [4,8,9], [1,3], [2,3,9], [0], [2,3,4,5,9], [0], [5,8,9], [1,5,9]],
   [[1,6,8,9], [8,9], [1,6], [2,3,6,9], [0], [1,2,3,8,9], [0], [0], [2,3]],
   [[6,8], [0], [0], [6,7], [0], [7,8], [0], [0], [0]],
   [[1,8,9], [0], [0], [2,3,9], [2,3], [1,2,3,8,9], [0], [2,3], [2,3]]]
  true true

/-- Intermediate propagation state c1_r2_bline on the idempotence counterexample grid. -/
def Tc1_r2_bline : PropSt := mkPropSt
  [[3,1,8,4,9,0,0,0,0],
   [5,2,0,1,8,0,4,0,0],
   [4,6,0,5,0,0,1,0,8],
   [7,5,0,8,1,0,2,4,0],
   [0,0,0,0,0,0,3,0,0],
   [0,0,0,0,6,0,7,0,0],
   [0,0,0,0,4,0,5,7,0],
   [0,3,2,0,5,0,9,1,4],
   [0,7,4,0,0,0,6,0,0]]
  [[1,1,1,1,1,0,0,0,0],
   [1,1,0,1,1,0,1,0,0],
   [1,1,0,1,0,0,1,0,1],
   [1,1,0,1,1,0,1,1,0],
   [0,0,0,0,0,0,1,0,0],
   [0,0,0,0,1,0,1,0,0],
   [0,0,0,0,1,0,1,1,0],
   [0,1,1,0,1,0,1,2,1],
   [0,1,1,0,0,0,1,0,0]]
  [[1,3,4,8,9], [1,2,4,5,8], [1,4,5,6,8], [1,2,4,5,7,8], [3], [6,7], [4,5,7], [1,2,3,4,5,9], [4,6,7]]
  [[3,4,5,7], [1,2,3,5,6,7], [2,4,8], [1,4,5,8], [1,4,5,6,8,9], [], [1,2,3,4,5,6,7,9], [1,4,7], [4,8]]
  [[1,2,3,4,5,6,8], [1,4,5,8,9], [1,4,8], [5,7], [1,6,8], [2,3,4,7], [2,3,4,7], [4,5], [1,4,5,6,7,9]]
  [[[0], [0], [0], [0], [0], [2,6,7], [], [2,5,6], [2,5,6,7]],
   [[0], [0], [7,9], [0], [0], [3,6,7], [0], [3,6,9], [3,6,7,9]],
   [[0], [0], [7,9], [0], [2,3,7], [2,3,7], [0], [2,3,9], [0]],
   [[0], [0], [3,6], [0], [0], [3,9], [0], [0], [6,9]],
   [[1,2,6,8,9], [4,8,9], [1,6], [2,7,9], [2,7], [2,4,5,7,9], [0], [5,6,8,9], [1,5,6,9]],
   [[1,2,8,9], [4,8,9], [1,3], [2,3,9], [0], [2,3,4,5,9], [0], [5,8,9], [1,5,9]],
   [[1,6,8,9], [8,9], [1,6], [2,3,6,9], [0], [1,2,3,8,9], [0], [0], [2,3]],
   [[6,8], [0], [0], [6,7], [0], [7,8], [0], [0], [0]],
   [[1,8,9], [0], [0], [2,3,9], [2,3], [1,2,3,8,9], [0], [2,3], [2,3]]]
  true true

/-- Intermediate propagation state c1_r3_naked on the idempotence counterexample grid. -/
def Tc1_r3_naked : PropSt := mkPropSt
  [[3,1,8,4,9,0,0,0,0],
   [5,2,0,1,8,0,4,0,0],
   [4,6,0,5,0,0,1,0,8],
   [7,5,0,8,1,0,2,4,0],
   [0,0,0,0,0,0,3,0,0],
   [0,0,0,0,6,0,7,0,0],
   [0,0,0,0,4,0,5,7,0],
   [0,3,2,0,5,0,9,1,4],
   [0,7,4,0,0,0,6,0,0]]
  [[1,1,1,1,1,0,0,0,0],
   [1,1,0,1,1,0,1,0,0],
   [1,1,0,1,0,0,1,0,1],
   [1,1,0,1,1,0,1,1,0],
   [0,0,0,0,0,0,1,0,0],
   [0,0,0,0,1,0,1,0,0],
   [0,0,0,0,1,0,1,1,0],
   [0,1,1,0,1,0,1,2,1],
   [0,1,1,0,0,0,1,0,0]]
  [[1,3,4,8,9], [1,2,4,5,8], [1,4,5,6,8], [1,2,4,5,7,8], [3], [6,7], [4,5,7], [1,2,3,4,5,9], [4,6,7]]
  [[3,4,5,7], [1,2,3,5,6,7], [2,4,8], [1,4,5,8], [1,4,5,6,8,9], [], [1,2,3,4,5,6,7,9], [1,4,7], [4,8]]
  [[1,2,3,4,5,6,8], [1,4,5,8,9], [1,4,8], [5,7], [1,6,8], [2,3,4,7], [2,3,4,7], [4,5], [1,4,5,6,7,9]]
  [[[0], [0], [0], [0], [0], [2,6,7], [], [2,5,6], [2,5,6,7]],
   [[0], [0], [7,9], [0], [0], [3,6,7], [0], [3,6,9], [3,6,7,9]],
   [[0], [0], [7,9], [0], [2,3,7], [2,3,7], [0], [2,3,9], [0]],
   [[0], [0], [3,6], [0], [0], [3,9], [0], [0], [6,9]],
   [[1,2,6,8,9], [4,8,9], [1,6], [2,7,9], [2,7], [2,4,5,7,9], [0], [5,6,8,9], [1,5,6,9]],
   [[1,2,8,9], [4,8,9], [1,3], [2,3,9], [0], [2,3,4,5,9], [0], [5,8,9], [1,5,9]],
   [[1,6,8,9], [8,9], [1,6], [2,3,6,9], [0], [1,2,3,8,9], [0], [0], [2,3]],
   [[6,8], [0], [0], [6,7], [0], [7,8], [0], [0], [0]],
   [[1,8,9], [0], [0], [2,3,9], [2,3], [1,2,3,8,9], [0], [2,3], [2,3]]]
  true false

/-- Intermediate propagation state c1_r3_hrows on the idempotence counterexample grid. -/
def Tc1_r3_hrows : PropSt := mkPropSt
  [[3,1,8,4,9,0,0,0,0],
   [5,2,0,1,8,0,4,0,0],
   [4,6,0,5,0,0,1,0,8],
   [7,5,0,8,1,0,2,4,0],
   [0,0,0,0,0,0,3,0,0],
   [0,0,0,0,6,0,7,0,0],
   [0,0,0,0,4,0,5,7,0],
   [0,3,2,0,5,0,9,1,4],
   [0,7,4,0,0,0,6,0,0]]
  [[1,1,1,1,1,0,0,0,0],
   [1,1,0,1,1,0,1,0,0],
   [1,1,0,1,0,0,1,0,1],
   [1,1,0,1,1,0,1,1,0],
   [0,0,0,0,0,0,1,0,0],
   [0,0,0,0,1,0,1,0,0],
   [0,0,0,0,1,0,1,1,0],
   [0,1,1,0,1,0,1,2,1],
   [0,1,1,0,0,0,1,0,0]]
  [[1,3,4,8,9], [1,2,4,5,8], [1,4,5,6,8], [1,2,4,5,7,8], [3], [6,7], [4,5,7], [1,2,3,4,5,9], [4,6,7]]
  [[3,4,5,7], [1,2,3,5,6,7], [2,4,8], [1,4,5,8], [1,4,5,6,8,9], [], [1,2,3,4,5,6,7,9], [1,4,7], [4,8]]
  [[1,2,3,4,5,6,8], [1,4,5,8,9], [1,4,8], [5,7], [1,6,8], [2,3,4,7], [2,3,4,7], [4,5], [1,4,5,6,7,9]]
  [[[0], [0], [0], [0], [0], [2,6,7], [], [2,5,6], [2,5,6,7]],
   [[0], [0], [7,9], [0], [0], [3,6,7], [0], [3,6,9], [3,6,7,9]],
   [[0], [0], [7,9], [0], [2,3,7], [2,3,7], [0], [2,3,9], [0]],
   [[0], [0], [3,6], [0], [0], [3,9], [0], [0], [6,9]],
   [[1,2,6,8,9], [4,8,9], [1,6], [2,7,9], [2,7], [2,4,5,7,9], [0], [5,6,8,9], [1,5,6,9]],
   [[1,2,8,9], [4,8,9], [1,3], [2,3,9], [0], [2,3,4,5,9], [0], [5,8,9], [1,5,9]],
   [[1,6,8,9], [8,9], [1,6], [2,3,6,9], [0], [1,2,3,8,9], [0], [0], [2,3]],
   [[6,8], [0], [0], [6,7], [0], [7,8], [0], [0], [0]],
   [[1,8,9], [0], [0], [2,3,9], [2,3], [1,2,3,8,9], [0], [2,3], [2,3]]]
  true false

/-- Intermediate propagation state c1_r3_hcols on the idempotence counterexample grid. -/
def Tc1_r3_hcols : PropSt := mkPropSt
  [[3,1,8,4,9,0,0,0,0],
   [5,2,0,1,8,0,4,0,0],
   [4,6,0,5,0,0,1,0,8],
   [7,5,0,8,1,0,2,4,0],
   [0,0,0,0,0,0,3,0,0],
   [0,0,0,0,6,0,7,0,0],
   [0,0,0,0,4,0,5,7,0],
   [0,3,2,0,5,0,9,1,4],
   [0,7,4,0,0,0,6,0,0]]
  [[1,1,1,1,1,0,0,0,0],
   [1,1,0,1,1,0,1,0,0],
   [1,1,0,1,0,0,1,0,1],
   [1,1,0,1,1,0,1,1,0],
   [0,0,0,0,0,0,1,0,0],
   [0,0,0,0,1,0,1,0,0],
   [0,0,0,0,1,0,1,1,0],
   [0,1,1,0,1,0,1,2,1],
   [0,1,1,0,0,0,1,0,0]]
  [[1,3,4,8,9], [1,2,4,5,8], [1,4,5,6,8], [1,2,4,5,7,8], [3], [6,7], [4,5,7], [1,2,3,4,5,9], [4,6,7]]
  [[3,4,5,7], [1,2,3,5,6,7], [2,4,8], [1,4,5,8], [1,4,5,6,8,9], [], [1,2,3,4,5,6,7,9], [1,4,7], [4,8]]
  [[1,2,3,4,5,6,8], [1,4,5,8,9], [1,4,8], [5,7], [1,6,8], [2,3,4,7], [2,3,4,7], [4,5], [1,4,5,6,7,9]]
  [[[0], [0], [0], [0], [0], [2,6,7], [], [2,5,6], [2,5,6,7]],
   [[0], [0], [7,9], [0], [0], [3,6,7], [0], [3,6,9], [3,6,7,9]],
   [[0], [0], [7,9], [0], [2,3,7], [2,3,7], [0], [2,3,9], [0]],
   [[0], [0], [3,6], [0], [0], [3,9], [0], [0], [6,9]],
   [[1,2,6,8,9], [4,8,9], [1,6], [2,7,9], [2,7], [2,4,5,7,9], [0], [5,6,8,9], [1,5,6,9]],
   [[1,2,8,9], [4,8,9], [1,3], [2,3,9], [0], [2,3,4,5,9], [0], [5,8,9], [1,5,9]],
   [[1,6,8,9], [8,9], [1,6], [2,3,6,9], [0], [1,2,3,8,9], [0], [0], [2,3]],
   [[6,8], [0], [0], [6,7], [0], [7,8], [0], [0], [0]],
   [[1,8,9], [0], [0], [2,3,9], [2,3], [1,2,3,8,9], [0], [2,3], [2,3]]]
  true false

/-- Intermediate propagation state c1_r3_hsq on the idempotence counterexample grid. -/
def Tc1_r3_hsq : PropSt := mkPropSt
  [[3,1,8,4,9,0,0,0,0],
   [5,2,0,1,8,0,4,0,0],
   [4,6,0,5,0,0,1,0,8],
   [7,5,0,8,1,0,2,4,0],
   [0,0,0,0,0,0,3,0,0],
   [0,0,0,0,6,0,7,0,0],
   [0,0,0,0,4,0,5,7,0],
   [0,3,2,0,5,0,9,1,4],
   [0,7,4,0,0,0,6,0,0]]
  [[1,1,1,1,1,0,0,0,0],
   [1,1,0,1,1,0,1,0,0],
   [1,1,0,1,0,0,1,0,1],
   [1,1,0,1,1,0,1,1,0],
   [0,0,0,0,0,0,1,0,0],
   [0,0,0,0,1,0,1,0,0],
   [0,0,0,0,1,0,1,1,0],
   [0,1,1,0,1,0,1,2,1],
   [0,1,1,0,0,0,1,0,0]]
  [[1,3,4,8,9], [1,2,4,5,8], [1,4,5,6,8], [1,2,4,5,7,8], [3], [6,7], [4,5,7], [1,2,3,4,5,9], [4,6,7]]
  [[3,4,5,7], [1,2,3,5,6,7], [2,4,8], [1,4,5,8], [1,4,5,6,8,9], [], [1,2,3,4,5,6,7,9], [1,4,7], [4,8]]
  [[1,2,3,4,5,6,8], [1,4,5,8,9], [1,4,8], [5,7], [1,6,8], [2,3,4,7], [2,3,4,7], [4,5], [1,4,5,6,7,9]]
  [[[0], [0], [0], [0], [0], [2,6,7], [], [2,5,6], [2,5,6,7]],
   [[0], [0], [7,9], [0], [0], [3,6,7], [0], [3,6,9], [3,6,7,9]],
   [[0], [0], [7,9], [0], [2,3,7], [2,3,7], [0], [2,3,9], [0]],
   [[0], [0], [3,6], [0], [0], [3,9], [0], [0], [6,9]],
   [[1,2,6,8,9], [4,8,9], [1,6], [2,7,9], [2,7], [2,4,5,7,9], [0], [5,6,8,9], [1,5,6,9]],
   [[1,2,8,9], [4,8,9], [1,3], [2,3,9], [0], [2,3,4,5,9], [0], [5,8,9], [1,5,9]],
   [[1,6,8,9], [8,9], [1,6], [2,3,6,9], [0], [1,2,3,8,9], [0], [0], [2,3]],
   [[6,8], [0], [0], [6,7], [0], [7,8], [0], [0], [0]],
   [[1,8,9], [0], [0], [2,3,9], [2,3], [1,2,3,8,9], [0], [2,3], [2,3]]]
  true false

/-- Intermediate propagation state c1_r3_bline on the idempotence counterexample grid. -/
def Tc1_r3_bline : PropSt := mkPropSt
  [[3,1,8,4,9,0,0,0,0],
   [5,2,0,1,8,0,4,0,0],
   [4,6,0,5,0,0,1,0,8],
   [7,5,0,8,1,0,2,4,0],
   [0,0,0,0,0,0,3,0,0],
   [0,0,0,0,6,0,7,0,0],
   [0,0,0,0,4,0,5,7,0],
   [0,3,2,0,5,0,9,1,4],
   [0,7,4,0,0,0,6,0,0]]
  [[1,1,1,1,1,0,0,0,0],
   [1,1,0,1,1,0,1,0,0],
   [1,1,0,1,0,0,1,0,1],
   [1,1,0,1,1,0,1,1,0],
   [0,0,0,0,0,0,1,0,0],
   [0,0,0,0,1,0,1,0,0],
   [0,0,0,0,1,0,1,1,0],
   [0,1,1,0,1,0,1,2,1],
   [0,1,1,0,0,0,1,0,0]]
  [[1,3,4,8,9], [1,2,4,5,8], [1,4,5,6,8], [1,2,4,5,7,8], [3], [6,7], [4,5,7], [1,2,3,4,5,9], [4,6,7]]
  [[3,4,5,7], [1,2,3,5,6,7], [2,4,8], [1,4,5,8], [1,4,5,6,8,9], [], [1,2,3,4,5,6,7,9], [1,4,7], [4,8]]
  [[1,2,3,4,5,6,8], [1,4,5,8,9], [1,4,8], [5,7], [1,6,8], [2,3,4,7], [2,3,4,7], [4,5], [1,4,5,6,7,9]]
  [[[0], [0], [0], [0], [0], [2,6,7], [], [2,5,6], [2,5,6,7]],
   [[0], [0], [7,9], [0], [0], [3,6,7], [0], [3,6,9], [3,6,7,9]],
   [[0], [0], [7,9], [0], [2,3,7], [2,3,7], [0], [2,3,9], [0]],
   [[0], [0], [3,6], [0], [0], [3,9], [0], [0], [6,9]],
   [[1,2,6,8,9], [4,8,9], [1,6], [2,7,9], [2,7], [2,4,5,7,9], [0], [5,6,8,9], [1,5,6,9]],
   [[1,2,8,9], [4,8,9], [1,3], [2,3,9], [0], [2,3,4,5,9], [0], [5,8,9], [1,5,9]],
   [[1,6,8,9], [8,9], [1,6], [2,3,6,9], [0], [1,2,3,8,9], [0], [0], [2,3]],
   [[6,8], [0], [0], [6,7], [0], [7,8], [0], [0], [0]],
   [[1,8,9], [0], [0], [2,3,9], [2,3], [1,2,3,8,9], [0], [2,3], [2,3]]]
  true false

/-- Intermediate propagation state c2_init on the idempotence counterexample grid. -/
def Tc2_init : PropSt := mkPropSt
  [[3,1,8,4,9,0,0,0,0],
   [5,2,0,1,8,0,4,0,0],
   [4,6,0,5,0,0,1,0,8],
   [7,5,0,8,1,0,2,4,0],
   [0,0,0,0,0,0,3,0,0],
   [0,0,0,0,6,0,7,0,0],
   [0,0,0,0,4,0,5,7,0],
   [0,3,2,0,5,0,9,1,4],
   [0,7,4,0,0,0,6,0,0]]
  [[1,1,1,1,1,0,0,0,0],
   [1,1,0,1,1,0,1,0,0],
   [1,1,0,1,0,0,1,0,1],
   [1,1,0,1,1,0,1,1,0],
   [0,0,0,0,0,0,1,0,0],
   [0,0,0,0,1,0,1,0,0],
   [0,0,0,0,1,0,1,1,0],
   [0,1,1,0,1,0,1,2,1],
   [0,1,1,0,0,0,1,0,0]]
  [[1,3,4,8,9], [1,2,4,5,8], [1,4,5,6,8], [1,2,4,5,7,8], [3], [6,7], [4,5,7], [1,2,3,4,5,9], [4,6,7]]
  [[3,4,5,7], [1,2,3,5,6,7], [2,4,8], [1,4,5,8], [1,4,5,6,8,9], [], [1,2,3,4,5,6,7,9], [1,4,7], [4,8]]
  [[1,2,3,4,5,6,8], [1,4,5,8,9], [1,4,8], [5,7], [1,6,8], [2,3,4,7], [2,3,4,7], [4,5], [1,4,5,6,7,9]]
  [[[0], [0], [0], [0], [0], [2,6,7], [], [2,5,6], [2,5,6,7]],
   [[0], [0], [7,9], [0], [0], [3,6,7], [0], [3,6,9], [3,6,7,9]],
   [[0], [0], [7,9], [0], [2,3,7], [2,3,7], [0], [2,3,9], [0]],
   [[0], [0], [3,6,9], [0], [0], [3,9], [0], [0], [6,9]],
   [[1,2,6,8,9], [4,8,9], [1,6,9], [2,7,9], [2,7], [2,4,5,7,9], [0], [5,6,8,9], [1,5,6,9]],
   [[1,2,8,9], [4,8,9], [1,3,9], [2,3,9], [0], [2,3,4,5,9], [0], [5,8,9], [1,5,9]],
   [[1,6,8,9], [8,9], [1,6,9], [2,3,6,9], [0], [1,2,3,6,8,9], [0], [0], [2,3]],
   [[6,8], [0], [0], [6,7], [0], [6,7,8], [0], [0], [0]],
   [[1,8,9], [0], [0], [2,3,9], [2,3], [1,2,3,8,9], [0], [2,3,8], [2,3]]]
  false true

/-- Intermediate propagation state c2_r1_naked on the idempotence counterexample grid. -/
def Tc2_r1_naked : PropSt := mkPropSt
  [[3,1,8,4,9,0,0,0,0],
   [5,2,0,1,8,0,4,0,0],
   [4,6,0,5,0,0,1,0,8],
   [7,5,0,8,1,0,2,4,0],
   [0,0,0,0,0,0,3,0,0],
   [0,0,0,0,6,0,7,0,0],
   [0,0,0,0,4,0,5,7,0],
   [0,3,2,0,5,0,9,1,4],
   [0,7,4,0,0,0,6,0,0]]
  [[1,1,1,1,1,0,0,0,0],
   [1,1,0,1,1,0,1,0,0],
   [1,1,0,1,0,0,1,0,1],
   [1,1,0,1,1,0,1,1,0],
   [0,0,0,0,0,0,1,0,0],
   [0,0,0,0,1,0,1,0,0],
   [0,0,0,0,1,0,1,1,0],
   [0,1,1,0,1,0,1,2,1],
   [0,1,1,0,0,0,1,0,0]]
  [[1,3,4,8,9], [1,2,4,5,8], [1,4,5,6,8], [1,2,4,5,7,8], [3], [6,7], [4,5,7], [1,2,3,4,5,9], [4,6,7]]
  [[3,4,5,7], [1,2,3,5,6,7], [2,4,8], [1,4,5,8], [1,4,5,6,8,9], [], [1,2,3,4,5,6,7,9], [1,4,7], [4,8]]
  [[1,2,3,4,5,6,8], [1,4,5,8,9], [1,4,8], [5,7], [1,6,8], [2,3,4,7], [2,3,4,7], [4,5], [1,4,5,6,7,9]]
  [[[0], [0], [0], [0], [0], [2,6,7], [], [2,5,6], [2,5,6,7]],
   [[0], [0], [7,9], [0], [0], [3,6,7], [0], [3,6,9], [3,6,7,9]],
   [[0], [0], [7,9], [0], [2,3,7], [2,3,7], [0], [2,3,9], [0]],
   [[0], [0], [3,6,9], [0], [0], [3,9], [0], [0], [6,9]],
   [[1,2,6,8,9], [4,8,9], [1,6,9], [2,7,9], [2,7], [2,4,5,7,9], [0], [5,6,8,9], [1,5,6,9]],
   [[1,2,8,9], [4,8,9], [1,3,9], [2,3,9], [0], [2,3,4,5,9], [0], [5,8,9], [1,5,9]],
   [[1,6,8,9], [8,9], [1,6,9], [2,3,6,9], [0], [1,2,3,6,8,9], [0], [0], [2,3]],
   [[6,8], [0], [0], [6,7], [0], [6,7,8], [0], [0], [0]],
   [[1,8,9], [0], [0], [2,3,9], [2,3], [1,2,3,8,9], [0], [2,3,8], [2,3]]]
  false false

/-- Intermediate propagation state c2_r1_hrows on the idempotence counterexample grid. -/
def Tc2_r1_hrows : PropSt := mkPropSt
  [[3,1,8,4,9,0,0,0,0],
   [5,2,0,1,8,0,4,0,0],
   [4,6,0,5,0,0,1,0,8],
   [7,5,0,8,1,0,2,4,0],
   [0,0,0,0,0,0,3,0,0],
   [0,0,0,0,6,0,7,0,0],
   [0,0,0,0,4,0,5,7,0],
   [0,3,2,0,5,0,9,1,4],
   [0,7,4,0,0,0,6,0,0]]
  [[1,1,1,1,1,0,0,0,0],
   [1,1,0,1,1,0,1,0,0],
   [1,1,0,1,0,0,1,0,1],
   [1,1,0,1,1,0,1,1,0],
   [0,0,0,0,0,0,1,0,0],
   [0,0,0,0,1,0,1,0,0],
   [0,0,0,0,1,0,1,1,0],
   [0,1,1,0,1,0,1,2,1],
   [0,1,1,0,0,0,1,0,0]]
  [[1,3,4,8,9], [1,2,4,5,8], [1,4,5,6,8], [1,2,4,5,7,8], [3], [6,7], [4,5,7], [1,2,3,4,5,9], [4,6,7]]
  [[3,4,5,7], [1,2,3,5,6,7], [2,4,8], [1,4,5,8], [1,4,5,6,8,9], [], [1,2,3,4,5,6,7,9], [1,4,7], [4,8]]
  [[1,2,3,4,5,6,8], [1,4,5,8,9], [1,4,8], [5,7], [1,6,8], [2,3,4,7], [2,3,4,7], [4,5], [1,4,5,6,7,9]]
  [[[0], [0], [0], [0], [0], [2,6,7], [], [2,5,6], [2,5,6,7]],
   [[0], [0], [7,9], [0], [0], [3,6,7], [0], [3,6,9], [3,6,7,9]],
   [[0], [0], [7,9], [0], [2,3,7], [2,3,7], [0], [2,3,9], [0]],
   [[0], [0], [3,6,9], [0], [0], [3,9], [0], [0], [6,9]],
   [[1,2,6,8,9], [4,8,9], [1,6,9], [2,7,9], [2,7], [2,4,5,7,9], [0], [5,6,8,9], [1,5,6,9]],
   [[1,2,8,9], [4,8,9], [1,3,9], [2,3,9], [0], [2,3,4,5,9], [0], [5,8,9], [1,5,9]],
   [[1,6,8,9], [8,9], [1,6,9], [2,3,6,9], [0], [1,2,3,6,8,9], [0], [0], [2,3]],
   [[6,8], [0], [0], [6,7], [0], [6,7,8], [0], [0], [0]],
   [[1,8,9], [0], [0], [2,3,9], [2,3], [1,2,3,8,9], [0], [2,3,8], [2,3]]]
  false false

/-- Intermediate propagation state c2_r1_hcols on the idempotence counterexample grid. -/
def Tc2_r1_hcols : PropSt := mkPropSt
  [[3,1,8,4,9,0,0,0,0],
   [5,2,0,1,8,0,4,0,0],
   [4,6,0,5,0,0,1,0,8],
   [7,5,0,8,1,0,2,4,0],
   [0,0,0,0,0,0,3,0,0],
   [0,0,0,0,6,0,7,0,0],
   [0,0,0,0,4,0,5,7,0],
   [0,3,2,0,5,0,9,1,4],
   [0,7,4,0,0,0,6,0,0]]
  [[1,1,1,1,1,0,0,0,0],
   [1,1,0,1,1,0,1,0,0],
   [1,1,0,1,0,0,1,0,1],
   [1,1,0,1,1,0,1,1,0],
   [0,0,0,0,0,0,1,0,0],
   [0,0,0,0,1,0,1,0,0],
   [0,0,0,0,1,0,1,1,0],
   [0,1,1,0,1,0,1,2,1],
   [0,1,1,0,0,0,1,0,0]]
  [[1,3,4,8,9], [1,2,4,5,8], [1,4,5,6,8], [1,2,4,5,7,8], [3], [6,7], [4,5,7], [1,2,3,4,5,9], [4,6,7]]
  [[3,4,5,7], [1,2,3,5,6,7], [2,4,8], [1,4,5,8], [1,4,5,6,8,9], [], [1,2,3,4,5,6,7,9], [1,4,7], [4,8]]
  [[1,2,3,4,5,6,8], [1,4,5,8,9], [1,4,8], [5,7], [1,6,8], [2,3,4,7], [2,3,4,7], [4,5], [1,4,5,6,7,9]]
  [[[0], [0], [0], [0], [0], [2,6,7], [], [2,5,6], [2,5,6,7]],
   [[0], [0], [7,9], [0], [0], [3,6,7], [0], [3,6,9], [3,6,7,9]],
   [[0], [0], [7,9], [0], [2,3,7], [2,3,7], [0], [2,3,9], [0]],
   [[0], [0], [3,6,9], [0], [0], [3,9], [0], [0], [6,9]],
   [[1,2,6,8,9], [4,8,9], [1,6,9], [2,7,9], [2,7], [2,4,5,7,9], [0], [5,6,8,9], [1,5,6,9]],
   [[1,2,8,9], [4,8,9], [1,3,9], [2,3,9], [0], [2,3,4,5,9], [0], [5,8,9], [1,5,9]],
   [[1,6,8,9], [8,9], [1,6,9], [2,3,6,9], [0], [1,2,3,6,8,9], [0], [0], [2,3]],
   [[6,8], [0], [0], [6,7], [0], [6,7,8], [0], [0], [0]],
   [[1,8,9], [0], [0], [2,3,9], [2,3], [1,2,3,8,9], [0], [2,3,8], [2,3]]]
  false false

/-- Intermediate propagation state c2_r1_hsq on the idempotence counterexample grid. -/
def Tc2_r1_hsq : PropSt := mkPropSt
  [[3,1,8,4,9,0,0,0,0],
   [5,2,0,1,8,0,4,0,0],
   [4,6,0,5,0,0,1,0,8],
   [7,5,0,8,1,0,2,4,0],
   [0,0,0,0,0,0,3,0,0],
   [0,0,0,0,6,0,7,0,0],
   [0,0,0,0,4,0,5,7,0],
   [0,3,2,0,5,0,9,1,4],
   [0,7,4,0,0,0,6,8,0]]
  [[1,1,1,1,1,0,0,0,0],
   [1,1,0,1,1,0,1,0,0],
   [1,1,0,1,0,0,1,0,1],
   [1,1,0,1,1,0,1,1,0],
   [0,0,0,0,0,0,1,0,0],
   [0,0,0,0,1,0,1,0,0],
   [0,0,0,0,1,0,1,1,0],
   [0,1,1,0,1,0,1,2,1],
   [0,1,1,0,0,0,1,2,0]]
  [[1,3,4,8,9], [1,2,4,5,8], [1,4,5,6,8], [1,2,4,5,7,8], [3], [6,7], [4,5,7], [1,2,3,4,5,9], [4,6,7,8]]
  [[3,4,5,7], [1,2,3,5,6,7], [2,4,8], [1,4,5,8], [1,4,5,6,8,9], [], [1,2,3,4,5,6,7,9], [1,4,7,8], [4,8]]
  [[1,2,3,4,5,6,8], [1,4,5,8,9], [1,4,8], [5,7], [1,6,8], [2,3,4,7], [2,3,4,7], [4,5], [1,4,5,6,7,8,9]]
  [[[0], [0], [0], [0], [0], [2,6,7], [], [2,5,6], [2,5,6,7]],
   [[0], [0], [7,9], [0], [0], [3,6,7], [0], [3,6,9], [3,6,7,9]],
   [[0], [0], [7,9], [0], [2,3,7], [2,3,7], [0], [2,3,9], [0]],
   [[0], [0], [3,6,9], [0], [0], [3,9], [0], [0], [6,9]],
   [[1,2,6,8,9], [4,8,9], [1,6,9], [2,7,9], [2,7], [2,4,5,7,9], [0], [5,6,9], [1,5,6,9]],
   [[1,2,8,9], [4,8,9], [1,3,9], [2,3,9], [0], [2,3,4,5,9], [0], [5,9], [1,5,9]],
   [[1,6,8,9], [8,9], [1,6,9], [2,3,6,9], [0], [1,2,3,6,8,9], [0], [0], [2,3]],
   [[6,8], [0], [0], [6,7], [0], [6,7,8], [0], [0], [0]],
   [[1,9], [0], [0], [2,3,9], [2,3], [1,2,3,9], [0], [0], [2,3]]]
  true true

/-- Intermediate propagation state c2_r1_bline on the idempotence counterexample grid. -/
def Tc2_r1_bline : PropSt := mkPropSt
  [[3,1,8,4,9,0,0,0,0],
   [5,2,0,1,8,0,4,0,0],
   [4,6,0,5,0,0,1,0,8],
   [7,5,0,8,1,0,2,4,0],
   [0,0,0,0,0,0,3,0,0],
   [0,0,0,0,6,0,7,0,0],
   [0,0,0,0,4,0,5,7,0],
   [0,3,2,0,5,0,9,1,4],
   [0,7,4,0,0,0,6,8,0]]
  [[1,1,1,1,1,0,0,0,0],
   [1,1,0,1,1,0,1,0,0],
   [1,1,0,1,0,0,1,0,1],
   [1,1,0,1,1,0,1,1,0],
   [0,0,0,0,0,0,1,0,0],
   [0,0,0,0,1,0,1,0,0],
   [0,0,0,0,1,0,1,1,0],
   [0,1,1,0,1,0,1,2,1],
   [0,1,1,0,0,0,1,2,0]]
  [[1,3,4,8,9], [1,2,4,5,8], [1,4,5,6,8], [1,2,4,5,7,8], [3], [6,7], [4,5,7], [1,2,3,4,5,9], [4,6,7,8]]
  [[3,4,5,7], [1,2,3,5,6,7], [2,4,8], [1,4,5,8], [1,4,5,6,8,9], [], [1,2,3,4,5,6,7,9], [1,4,7,8], [4,8]]
  [[1,2,3,4,5,6,8], [1,4,5,8,9], [1,4,8], [5,7], [1,6,8], [2,3,4,7], [2,3,4,7], [4,5], [1,4,5,6,7,8,9]]
  [[[0], [0], [0], [0], [0], [2,6,7], [], [2,5,6], [5,6,7]],
   [[0], [0], [7,9], [0], [0], [3,6,7], [0], [3,6,9], [6,7,9]],
   [[0], [0], [7,9], [0], [2,3,7], [2,3,7], [0], [2,3,9], [0]],
   [[0], [0], [3,6], [0], [0], [3,9], [0], [0], [6,9]],
   [[1,2,6,8,9], [4,8,9], [1,6], [2,7,9], [2,7], [2,4,5,7,9], [0], [5,6,9], [1,5,6,9]],
   [[1,2,8,9], [4,8,9], [1,3], [2,3,9], [0], [2,3,4,5,9], [0], [5,9], [1,5,9]],
   [[1,6,8,9], [8,9], [1,6], [2,3,6,9], [0], [1,2,3,8,9], [0], [0], [2,3]],
   [[6,8], [0], [0], [6,7], [0], [7,8], [0], [0], [0]],
   [[1,9], [0], [0], [2,3,9], [2,3], [1,2,3,9], [0], [0], [2,3]]]
  true true

/-- Intermediate propagation state c2_r2_naked on the idempotence counterexample grid. -/
def Tc2_r2_naked : PropSt := mkPropSt
  [[3,1,8,4,9,0,0,0,0],
   [5,2,0,1,8,0,4,0,0],
   [4,6,0,5,0,0,1,0,8],
   [7,5,0,8,1,0,2,4,0],
   [0,0,0,0,0,0,3,0,0],
   [0,0,0,0,6,0,7,0,0],
   [0,0,0,0,4,0,5,7,0],
   [0,3,2,0,5,0,9,1,4],
   [0,7,4,0,0,0,6,8,0]]
  [[1,1,1,1,1,0,0,0,0],
   [1,1,0,1,1,0,1,0,0],
   [1,1,0,1,0,0,1,0,1],
   [1,1,0,1,1,0,1,1,0],
   [0,0,0,0,0,0,1,0,0],
   [0,0,0,0,1,0,1,0,0],
   [0,0,0,0,1,0,1,1,0],
   [0,1,1,0,1,0,1,2,1],
   [0,1,1,0,0,0,1,2,0]]
  [[1,3,4,8,9], [1,2,4,5,8], [1,4,5,6,8], [1,2,4,5,7,8], [3], [6,7], [4,5,7], [1,2,3,4,5,9], [4,6,7,8]]
  [[3,4,5,7], [1,2,3,5,6,7], [2,4,8], [1,4,5,8], [1,4,5,6,8,9], [], [1,2,3,4,5,6,7,9], [1,4,7,8], [4,8]]
  [[1,2,3,4,5,6,8], [1,4,5,8,9], [1,4,8], [5,7], [1,6,8], [2,3,4,7], [2,3,4,7], [4,5], [1,4,5,6,7,8,9]]
  [[[0], [0], [0], [0], [0], [2,6,7], [], [2,5,6], [5,6,7]],
   [[0], [0], [7,9], [0], [0], [3,6,7], [0], [3,6,9], [6,7,9]],
   [[0], [0], [7,9], [0], [2,3,7], [2,3,7], [0], [2,3,9], [0]],
   [[0], [0], [3,6], [0], [0], [3,9], [0], [0], [6,9]],
   [[1,2,6,8,9], [4,8,9], [1,6], [2,7,9], [2,7], [2,4,5,7,9], [0], [5,6,9], [1,5,6,9]],
   [[1,2,8,9], [4,8,9], [1,3], [2,3,9], [0], [2,3,4,5,9], [0], [5,9], [1,5,9]],
   [[1,6,8,9], [8,9], [1,6], [2,3,6,9], [0], [1,2,3,8,9], [0], [0], [2,3]],
   [[6,8], [0], [0], [6,7], [0], [7,8], [0], [0], [0]],
   [[1,9], [0], [0], [2,3,9], [2,3], [1,2,3,9], [0], [0], [2,3]]]
  true false

/-- Intermediate propagation state c2_r2_hrows on the idempotence counterexample grid. -/
def Tc2_r2_hrows : PropSt := mkPropSt
  [[3,1,8,4,9,0,0,0,0],
   [5,2,0,1,8,0,4,0,0],
   [4,6,0,5,0,0,1,0,8],
   [7,5,0,8,1,0,2,4,0],
   [0,0,0,0,0,0,3,0,0],
   [0,0,0,0,6,0,7,0,0],
   [0,0,0,0,4,0,5,7,0],
   [0,3,2,0,5,0,9,1,4],
   [0,7,4,0,0,0,6,8,0]]
  [[1,1,1,1,1,0,0,0,0],
   [1,1,0,1,1,0,1,0,0],
   [1,1,0,1,0,0,1,0,1],
   [1,1,0,1,1,0,1,1,0],
   [0,0,0,0,0,0,1,0,0],
   [0,0,0,0,1,0,1,0,0],
   [0,0,0,0,1,0,1,1,0],
   [0,1,1,0,1,0,1,2,1],
   [0,1,1,0,0,0,1,2,0]]
  [[1,3,4,8,9], [1,2,4,5,8], [1,4,5,6,8], [1,2,4,5,7,8], [3], [6,7], [4,5,7], [1,2,3,4,5,9], [4,6,7,8]]
  [[3,4,5,7], [1,2,3,5,6,7], [2,4,8], [1,4,5,8], [1,4,5,6,8,9], [], [1,2,3,4,5,6,7,9], [1,4,7,8], [4,8]]
  [[1,2,3,4,5,6,8], [1,4,5,8,9], [1,4,8], [5,7], [1,6,8], [2,3,4,7], [2,3,4,7], [4,5], [1,4,5,6,7,8,9]]
  [[[0], [0], [0], [0], [0], [2,6,7], [], [2,5,6], [5,6,7]],
   [[0], [0], [7,9], [0], [0], [3,6,7], [0], [3,6,9], [6,7,9]],
   [[0], [0], [7,9], [0], [2,3,7], [2,3,7], [0], [2,3,9], [0]],
   [[0], [0], [3,6], [0], [0], [3,9], [0], [0], [6,9]],
   [[1,2,6,8,9], [4,8,9], [1,6], [2,7,9], [2,7], [2,4,5,7,9], [0], [5,6,9], [1,5,6,9]],
   [[1,2,8,9], [4,8,9], [1,3], [2,3,9], [0], [2,3,4,5,9], [0], [5,9], [1,5,9]],
   [[1,6,8,9], [8,9], [1,6], [2,3,6,9], [0], [1,2,3,8,9], [0], [0], [2,3]],
   [[6,8], [0], [0], [6,7], [0], [7,8], [0], [0], [0]],
   [[1,9], [0], [0], [2,3,9], [2,3], [1,2,3,9], [0], [0], [2,3]]]
  true false

/-- Intermediate propagation state c2_r2_hcols on the idempotence counterexample grid. -/
def Tc2_r2_hcols : PropSt := mkPropSt
  [[3,1,8,4,9,0,0,0,0],
   [5,2,0,1,8,0,4,0,0],
   [4,6,0,5,0,0,1,0,8],
   [7,5,0,8,1,0,2,4,0],
   [0,0,0,0,0,0,3,0,0],
   [0,0,0,0,6,0,7,0,0],
   [0,0,0,0,4,0,5,7,0],
   [0,3,2,0,5,0,9,1,4],
   [0,7,4,0,0,0,6,8,0]]
  [[1,1,1,1,1,0,0,0,0],
   [1,1,0,1,1,0,1,0,0],
   [1,1,0,1,0,0,1,0,1],
   [1,1,0,1,1,0,1,1,0],
   [0,0,0,0,0,0,1,0,0],
   [0,0,0,0,1,0,1,0,0],
   [0,0,0,0,1,0,1,1,0],
   [0,1,1,0,1,0,1,2,1],
   [0,1,1,0,0,0,1,2,0]]
  [[1,3,4,8,9], [1,2,4,5,8], [1,4,5,6,8], [1,2,4,5,7,8], [3], [6,7], [4,5,7], [1,2,3,4,5,9], [4,6,7,8]]
  [[3,4,5,7], [1,2,3,5,6,7], [2,4,8], [1,4,5,8], [1,4,5,6,8,9], [], [1,2,3,4,5,6,7,9], [1,4,7,8], [4,8]]
  [[1,2,3,4,5,6,8], [1,4,5,8,9], [1,4,8], [5,7], [1,6,8], [2,3,4,7], [2,3,4,7], [4,5], [1,4,5,6,7,8,9]]
  [[[0], [0], [0], [0], [0], [2,6,7], [], [2,5,6], [5,6,7]],
   [[0], [0], [7,9], [0], [0], [3,6,7], [0], [3,6,9], [6,7,9]],
   [[0], [0], [7,9], [0], [2,3,7], [2,3,7], [0], [2,3,9], [0]],
   [[0], [0], [3,6], [0], [0], [3,9], [0], [0], [6,9]],
   [[1,2,6,8,9], [4,8,9], [1,6], [2,7,9], [2,7], [2,4,5,7,9], [0], [5,6,9], [1,5,6,9]],
   [[1,2,8,9], [4,8,9], [1,3], [2,3,9], [0], [2,3,4,5,9], [0], [5,9], [1,5,9]],
   [[1,6,8,9], [8,9], [1,6], [2,3,6,9], [0], [1,2,3,8,9], [0], [0], [2,3]],
   [[6,8], [0], [0], [6,7], [0], [7,8], [0], [0], [0]],
   [[1,9], [0], [0], [2,3,9], [2,3], [1,2,3,9], [0], [0], [2,3]]]
  true false

/-- Intermediate propagation state c2_r2_hsq on the idempotence counterexample grid. -/
def Tc2_r2_hsq : PropSt := mkPropSt
  [[3,1,8,4,9,0,0,0,0],
   [5,2,0,1,8,0,4,0,0],
   [4,6,0,5,0,0,1,0,8],
   [7,5,0,8,1,0,2,4,0],
   [0,0,0,0,0,0,3,0,0],
   [0,0,0,0,6,0,7,0,0],
   [0,0,0,0,4,0,5,7,0],
   [0,3,2,0,5,0,9,1,4],
   [0,7,4,0,0,0,6,8,0]]
  [[1,1,1,1,1,0,0,0,0],
   [1,1,0,1,1,0,1,0,0],
   [1,1,0,1,0,0,1,0,1],
   [1,1,0,1,1,0,1,1,0],
   [0,0,0,0,0,0,1,0,0],
   [0,0,0,0,1,0,1,0,0],
   [0,0,0,0,1,0,1,1,0],
   [0,1,1,0,1,0,1,2,1],
   [0,1,1,0,0,0,1,2,0]]
  [[1,3,4,8,9], [1,2,4,5,8], [1,4,5,6,8], [1,2,4,5,7,8], [3], [6,7], [4,5,7], [1,2,3,4,5,9], [4,6,7,8]]
  [[3,4,5,7], [1,2,3,5,6,7], [2,4,8], [1,4,5,8], [1,4,5,6,8,9], [], [1,2,3,4,5,6,7,9], [1,4,7,8], [4,8]]
  [[1,2,3,4,5,6,8], [1,4,5,8,9], [1,4,8], [5,7], [1,6,8], [2,3,4,7], [2,3,4,7], [4,5], [1,4,5,6,7,8,9]]
  [[[0], [0], [0], [0], [0], [2,6,7], [], [2,5,6], [5,6,7]],
   [[0], [0], [7,9], [0], [0], [3,6,7], [0], [3,6,9], [6,7,9]],
   [[0], [0], [7,9], [0], [2,3,7], [2,3,7], [0], [2,3,9], [0]],
   [[0], [0], [3,6], [0], [0], [3,9], [0], [0], [6,9]],
   [[1,2,6,8,9], [4,8,9], [1,6], [2,7,9], [2,7], [2,4,5,7,9], [0], [5,6,9], [1,5,6,9]],
   [[1,2,8,9], [4,8,9], [1,3], [2,3,9], [0], [2,3,4,5,9], [0], [5,9], [1,5,9]],
   [[1,6,8,9], [8,9], [1,6], [2,3,6,9], [0], [1,2,3,8,9], [0], [0], [2,3]],
   [[6,8], [0], [0], [6,7], [0], [7,8], [0], [0], [0]],
   [[1,9], [0], [0], [2,3,9], [2,3], [1,2,3,9], [0], [0], [2,3]]]
  true false

/-- Intermediate propagation state c2_r2_bline on the idempotence counterexample grid. -/
def Tc2_r2_bline : PropSt := mkPropSt
  [[3,1,8,4,9,0,0,0,0],
   [5,2,0,1,8,0,4,0,0],
   [4,6,0,5,0,0,1,0,8],
   [7,5,0,8,1,0,2,4,0],
   [0,0,0,0,0,0,3,0,0],
   [0,0,0,0,6,0,7,0,0],
   [0,0,0,0,4,0,5,7,0],
   [0,3,2,0,5,0,9,1,4],
   [0,7,4,0,0,0,6,8,0]]
  [[1,1,1,1,1,0,0,0,0],
   [1,1,0,1,1,0,1,0,0],
   [1,1,0,1,0,0,1,0,1],
   [1,1,0,1,1,0,1,1,0],
   [0,0,0,0,0,0,1,0,0],
   [0,0,0,0,1,0,1,0,0],
   [0,0,0,0,1,0,1,1,0],
   [0,1,1,0,1,0,1,2,1],
   [0,1,1,0,0,0,1,2,0]]
  [[1,3,4,8,9], [1,2,4,5,8], [1,4,5,6,8], [1,2,4,5,7,8], [3], [6,7], [4,5,7], [1,2,3,4,5,9], [4,6,7,8]]
  [[3,4,5,7], [1,2,3,5,6,7], [2,4,8], [1,4,5,8], [1,4,5,6,8,9], [], [1,2,3,4,5,6,7,9], [1,4,7,8], [4,8]]
  [[1,2,3,4,5,6,8], [1,4,5,8,9], [1,4,8], [5,7], [1,6,8], [2,3,4,7], [2,3,4,7], [4,5], [1,4,5,6,7,8,9]]
  [[[0], [0], [0], [0], [0], [2,6,7], [], [2,5,6], [5,6,7]],
   [[0], [0], [7,9], [0], [0], [3,6,7], [0], [3,6,9], [6,7,9]],
   [[0], [0], [7,9], [0], [2,3,7], [2,3,7], [0], [2,3,9], [0]],
   [[0], [0], [3,6], [0], [0], [3,9], [0], [0], [6,9]],
   [[1,2,6,8,9], [4,8,9], [1,6], [2,7,9], [2,7], [2,4,5,7,9], [0], [5,6,9], [1,5,6,9]],
   [[1,2,8,9], [4,8,9], [1,3], [2,3,9], [0], [2,3,4,5,9], [0], [5,9], [1,5,9]],
   [[1,6,8,9], [8,9], [1,6], [2,3,6,9], [0], [1,2,3,8,9], [0], [0], [2,3]],
   [[6,8], [0], [0], [6,7], [0], [7,8], [0], [0], [0]],
   [[1,9], [0], [0], [2,3,9], [2,3], [1,2,3,9], [0], [0], [2,3]]]
  true false

/-- Strict row-major order on positions (the scan order of findBestCell). -/
def rmLt (p q : Pos) : Prop :=
  p.1.val < q.1.val ∨ (p.1.val = q.1.val ∧ p.2.val < q.2.val)

instance rmLt.dec (p q : Pos) : Decidable (rmLt p q) := by
  unfold rmLt; infer_instance

/-- Premise of the amended C8: no currently empty cell has an empty options
list. -/
def NoZeroOptions (s : SolverState) : Prop :=
  ∀ p : Pos, s.board p.1 p.2 = none → (getValidNumbers s p.1 p.2).length ≠ 0

instance NoZeroOptions.dec (s : SolverState) : Decidable (NoZeroOptions s) := by
  unfold NoZeroOptions; infer_instance

/-- The cell-selection property of the amended C8: any returned cell is an
empty cell of minimal option count, the row-major-first among the minima; and
the scan stops at the row-major-first one-option cell, whatever comes after
it. -/
def FBCGood (s : SolverState) : Prop :=
  (∀ bc, findBestCell s = some bc →
    s.board bc.row bc.col = none ∧ bc.options = getValidNumbers s bc.row bc.col ∧
    (∀ p : Pos, s.board p.1 p.2 = none →
      bc.options.length ≤ (getValidNumbers s p.1 p.2).length) ∧
    (∀ p : Pos, s.board p.1 p.2 = none → rmLt p (bc.row, bc.col) →
      bc.options.length < (getValidNumbers s p.1 p.2).length)) ∧
  (∀ l₁ p l₂, allCells = l₁ ++ p :: l₂ → s.board p.1 p.2 = none →
    (getValidNumbers s p.1 p.2).length = 1 →
    (∀ q ∈ l₁, s.board q.1 q.2 = none → (getValidNumbers s q.1 q.2).length ≠ 1) →
    ∀ l₃, findBestAux s (l₁ ++ p :: l₃) none 10 =
      some ⟨p.1, p.2, getValidNumbers s p.1 p.2⟩)

/-- A valid board where an empty cell with zero options (row 0, column 0)
precedes the only empty cell with exactly one option (row 8, column 8). -/
def gFB : SBoard := ofL [
  [0,2,3,4,5,6,7,8,9],
  [1,0,0,0,0,0,0,0,0],
  [0,0,0,0,0,0,0,0,0],
  [0,0,0,0,0,0,0,0,0],
  [0,0,0,0,0,0,0,0,0],
  [0,0,0,0,0,0,0,0,0],
  [0,0,0,0,0,0,0,0,0],
  [0,0,0,0,0,0,0,0,0],
  [2,3,4,5,6,7,8,9,0]]

/-! ### Theorems -/

lemma mem_allCells (p : Pos) : p ∈ allCells := by
  rcases p with ⟨i, j⟩
  simp only [allCells, List.mem_flatMap, List.mem_map, List.mem_finRange]
  exact ⟨i, trivial, j, trivial, rfl⟩

lemma allCells_nodup : allCells.Nodup := by decide

lemma sameUnit_symm {p q : Pos} (h : sameUnit p q) : sameUnit q p := by
  rcases h with h | h | h
  · exact Or.inl h.symm
  · exact Or.inr (Or.inl h.symm)
  · exact Or.inr (Or.inr h.symm)

lemma isValidAux_cons_none {b : SBoard} {rows cols squares : Fin 9 → Finset Nat}
    {p : Pos} {l : List Pos} (h : b p.1 p.2 = none) :
    isValidAux b rows cols squares (p :: l) = isValidAux b rows cols squares l := by
  rw [isValidAux, h]

lemma isValidAux_cons_some {b : SBoard} {rows cols squares : Fin 9 → Finset Nat}
    {p : Pos} {l : List Pos} {v : Nat} (h : b p.1 p.2 = some v) :
    isValidAux b rows cols squares (p :: l) =
      if v ∈ rows p.1 ∨ v ∈ cols p.2 ∨ v ∈ squares (getSquareIndex p.1 p.2) then false
      else
        isValidAux b
          (Function.update rows p.1 (insert v (rows p.1)))
          (Function.update cols p.2 (insert v (cols p.2)))
          (Function.update squares (getSquareIndex p.1 p.2)
            (insert v (squares (getSquareIndex p.1 p.2)))) l := by
  rw [isValidAux, h]

lemma isValidAux_false_sound (b : SBoard) :
    ∀ (l : List Pos) (rows cols squares : Fin 9 → Finset Nat), l.Nodup →
    (∀ i v, v ∈ rows i → ∃ q : Pos, q ∉ l ∧ q.1 = i ∧ b q.1 q.2 = some v) →
    (∀ j v, v ∈ cols j → ∃ q : Pos, q ∉ l ∧ q.2 = j ∧ b q.1 q.2 = some v) →
    (∀ k v, v ∈ squares k →
      ∃ q : Pos, q ∉ l ∧ getSquareIndex q.1 q.2 = k ∧ b q.1 q.2 = some v) →
    isValidAux b rows cols squares l = false → specHasDuplicate b := by
  intro l
  induction l with
  | nil => intro rows cols squares _ _ _ _ h; simp [isValidAux] at h
  | cons p rest ih =>
    intro rows cols squares hnd hrows hcols hsq h
    rcases hbp : b p.1 p.2 with _ | v
    · rw [isValidAux_cons_none hbp] at h
      refine ih rows cols squares (List.Nodup.of_cons hnd) ?_ ?_ ?_ h
      · intro i v hv
        obtain ⟨q, hq, h1, h2⟩ := hrows i v hv
        exact ⟨q, fun hm => hq (List.mem_cons_of_mem _ hm), h1, h2⟩
      · intro j v hv
        obtain ⟨q, hq, h1, h2⟩ := hcols j v hv
        exact ⟨q, fun hm => hq (List.mem_cons_of_mem _ hm), h1, h2⟩
      · intro k v hv
        obtain ⟨q, hq, h1, h2⟩ := hsq k v hv
        exact ⟨q, fun hm => hq (List.mem_cons_of_mem _ hm), h1, h2⟩
    · rw [isValidAux_cons_some hbp] at h
      by_cases hc : v ∈ rows p.1 ∨ v ∈ cols p.2 ∨ v ∈ squares (getSquareIndex p.1 p.2)
      · rcases hc with hc | hc | hc
        · obtain ⟨q, hq, h1, h2⟩ := hrows p.1 v hc
          exact ⟨p, q, fun he => hq (he ▸ List.mem_cons_self p rest), Or.inl h1.symm,
            v, hbp, h2⟩
        · obtain ⟨q, hq, h1, h2⟩ := hcols p.2 v hc
          exact ⟨p, q, fun he => hq (he ▸ List.mem_cons_self p rest),
            Or.inr (Or.inl h1.symm), v, hbp, h2⟩
        · obtain ⟨q, hq, h1, h2⟩ := hsq (getSquareIndex p.1 p.2) v hc
          exact ⟨p, q, fun he => hq (he ▸ List.mem_cons_self p rest),
            Or.inr (Or.inr h1.symm), v, hbp, h2⟩
      · rw [if_neg hc] at h
        have hpnotin : p ∉ rest := (List.nodup_cons.mp hnd).1
        refine ih _ _ _ (List.Nodup.of_cons hnd) ?_ ?_ ?_ h
        · intro i x hx
          by_cases hi : i = p.1
          · subst hi
            rw [Function.update_same] at hx
            rcases Finset.mem_insert.mp hx with hx | hx
            · exact ⟨p, hpnotin, rfl, hx ▸ hbp⟩
            · obtain ⟨q, hq, h1, h2⟩ := hrows _ x hx
              exact ⟨q, fun hm => hq (List.mem_cons_of_mem _ hm), h1, h2⟩
          · rw [Function.update_noteq hi] at hx
            obtain ⟨q, hq, h1, h2⟩ := hrows i x hx
            exact ⟨q, fun hm => hq (List.mem_cons_of_mem _ hm), h1, h2⟩
        · intro j x hx
          by_cases hj : j = p.2
          · subst hj
            rw [Function.update_same] at hx
            rcases Finset.mem_insert.mp hx with hx | hx
            · exact ⟨p, hpnotin, rfl, hx ▸ hbp⟩
            · obtain ⟨q, hq, h1, h2⟩ := hcols _ x hx
              exact ⟨q, fun hm => hq (List.mem_cons_of_mem _ hm), h1, h2⟩
          · rw [Function.update_noteq hj] at hx
            obtain ⟨q, hq, h1, h2⟩ := hcols j x hx
            exact ⟨q, fun hm => hq (List.mem_cons_of_mem _ hm), h1, h2⟩
        · intro k x hx
          by_cases hk : k = getSquareIndex p.1 p.2
          · subst hk
            rw [Function.update_same] at hx
            rcases Finset.mem_insert.mp hx with hx | hx
            · exact ⟨p, hpnotin, rfl, hx ▸ hbp⟩
            · obtain ⟨q, hq, h1, h2⟩ := hsq _ x hx
              exact ⟨q, fun hm => hq (List.mem_cons_of_mem _ hm), h1, h2⟩
          · rw [Function.update_noteq hk] at hx
            obtain ⟨q, hq, h1, h2⟩ := hsq k x hx
            exact ⟨q, fun hm => hq (List.mem_cons_of_mem _ hm), h1, h2⟩

lemma isValidAux_suffix (b : SBoard) (l₂ : List Pos) :
    ∀ (l₁ : List Pos) (rows cols squares : Fin 9 → Finset Nat),
    isValidAux b rows cols squares (l₁ ++ l₂) = true →
    ∃ rows' cols' squares', (∀ i, rows i ⊆ rows' i) ∧ (∀ j, cols j ⊆ cols' j) ∧
      (∀ k, squares k ⊆ squares' k) ∧ isValidAux b rows' cols' squares' l₂ = true := by
  intro l₁
  induction l₁ with
  | nil =>
    intro rows cols squares h
    exact ⟨rows, cols, squares, fun _ => Finset.Subset.refl _, fun _ => Finset.Subset.refl _,
      fun _ => Finset.Subset.refl _, h⟩
  | cons p rest ih =>
    intro rows cols squares h
    rw [List.cons_append] at h
    rcases hbp : b p.1 p.2 with _ | v
    · rw [isValidAux_cons_none hbp] at h; exact ih rows cols squares h
    · rw [isValidAux_cons_some hbp] at h
      by_cases hc : v ∈ rows p.1 ∨ v ∈ cols p.2 ∨ v ∈ squares (getSquareIndex p.1 p.2)
      · rw [if_pos hc] at h; exact absurd h (by simp)
      · rw [if_neg hc] at h
        obtain ⟨r', c', s', hr, hc', hs, hres⟩ := ih _ _ _ h
        refine ⟨r', c', s', ?_, ?_, ?_, hres⟩
        · intro i
          refine Finset.Subset.trans ?_ (hr i)
          by_cases hi : i = p.1
          · subst hi; rw [Function.update_same]; exact Finset.subset_insert _ _
          · rw [Function.update_noteq hi]
        · intro j
          refine Finset.Subset.trans ?_ (hc' j)
          by_cases hj : j = p.2
          · subst hj; rw [Function.update_same]; exact Finset.subset_insert _ _
          · rw [Function.update_noteq hj]
        · intro k
          refine Finset.Subset.trans ?_ (hs k)
          by_cases hk : k = getSquareIndex p.1 p.2
          · subst hk; rw [Function.update_same]; exact Finset.subset_insert _ _
          · rw [Function.update_noteq hk]

lemma isValidAux_split (b : SBoard) (l₂ : List Pos) (p : Pos) (v : Nat)
    (hbp : b p.1 p.2 = some v) :
    ∀ (l₁ : List Pos) (rows cols squares : Fin 9 → Finset Nat), p ∈ l₁ →
    isValidAux b rows cols squares (l₁ ++ l₂) = true →
    ∃ rows' cols' squares', v ∈ rows' p.1 ∧ v ∈ cols' p.2 ∧
      v ∈ squares' (getSquareIndex p.1 p.2) ∧ isValidAux b rows' cols' squares' l₂ = true := by
  intro l₁
  induction l₁ with
  | nil => intro _ _ _ hmem; exact absurd hmem (List.not_mem_nil p)
  | cons q rest ih =>
    intro rows cols squares hmem h
    rw [List.cons_append] at h
    by_cases hpq : p = q
    · subst hpq
      rw [isValidAux_cons_some hbp] at h
      by_cases hc : v ∈ rows p.1 ∨ v ∈ cols p.2 ∨ v ∈ squares (getSquareIndex p.1 p.2)
      · rw [if_pos hc] at h; exact absurd h (by simp)
      · rw [if_neg hc] at h
        obtain ⟨r', c', s', hr, hc', hs, hres⟩ := isValidAux_suffix b l₂ rest _ _ _ h
        refine ⟨r', c', s', ?_, ?_, ?_, hres⟩
        · exact hr p.1 (by rw [Function.update_same]; exact Finset.mem_insert_self _ _)
        · exact hc' p.2 (by rw [Function.update_same]; exact Finset.mem_insert_self _ _)
        · exact hs _ (by rw [Function.update_same]; exact Finset.mem_insert_self _ _)
    · have hmem' : p ∈ rest := by
        rcases List.mem_cons.mp hmem with he | hm
        · exact absurd he hpq
        · exact hm
      rcases hbq : b q.1 q.2 with _ | w
      · rw [isValidAux_cons_none hbq] at h; exact ih _ _ _ hmem' h
      · rw [isValidAux_cons_some hbq] at h
        by_cases hc : w ∈ rows q.1 ∨ w ∈ cols q.2 ∨ w ∈ squares (getSquareIndex q.1 q.2)
        · rw [if_pos hc] at h; exact absurd h (by simp)
        · rw [if_neg hc] at h; exact ih _ _ _ hmem' h

lemma isValid_detects (b : SBoard) {p q : Pos} {v : Nat} (_hpq : p ≠ q)
    (hu : sameUnit p q) (hp : b p.1 p.2 = some v) (hq : b q.1 q.2 = some v)
    {L T : List Pos} (hdec : allCells = L ++ q :: T) (hmemL : p ∈ L) :
    isValidBoard b = false := by
  by_contra hne
  have htrue : isValidBoard b = true := by
    cases hval : isValidBoard b
    · exact absurd hval hne
    · rfl
  rw [isValidBoard, hdec] at htrue
  obtain ⟨r', c', s', h1, h2, h3, hres⟩ :=
    isValidAux_split b (q :: T) p v hp L _ _ _ hmemL htrue
  rw [isValidAux_cons_some hq] at hres
  have hcond : v ∈ r' q.1 ∨ v ∈ c' q.2 ∨ v ∈ s' (getSquareIndex q.1 q.2) := by
    rcases hu with h | h | h
    · exact Or.inl (h ▸ h1)
    · exact Or.inr (Or.inl (h ▸ h2))
    · exact Or.inr (Or.inr (h ▸ h3))
  rw [if_pos hcond] at hres
  exact absurd hres (by simp)

/-- Claim C5. The validity gate is correct: isValidBoard returns false exactly
when some row, column or block holds two equal symbols among its filled
cells. (In this embedding isValidBoard is a pure function of the board, so it
cannot mutate the grid.) -/
theorem claim_validity_gate : ∀ b : SBoard, isValidBoard b = false ↔ specHasDuplicate b := by
  intro b
  constructor
  · intro h
    refine isValidAux_false_sound b allCells _ _ _ allCells_nodup ?_ ?_ ?_ h
    · intro i v hv; exact absurd hv (Finset.not_mem_empty v)
    · intro j v hv; exact absurd hv (Finset.not_mem_empty v)
    · intro k v hv; exact absurd hv (Finset.not_mem_empty v)
  · rintro ⟨p, q, hpq, hu, v, hp, hq⟩
    obtain ⟨L, T, hdec⟩ := List.append_of_mem (mem_allCells q)
    have hpmem : p ∈ L ∨ p ∈ T := by
      have := mem_allCells p
      rw [hdec] at this
      rcases List.mem_append.mp this with h | h
      · exact Or.inl h
      · rcases List.mem_cons.mp h with he | hm
        · exact absurd he hpq
        · exact Or.inr hm
    rcases hpmem with hmem | hmem
    · exact isValid_detects b hpq hu hp hq hdec hmem
    · obtain ⟨T₁, T₂, hT⟩ := List.append_of_mem hmem
      have hdec' : allCells = (L ++ q :: T₁) ++ p :: T₂ := by
        rw [hdec, hT]; simp
      exact isValid_detects b (Ne.symm hpq) (sameUnit_symm hu) hq hp hdec'
        (by simp [List.mem_append, List.mem_cons])

lemma mem_squareCells {p : Pos} {k : Fin 9} :
    p ∈ squareCells k ↔ getSquareIndex p.1 p.2 = k := by
  rcases p with ⟨⟨i, hi⟩, ⟨j, hj⟩⟩
  rcases k with ⟨k, hk⟩
  simp only [squareCells, List.mem_flatMap, List.mem_map, List.mem_finRange]
  constructor
  · rintro ⟨r, -, c, -, heq⟩
    have hr := r.isLt
    have hc := c.isLt
    rw [Prod.ext_iff] at heq
    rcases heq with ⟨h1, h2⟩
    rw [Fin.ext_iff] at h1 h2 ⊢
    simp only [getSquareIndex] at *
    omega
  · intro h
    rw [Fin.ext_iff] at h
    simp only [getSquareIndex] at h
    refine ⟨⟨i % 3, by omega⟩, trivial, ⟨j % 3, by omega⟩, trivial, ?_⟩
    rw [Prod.ext_iff]
    constructor
    · rw [Fin.ext_iff]; simp only; omega
    · rw [Fin.ext_iff]; simp only; omega

lemma init_setsSync (b : SBoard) : SetsSync (initState b) := by
  refine ⟨?_, ?_, ?_⟩
  · intro i v
    simp only [initState, List.mem_toFinset, List.mem_filterMap, List.mem_finRange]
    constructor
    · rintro ⟨j, -, h⟩; exact ⟨j, h⟩
    · rintro ⟨j, h⟩; exact ⟨j, trivial, h⟩
  · intro j v
    simp only [initState, List.mem_toFinset, List.mem_filterMap, List.mem_finRange]
    constructor
    · rintro ⟨i, -, h⟩; exact ⟨i, h⟩
    · rintro ⟨i, h⟩; exact ⟨i, trivial, h⟩
  · intro k v
    simp only [initState, List.mem_toFinset, List.mem_filterMap]
    constructor
    · rintro ⟨p, hp, h⟩; exact ⟨p, mem_squareCells.mp hp, h⟩
    · rintro ⟨p, hp, h⟩; exact ⟨p, mem_squareCells.mpr hp, h⟩

lemma mem_getValidNumbers {s : SolverState} {i j : Fin 9} {v : Nat} :
    v ∈ getValidNumbers s i j ↔
      v ∈ digits ∧ v ∉ s.rows i ∧ v ∉ s.cols j ∧ v ∉ s.squares (getSquareIndex i j) := by
  simp only [getValidNumbers, List.mem_filter, Bool.not_eq_true', decide_eq_false_iff_not,
    not_or]

lemma getValidNumbers_len_le {s : SolverState} {i j : Fin 9} :
    (getValidNumbers s i j).length ≤ 9 :=
  le_trans (List.length_filter_le _ _) (by rfl)

lemma findBestAux_cons_filled {s : SolverState} {p : Pos} {l : List Pos}
    {best : Option BestCell} {m : Nat} {w : Nat} (hb : s.board p.1 p.2 = some w) :
    findBestAux s (p :: l) best m = findBestAux s l best m := by
  rw [findBestAux, hb]

lemma findBestAux_cons_empty {s : SolverState} {p : Pos} {l : List Pos}
    {best : Option BestCell} {m : Nat} (hb : s.board p.1 p.2 = none) :
    findBestAux s (p :: l) best m =
      if (getValidNumbers s p.1 p.2).length < m then
        if (getValidNumbers s p.1 p.2).length = 1 then
          some ⟨p.1, p.2, getValidNumbers s p.1 p.2⟩
        else findBestAux s l (some ⟨p.1, p.2, getValidNumbers s p.1 p.2⟩)
          (getValidNumbers s p.1 p.2).length
      else findBestAux s l best m := by
  rw [findBestAux, hb]

lemma findBestAux_acc_some {s : SolverState} :
    ∀ (l : List Pos) (bc : BestCell) (m : Nat), findBestAux s l (some bc) m ≠ none := by
  intro l
  induction l with
  | nil => intro bc m h; simp [findBestAux] at h
  | cons p rest ih =>
    intro bc m h
    rcases hb : s.board p.1 p.2 with _ | w
    · rw [findBestAux_cons_empty hb] at h
      by_cases hlt : (getValidNumbers s p.1 p.2).length < m
      · rw [if_pos hlt] at h
        by_cases h1 : (getValidNumbers s p.1 p.2).length = 1
        · rw [if_pos h1] at h; exact absurd h (by simp)
        · rw [if_neg h1] at h; exact ih _ _ h
      · rw [if_neg hlt] at h; exact ih _ _ h
    · rw [findBestAux_cons_filled hb] at h; exact ih _ _ h

lemma findBestAux_none_complete {s : SolverState} :
    ∀ (l : List Pos), findBestAux s l none 10 = none → ∀ p ∈ l, s.board p.1 p.2 ≠ none := by
  intro l
  induction l with
  | nil => intro _ p hp; exact absurd hp (List.not_mem_nil p)
  | cons q rest ih =>
    intro h p hp
    rcases hb : s.board q.1 q.2 with _ | w
    · rw [findBestAux_cons_empty hb] at h
      have hlt : (getValidNumbers s q.1 q.2).length < 10 :=
        Nat.lt_succ_of_le getValidNumbers_len_le
      rw [if_pos hlt] at h
      by_cases h1 : (getValidNumbers s q.1 q.2).length = 1
      · rw [if_pos h1] at h; exact absurd h (by simp)
      · rw [if_neg h1] at h; exact absurd h (findBestAux_acc_some rest _ _)
    · rw [findBestAux_cons_filled hb] at h
      rcases List.mem_cons.mp hp with he | hm
      · subst he; rw [hb]; simp
      · exact ih h p hm

lemma findBestAux_some_spec {s : SolverState} :
    ∀ (l : List Pos) (best : Option BestCell) (m : Nat) (bc' : BestCell),
    (∀ bc, best = some bc →
      s.board bc.row bc.col = none ∧ bc.options = getValidNumbers s bc.row bc.col) →
    findBestAux s l best m = some bc' →
    s.board bc'.row bc'.col = none ∧ bc'.options = getValidNumbers s bc'.row bc'.col := by
  intro l
  induction l with
  | nil =>
    intro best m bc' hacc h
    rw [findBestAux] at h
    exact hacc bc' h
  | cons q rest ih =>
    intro best m bc' hacc h
    rcases hb : s.board q.1 q.2 with _ | w
    · rw [findBestAux_cons_empty hb] at h
      by_cases hlt : (getValidNumbers s q.1 q.2).length < m
      · rw [if_pos hlt] at h
        by_cases h1 : (getValidNumbers s q.1 q.2).length = 1
        · rw [if_pos h1] at h
          injection h with h
          subst h
          exact ⟨hb, rfl⟩
        · rw [if_neg h1] at h
          refine ih _ _ _ ?_ h
          intro bc heq
          injection heq with heq
          subst heq
          exact ⟨hb, rfl⟩
      · rw [if_neg hlt] at h; exact ih _ _ _ hacc h
    · rw [findBestAux_cons_filled hb] at h; exact ih _ _ _ hacc h

lemma findBestCell_none_complete {s : SolverState} (h : findBestCell s = none) :
    completeB s.board := by
  intro i j
  exact findBestAux_none_complete allCells h (i, j) (mem_allCells (i, j))

lemma findBestCell_some_spec {s : SolverState} {bc : BestCell}
    (h : findBestCell s = some bc) :
    s.board bc.row bc.col = none ∧ bc.options = getValidNumbers s bc.row bc.col :=
  findBestAux_some_spec allCells none 10 bc (fun bc' h' => by cases h') h

lemma setCell_same {b : SBoard} {i j : Fin 9} {v : Option Nat} : setCell b i j v i j = v := by
  simp [setCell]

lemma setCell_ne {b : SBoard} {i j a c : Fin 9} {v : Option Nat} (h : ¬(a = i ∧ c = j)) :
    setCell b i j v a c = b a c := by
  simp only [setCell]
  rw [if_neg h]

lemma place_setsSync {s : SolverState} {i j : Fin 9} {v : Nat}
    (hs : SetsSync s) (he : s.board i j = none) : SetsSync (place s i j v) := by
  obtain ⟨hr, hc, hq⟩ := hs
  refine ⟨?_, ?_, ?_⟩
  · intro a x
    simp only [place]
    by_cases ha : a = i
    · subst ha
      rw [Function.update_same, Finset.mem_insert]
      constructor
      · rintro (rfl | hx)
        · exact ⟨j, setCell_same⟩
        · obtain ⟨j', hj'⟩ := (hr a x).mp hx
          refine ⟨j', ?_⟩
          have hne : ¬(a = a ∧ j' = j) := by
            rintro ⟨-, rfl⟩
            rw [he] at hj'; cases hj'
          rw [setCell_ne hne]; exact hj'
      · rintro ⟨j', hj'⟩
        by_cases hjj : j' = j
        · subst hjj
          rw [setCell_same] at hj'
          cases hj'
          exact Or.inl rfl
        · have hne : ¬(a = a ∧ j' = j) := by rintro ⟨-, rfl⟩; exact hjj rfl
          rw [setCell_ne hne] at hj'
          exact Or.inr ((hr a x).mpr ⟨j', hj'⟩)
    · rw [Function.update_noteq ha]
      constructor
      · intro hx
        obtain ⟨j', hj'⟩ := (hr a x).mp hx
        have hne : ¬(a = i ∧ j' = j) := by rintro ⟨rfl, -⟩; exact ha rfl
        exact ⟨j', by rw [setCell_ne hne]; exact hj'⟩
      · rintro ⟨j', hj'⟩
        have hne : ¬(a = i ∧ j' = j) := by rintro ⟨rfl, -⟩; exact ha rfl
        rw [setCell_ne hne] at hj'
        exact (hr a x).mpr ⟨j', hj'⟩
  · intro a x
    simp only [place]
    by_cases ha : a = j
    · subst ha
      rw [Function.update_same, Finset.mem_insert]
      constructor
      · rintro (rfl | hx)
        · exact ⟨i, setCell_same⟩
        · obtain ⟨i', hi'⟩ := (hc a x).mp hx
          refine ⟨i', ?_⟩
          have hne : ¬(i' = i ∧ a = a) := by
            rintro ⟨rfl, -⟩
            rw [he] at hi'; cases hi'
          rw [setCell_ne hne]; exact hi'
      · rintro ⟨i', hi'⟩
        by_cases hii : i' = i
        · subst hii
          rw [setCell_same] at hi'
          cases hi'
          exact Or.inl rfl
        · have hne : ¬(i' = i ∧ a = a) := by rintro ⟨rfl, -⟩; exact hii rfl
          rw [setCell_ne hne] at hi'
          exact Or.inr ((hc a x).mpr ⟨i', hi'⟩)
    · rw [Function.update_noteq ha]
      constructor
      · intro hx
        obtain ⟨i', hi'⟩ := (hc a x).mp hx
        have hne : ¬(i' = i ∧ a = j) := by rintro ⟨-, rfl⟩; exact ha rfl
        exact ⟨i', by rw [setCell_ne hne]; exact hi'⟩
      · rintro ⟨i', hi'⟩
        have hne : ¬(i' = i ∧ a = j) := by rintro ⟨-, rfl⟩; exact ha rfl
        rw [setCell_ne hne] at hi'
        exact (hc a x).mpr ⟨i', hi'⟩
  · intro k x
    simp only [place]
    by_cases hk : k = getSquareIndex i j
    · subst hk
      rw [Function.update_same, Finset.mem_insert]
      constructor
      · rintro (rfl | hx)
        · exact ⟨(i, j), rfl, setCell_same⟩
        · obtain ⟨p, hp1, hp2⟩ := (hq _ x).mp hx
          refine ⟨p, hp1, ?_⟩
          have hne : ¬(p.1 = i ∧ p.2 = j) := by
            rintro ⟨h1, h2⟩
            rw [show s.board p.1 p.2 = s.board i j by rw [h1, h2], he] at hp2
            cases hp2
          rw [setCell_ne hne]; exact hp2
      · rintro ⟨p, hp1, hp2⟩
        by_cases hpij : p.1 = i ∧ p.2 = j
        · rw [show setCell s.board i j (some v) p.1 p.2 = some v by
            rw [hpij.1, hpij.2, setCell_same]] at hp2
          cases hp2
          exact Or.inl rfl
        · rw [setCell_ne hpij] at hp2
          exact Or.inr ((hq _ x).mpr ⟨p, hp1, hp2⟩)
    · rw [Function.update_noteq hk]
      constructor
      · intro hx
        obtain ⟨p, hp1, hp2⟩ := (hq k x).mp hx
        have hne : ¬(p.1 = i ∧ p.2 = j) := by
          rintro ⟨h1, h2⟩
          apply hk
          rw [← hp1, h1, h2]
        exact ⟨p, hp1, by rw [setCell_ne hne]; exact hp2⟩
      · rintro ⟨p, hp1, hp2⟩
        have hne : ¬(p.1 = i ∧ p.2 = j) := by
          rintro ⟨h1, h2⟩
          apply hk
          rw [← hp1, h1, h2]
        rw [setCell_ne hne] at hp2
        exact (hq k x).mpr ⟨p, hp1, hp2⟩


lemma place_validB {s : SolverState} {i j : Fin 9} {v : Nat}
    (hs : SetsSync s) (hb : validB s.board) (_he : s.board i j = none)
    (hv : v ∈ getValidNumbers s i j) : validB (place s i j v).board := by
  obtain ⟨-, hnr, hnc, hnq⟩ := mem_getValidNumbers.mp hv
  rintro ⟨p, q, hpq, hu, x, hp, hq⟩
  simp only [place] at hp hq
  by_cases hpij : p.1 = i ∧ p.2 = j
  · rw [show setCell s.board i j (some v) p.1 p.2 = some v by
      rw [hpij.1, hpij.2, setCell_same]] at hp
    injection hp with hp
    subst hp
    by_cases hqij : q.1 = i ∧ q.2 = j
    · exact hpq (Prod.ext (hpij.1.trans hqij.1.symm) (hpij.2.trans hqij.2.symm))
    · rw [setCell_ne hqij] at hq
      rcases hu with h | h | h
      · refine hnr ((hs.1 i v).mpr ⟨q.2, ?_⟩)
        rw [← hpij.1, h]; exact hq
      · refine hnc ((hs.2.1 j v).mpr ⟨q.1, ?_⟩)
        rw [← hpij.2, h]; exact hq
      · refine hnq ((hs.2.2 (getSquareIndex i j) v).mpr ⟨q, ?_, hq⟩)
        rw [← h, hpij.1, hpij.2]
  · rw [setCell_ne hpij] at hp
    by_cases hqij : q.1 = i ∧ q.2 = j
    · rw [show setCell s.board i j (some v) q.1 q.2 = some v by
        rw [hqij.1, hqij.2, setCell_same]] at hq
      injection hq with hq
      subst hq
      rcases hu with h | h | h
      · refine hnr ((hs.1 i v).mpr ⟨p.2, ?_⟩)
        rw [← hqij.1, ← h]; exact hp
      · refine hnc ((hs.2.1 j v).mpr ⟨p.1, ?_⟩)
        rw [← hqij.2, ← h]; exact hp
      · refine hnq ((hs.2.2 (getSquareIndex i j) v).mpr ⟨p, ?_, hp⟩)
        rw [h, hqij.1, hqij.2]
    · rw [setCell_ne hqij] at hq
      exact hb ⟨p, q, hpq, hu, x, hp, hq⟩

lemma extendsB_refl (b : SBoard) : extendsB b b := fun _ _ _ h => h

lemma extendsB_trans {a b c : SBoard} (h1 : extendsB a b) (h2 : extendsB b c) :
    extendsB a c := fun i j v hv => h2 i j v (h1 i j v hv)

lemma place_extendsB {s : SolverState} {i j : Fin 9} {v : Nat}
    (he : s.board i j = none) : extendsB s.board (place s i j v).board := by
  intro a c x hx
  simp only [place]
  by_cases h : a = i ∧ c = j
  · rw [h.1, h.2, he] at hx; cases hx
  · rw [setCell_ne h]; exact hx

lemma tryOptionsWith_cons (bt : SolverState → Option SolverState) (s : SolverState)
    (i j : Fin 9) (v : Nat) (vs : List Nat) :
    tryOptionsWith bt s i j (v :: vs) =
      match bt (place s i j v) with
      | some s' => some s'
      | none => tryOptionsWith bt s i j vs := rfl

lemma tryOptionsWith_spec {bt : SolverState → Option SolverState}
    (hbt : ∀ s s', SInv s → bt s = some s' →
      SInv s' ∧ completeB s'.board ∧ extendsB s.board s'.board) :
    ∀ (l : List Nat) (s : SolverState) (i j : Fin 9) (s' : SolverState),
    SInv s → s.board i j = none → (∀ v ∈ l, v ∈ getValidNumbers s i j) →
    tryOptionsWith bt s i j l = some s' →
    SInv s' ∧ completeB s'.board ∧ extendsB s.board s'.board := by
  intro l
  induction l with
  | nil => intro s i j s' _ _ _ h; simp [tryOptionsWith] at h
  | cons v vs ih =>
    intro s i j s' hinv he hmem h
    rw [tryOptionsWith_cons] at h
    split at h
    · rename_i s0 heq
      injection h with h
      subst h
      have hpl : SInv (place s i j v) :=
        ⟨place_setsSync hinv.1 he,
         place_validB hinv.1 hinv.2 he (hmem v (List.mem_cons_self v vs))⟩
      obtain ⟨h1, h2, h3⟩ := hbt _ _ hpl heq
      exact ⟨h1, h2, extendsB_trans (place_extendsB he) h3⟩
    · exact ih s i j s' hinv he (fun w hw => hmem w (List.mem_cons_of_mem _ hw)) h

lemma backtrack_spec : ∀ (n : Nat) (s s' : SolverState), SInv s → backtrack n s = some s' →
    SInv s' ∧ completeB s'.board ∧ extendsB s.board s'.board := by
  intro n
  induction n with
  | zero => intro s s' _ h; simp [backtrack] at h
  | succ n ih =>
    intro s s' hinv h
    rw [backtrack] at h
    split at h
    · rename_i hfb
      injection h with h
      subst h
      exact ⟨hinv, findBestCell_none_complete hfb, extendsB_refl _⟩
    · rename_i bc hfb
      obtain ⟨he, hopts⟩ := findBestCell_some_spec hfb
      exact tryOptionsWith_spec (fun s1 s1' hi hh => ih s1 s1' hi hh)
        bc.options s bc.row bc.col s' hinv he (fun w hw => hopts ▸ hw) h

lemma solve_eq_of_cells {g r : SBoard} (hs : (solve g).isSome = true)
    (hc : ∀ p : Pos, cellAt (solve g) p.1 p.2 = r p.1 p.2) : solve g = some r := by
  rcases h : solve g with _ | b
  · rw [h] at hs; cases hs
  · have hb : b = r := by
      funext i j
      have hp := hc (i, j)
      rw [h] at hp
      exact hp
    rw [hb]

lemma solve_sound_general : ∀ g : SBoard, validB g → ∀ g', solve g = some g' →
    completeB g' ∧ extendsB g g' ∧ validB g' := by
  intro g hv g' h
  rw [solve] at h
  rcases hb : backtrack 82 (initState g) with _ | st
  · rw [hb] at h; cases h
  · rw [hb, Option.map_some'] at h
    injection h with h
    obtain ⟨hinv, hcomp, hext⟩ := backtrack_spec 82 (initState g) st ⟨init_setsSync g, hv⟩ hb
    subst h
    exact ⟨hcomp, hext, hinv.2⟩

/-- Claim C1. Soundness of solve: on an input satisfying the uniqueness
invariant, a non-null result is a completely filled grid that keeps every
originally filled cell and has no duplicate in any row, column or block. -/
theorem claim_solve_sound : ∀ g : SBoard, validB g → ∀ g', solve g = some g' →
    completeB g' ∧ extendsB g g' ∧ validB g' :=
  solve_sound_general

set_option maxRecDepth 40000 in
/-- Witness for C1: a concrete complete valid grid, on which solve succeeds
and returns the grid itself. -/
theorem claim_solve_sound_witness :
    validB bComplete ∧ solve bComplete = some bComplete ∧
      (completeB bComplete ∧ extendsB bComplete bComplete ∧ validB bComplete) :=
  ⟨by decide, solve_eq_of_cells (by decide) (by decide),
   claim_solve_sound bComplete (by decide) bComplete
     (solve_eq_of_cells (by decide) (by decide))⟩

set_option maxRecDepth 40000 in
/-- Claim C9. solve performs no validity check: on the concrete grid g9,
whose first row holds the symbol 2 twice, it still returns a fully filled
grid, and that grid keeps the duplicate, the constraint sets having silently
absorbed it. -/
theorem claim_solve_skips_validity :
    isValidBoard g9 = false ∧ solve g9 = some sol9 ∧ completeB sol9 ∧
      sol9 0 0 = sol9 0 1 ∧ sol9 0 0 ≠ none ∧ g9 0 0 = g9 0 1 ∧ g9 0 0 ≠ none :=
  ⟨by decide, solve_eq_of_cells (by decide) (by decide), by decide, by decide,
   by decide, by decide, by decide⟩


lemma setCellWS_same {b : BoardWS} {i j : Fin 9} {c : SCell} : setCellWS b i j c i j = c := by
  simp [setCellWS]

lemma setCellWS_ne {b : BoardWS} {i j a d : Fin 9} {c : SCell} (h : ¬(a = i ∧ d = j)) :
    setCellWS b i j c a d = b a d := by
  simp only [setCellWS]
  rw [if_neg h]

lemma pruneCell_fields {v : Nat} {st : PropSt} {p : Pos} :
    (pruneCell v st p).newBoard = st.newBoard ∧ (pruneCell v st p).solver = st.solver ∧
    (pruneCell v st p).hasChanges = st.hasChanges ∧
    (pruneCell v st p).iterChanges = st.iterChanges := by
  unfold pruneCell removeCandidate
  split
  · split
    · exact ⟨rfl, rfl, rfl, rfl⟩
    · exact ⟨rfl, rfl, rfl, rfl⟩
  · exact ⟨rfl, rfl, rfl, rfl⟩

lemma pruneCell_cands {v : Nat} {st : PropSt} {p : Pos} {i j : Fin 9} :
    (pruneCell v st p).cands i j =
      if i = p.1 ∧ j = p.2 then (st.cands i j).map (fun cc => cc.erase v)
      else st.cands i j := by
  unfold pruneCell removeCandidate
  split
  · rename_i cc hcc
    split
    · rename_i hv
      simp only [setCand]
      by_cases hij : i = p.1 ∧ j = p.2
      · rw [if_pos hij, if_pos hij, show st.cands i j = some cc by rw [hij.1, hij.2]; exact hcc]
        rfl
      · rw [if_neg hij, if_neg hij]
    · rename_i hv
      by_cases hij : i = p.1 ∧ j = p.2
      · rw [if_pos hij, show st.cands i j = some cc by rw [hij.1, hij.2]; exact hcc]
        simp only [Option.map_some']
        rw [Finset.erase_eq_of_not_mem hv]
      · rw [if_neg hij]
  · rename_i hcc
    by_cases hij : i = p.1 ∧ j = p.2
    · rw [if_pos hij, show st.cands i j = none by rw [hij.1, hij.2]; exact hcc]
      rfl
    · rw [if_neg hij]

lemma pruneFold_fields {v : Nat} :
    ∀ (l : List Pos) (st : PropSt),
    (l.foldl (pruneCell v) st).newBoard = st.newBoard ∧
    (l.foldl (pruneCell v) st).solver = st.solver ∧
    (l.foldl (pruneCell v) st).hasChanges = st.hasChanges ∧
    (l.foldl (pruneCell v) st).iterChanges = st.iterChanges := by
  intro l
  induction l with
  | nil => intro st; exact ⟨rfl, rfl, rfl, rfl⟩
  | cons p rest ih =>
    intro st
    rw [List.foldl_cons]
    obtain ⟨h1, h2, h3, h4⟩ := ih (pruneCell v st p)
    obtain ⟨g1, g2, g3, g4⟩ := (@pruneCell_fields v st p)
    exact ⟨h1.trans g1, h2.trans g2, h3.trans g3, h4.trans g4⟩

lemma pruneFold_cands {v : Nat} {i j : Fin 9} :
    ∀ (l : List Pos) (st : PropSt),
    (l.foldl (pruneCell v) st).cands i j =
      if (i, j) ∈ l then (st.cands i j).map (fun cc => cc.erase v)
      else st.cands i j := by
  intro l
  induction l with
  | nil => intro st; simp
  | cons p rest ih =>
    intro st
    rw [List.foldl_cons, ih (pruneCell v st p)]
    by_cases hmem : (i, j) ∈ rest
    · rw [if_pos hmem, if_pos (List.mem_cons_of_mem p hmem)]
      rw [pruneCell_cands]
      by_cases hij : i = p.1 ∧ j = p.2
      · rw [if_pos hij]
        rcases st.cands i j with _ | cc
        · rfl
        · simp only [Option.map_some']
          rw [Finset.erase_idem]
      · rw [if_neg hij]
    · rw [if_neg hmem, pruneCell_cands]
      by_cases hij : i = p.1 ∧ j = p.2
      · have : (i, j) ∈ p :: rest := by
          rw [show p = (i, j) from Prod.ext hij.1.symm hij.2.symm]
          exact List.mem_cons_self _ _
        rw [if_pos this, if_pos hij]
      · have : (i, j) ∉ p :: rest := by
          intro hc
          rcases List.mem_cons.mp hc with he | hm
          · exact hij ⟨congrArg Prod.fst he.symm ▸ rfl, congrArg Prod.snd he.symm ▸ rfl⟩
          · exact hmem hm
        rw [if_neg this, if_neg hij]

lemma mem_prunePositions {i j r c : Fin 9} :
    (i, j) ∈ prunePositions r c ↔
      i = r ∨ j = c ∨ getSquareIndex i j = getSquareIndex r c := by
  unfold prunePositions
  rw [List.mem_append]
  constructor
  · rintro (h | h)
    · simp only [List.mem_flatMap, List.mem_finRange, List.mem_cons,
        List.mem_singleton, List.not_mem_nil, or_false] at h
      obtain ⟨k, -, hk⟩ := h
      rcases hk with hk | hk
      · exact Or.inl (congrArg Prod.fst hk)
      · exact Or.inr (Or.inl (congrArg Prod.snd hk))
    · exact Or.inr (Or.inr (mem_squareCells.mp h))
  · rintro (h | h | h)
    · refine Or.inl ?_
      simp only [List.mem_flatMap, List.mem_finRange, List.mem_cons,
        List.mem_singleton, List.not_mem_nil, or_false]
      refine ⟨j, trivial, Or.inl ?_⟩
      rw [h]
    · refine Or.inl ?_
      simp only [List.mem_flatMap, List.mem_finRange, List.mem_cons,
        List.mem_singleton, List.not_mem_nil, or_false]
      refine ⟨i, trivial, Or.inr ?_⟩
      rw [h]
    · exact Or.inr (mem_squareCells.mpr h)

lemma updateCell_newBoard {st : PropSt} {r c : Fin 9} {v : Nat} :
    (updateCell st r c v).newBoard = setCellWS st.newBoard r c ⟨some v, some Src.system⟩ :=
  (pruneFold_fields _ _).1

lemma updateCell_solver {st : PropSt} {r c : Fin 9} {v : Nat} :
    (updateCell st r c v).solver =
      { board := setCell st.solver.board r c (some v)
        rows := Function.update st.solver.rows r (insert v (st.solver.rows r))
        cols := Function.update st.solver.cols c (insert v (st.solver.cols c))
        squares := Function.update st.solver.squares (getSquareIndex r c)
          (insert v (st.solver.squares (getSquareIndex r c))) } :=
  (pruneFold_fields _ _).2.1

lemma updateCell_flags {st : PropSt} {r c : Fin 9} {v : Nat} :
    (updateCell st r c v).hasChanges = true ∧ (updateCell st r c v).iterChanges = true :=
  ⟨(pruneFold_fields _ _).2.2.1, (pruneFold_fields _ _).2.2.2⟩

lemma updateCell_cands {st : PropSt} {r c : Fin 9} {v : Nat} {i j : Fin 9} :
    (updateCell st r c v).cands i j =
      if i = r ∧ j = c then none
      else if i = r ∨ j = c ∨ getSquareIndex i j = getSquareIndex r c then
        (st.cands i j).map (fun cc => cc.erase v)
      else st.cands i j := by
  unfold updateCell
  rw [pruneFold_cands]
  by_cases hmem : (i, j) ∈ prunePositions r c
  · rw [if_pos hmem]
    simp only [setCand]
    by_cases hij : i = r ∧ j = c
    · rw [if_pos hij, if_pos hij]
      rfl
    · rw [if_neg hij, if_neg hij, if_pos (mem_prunePositions.mp hmem)]
  · rw [if_neg hmem]
    simp only [setCand]
    have hij : ¬(i = r ∧ j = c) := by
      rintro ⟨rfl, rfl⟩
      exact hmem (mem_prunePositions.mpr (Or.inl rfl))
    rw [if_neg hij, if_neg hij, if_neg (fun h => hmem (mem_prunePositions.mpr h))]


lemma updateCell_PInv {st : PropSt} {r c : Fin 9} {v : Nat} {cc0 : Finset Nat}
    (h : PInv st) (hval : (st.newBoard r c).value = none)
    (hcc : st.cands r c = some cc0) (hv : v ∈ cc0) : PInv (updateCell st r c v) := by
  obtain ⟨hsync, hsub, hvalid⟩ := h
  obtain ⟨hnr, hnc, hnq⟩ := hsub r c cc0 hcc v hv
  obtain ⟨hr, hc, hq⟩ := hsync
  refine ⟨⟨?_, ?_, ?_⟩, ?_, ?_⟩
  · intro a x
    simp only [updateCell_solver, updateCell_newBoard]
    by_cases ha : a = r
    · subst ha
      rw [Function.update_same, Finset.mem_insert]
      constructor
      · rintro (rfl | hx)
        · exact ⟨c, by rw [setCellWS_same]⟩
        · obtain ⟨j', hj'⟩ := (hr a x).mp hx
          refine ⟨j', ?_⟩
          have hne : ¬(a = a ∧ j' = c) := by
            rintro ⟨-, rfl⟩
            rw [hval] at hj'
            cases hj'
          rw [setCellWS_ne hne]
          exact hj'
      · rintro ⟨j', hj'⟩
        by_cases hjc : j' = c
        · subst hjc
          rw [setCellWS_same] at hj'
          have hj2 : some v = some x := hj'
          injection hj2 with hj2
          exact Or.inl hj2.symm
        · have hne : ¬(a = a ∧ j' = c) := by rintro ⟨-, rfl⟩; exact hjc rfl
          rw [setCellWS_ne hne] at hj'
          exact Or.inr ((hr a x).mpr ⟨j', hj'⟩)
    · rw [Function.update_noteq ha]
      constructor
      · intro hx
        obtain ⟨j', hj'⟩ := (hr a x).mp hx
        have hne : ¬(a = r ∧ j' = c) := by rintro ⟨rfl, -⟩; exact ha rfl
        exact ⟨j', by rw [setCellWS_ne hne]; exact hj'⟩
      · rintro ⟨j', hj'⟩
        have hne : ¬(a = r ∧ j' = c) := by rintro ⟨rfl, -⟩; exact ha rfl
        rw [setCellWS_ne hne] at hj'
        exact (hr a x).mpr ⟨j', hj'⟩
  · intro a x
    simp only [updateCell_solver, updateCell_newBoard]
    by_cases ha : a = c
    · subst ha
      rw [Function.update_same, Finset.mem_insert]
      constructor
      · rintro (rfl | hx)
        · exact ⟨r, by rw [setCellWS_same]⟩
        · obtain ⟨i', hi'⟩ := (hc a x).mp hx
          refine ⟨i', ?_⟩
          have hne : ¬(i' = r ∧ a = a) := by
            rintro ⟨rfl, -⟩
            rw [hval] at hi'
            cases hi'
          rw [setCellWS_ne hne]
          exact hi'
      · rintro ⟨i', hi'⟩
        by_cases hir : i' = r
        · subst hir
          rw [setCellWS_same] at hi'
          have hi2 : some v = some x := hi'
          injection hi2 with hi2
          exact Or.inl hi2.symm
        · have hne : ¬(i' = r ∧ a = a) := by rintro ⟨rfl, -⟩; exact hir rfl
          rw [setCellWS_ne hne] at hi'
          exact Or.inr ((hc a x).mpr ⟨i', hi'⟩)
    · rw [Function.update_noteq ha]
      constructor
      · intro hx
        obtain ⟨i', hi'⟩ := (hc a x).mp hx
        have hne : ¬(i' = r ∧ a = c) := by rintro ⟨-, rfl⟩; exact ha rfl
        exact ⟨i', by rw [setCellWS_ne hne]; exact hi'⟩
      · rintro ⟨i', hi'⟩
        have hne : ¬(i' = r ∧ a = c) := by rintro ⟨-, rfl⟩; exact ha rfl
        rw [setCellWS_ne hne] at hi'
        exact (hc a x).mpr ⟨i', hi'⟩
  · intro k x
    simp only [updateCell_solver, updateCell_newBoard]
    by_cases hk : k = getSquareIndex r c
    · subst hk
      rw [Function.update_same, Finset.mem_insert]
      constructor
      · rintro (rfl | hx)
        · exact ⟨(r, c), rfl, by rw [setCellWS_same]⟩
        · obtain ⟨p, hp1, hp2⟩ := (hq _ x).mp hx
          refine ⟨p, hp1, ?_⟩
          have hne : ¬(p.1 = r ∧ p.2 = c) := by
            rintro ⟨h1, h2⟩
            rw [show (st.newBoard p.1 p.2).value = (st.newBoard r c).value by
              rw [h1, h2], hval] at hp2
            cases hp2
          rw [setCellWS_ne hne]
          exact hp2
      · rintro ⟨p, hp1, hp2⟩
        by_cases hpij : p.1 = r ∧ p.2 = c
        · rw [show setCellWS st.newBoard r c ⟨some v, some Src.system⟩ p.1 p.2 =
            (⟨some v, some Src.system⟩ : SCell) by rw [hpij.1, hpij.2, setCellWS_same]] at hp2
          have hp3 : some v = some x := hp2
          injection hp3 with hp3
          exact Or.inl hp3.symm
        · rw [setCellWS_ne hpij] at hp2
          exact Or.inr ((hq _ x).mpr ⟨p, hp1, hp2⟩)
    · rw [Function.update_noteq hk]
      constructor
      · intro hx
        obtain ⟨p, hp1, hp2⟩ := (hq k x).mp hx
        have hne : ¬(p.1 = r ∧ p.2 = c) := by
          rintro ⟨h1, h2⟩
          apply hk
          rw [← hp1, h1, h2]
        exact ⟨p, hp1, by rw [setCellWS_ne hne]; exact hp2⟩
      · rintro ⟨p, hp1, hp2⟩
        have hne : ¬(p.1 = r ∧ p.2 = c) := by
          rintro ⟨h1, h2⟩
          apply hk
          rw [← hp1, h1, h2]
        rw [setCellWS_ne hne] at hp2
        exact (hq k x).mpr ⟨p, hp1, hp2⟩
  · intro i j cc' hcc' x hx
    rw [updateCell_cands] at hcc'
    simp only [updateCell_solver]
    by_cases hij : i = r ∧ j = c
    · rw [if_pos hij] at hcc'
      cases hcc'
    · rw [if_neg hij] at hcc'
      by_cases hpeer : i = r ∨ j = c ∨ getSquareIndex i j = getSquareIndex r c
      · rw [if_pos hpeer] at hcc'
        rcases hcj : st.cands i j with _ | cc1
        · rw [hcj] at hcc'; cases hcc'
        · rw [hcj, Option.map_some'] at hcc'
          injection hcc' with hcc'
          subst hcc'
          have hxcc1 : x ∈ cc1 := Finset.mem_of_mem_erase hx
          have hxv : x ≠ v := Finset.ne_of_mem_erase hx
          obtain ⟨h1, h2, h3⟩ := hsub i j cc1 hcj x hxcc1
          refine ⟨?_, ?_, ?_⟩
          · by_cases hir : i = r
            · subst hir
              rw [Function.update_same]
              intro hmem
              rcases Finset.mem_insert.mp hmem with he | hm
              · exact hxv he
              · exact h1 hm
            · rw [Function.update_noteq hir]; exact h1
          · by_cases hjc : j = c
            · subst hjc
              rw [Function.update_same]
              intro hmem
              rcases Finset.mem_insert.mp hmem with he | hm
              · exact hxv he
              · exact h2 hm
            · rw [Function.update_noteq hjc]; exact h2
          · by_cases hqq : getSquareIndex i j = getSquareIndex r c
            · rw [hqq, Function.update_same]
              intro hmem
              rcases Finset.mem_insert.mp hmem with he | hm
              · exact hxv he
              · exact h3 (by rw [hqq]; exact hm)
            · rw [Function.update_noteq hqq]; exact h3
      · rw [if_neg hpeer] at hcc'
        obtain ⟨h1, h2, h3⟩ := hsub i j cc' hcc' x hx
        push_neg at hpeer
        refine ⟨?_, ?_, ?_⟩
        · rw [Function.update_noteq hpeer.1]; exact h1
        · rw [Function.update_noteq hpeer.2.1]; exact h2
        · rw [Function.update_noteq hpeer.2.2]; exact h3
  · rw [updateCell_newBoard]
    rintro ⟨p, q, hpq, hu, x, hp, hq'⟩
    simp only [boardWithSourceToSimple] at hp hq'
    by_cases hpij : p.1 = r ∧ p.2 = c
    · rw [show setCellWS st.newBoard r c ⟨some v, some Src.system⟩ p.1 p.2 =
        (⟨some v, some Src.system⟩ : SCell) by rw [hpij.1, hpij.2, setCellWS_same]] at hp
      have hp2 : some v = some x := hp
      injection hp2 with hp2
      subst hp2
      by_cases hqij : q.1 = r ∧ q.2 = c
      · exact hpq (Prod.ext (hpij.1.trans hqij.1.symm) (hpij.2.trans hqij.2.symm))
      · rw [setCellWS_ne hqij] at hq'
        rcases hu with h | h | h
        · refine hnr ((hr r v).mpr ⟨q.2, ?_⟩)
          rw [← hpij.1, h]; exact hq'
        · refine hnc ((hc c v).mpr ⟨q.1, ?_⟩)
          rw [← hpij.2, h]; exact hq'
        · refine hnq ((hq (getSquareIndex r c) v).mpr ⟨q, ?_, hq'⟩)
          rw [← h, hpij.1, hpij.2]
    · rw [setCellWS_ne hpij] at hp
      by_cases hqij : q.1 = r ∧ q.2 = c
      · rw [show setCellWS st.newBoard r c ⟨some v, some Src.system⟩ q.1 q.2 =
          (⟨some v, some Src.system⟩ : SCell) by rw [hqij.1, hqij.2, setCellWS_same]] at hq'
        have hq2 : some v = some x := hq'
        injection hq2 with hq2
        subst hq2
        rcases hu with h | h | h
        · refine hnr ((hr r v).mpr ⟨p.2, ?_⟩)
          rw [← hqij.1, ← h]; exact hp
        · refine hnc ((hc c v).mpr ⟨p.1, ?_⟩)
          rw [← hqij.2, ← h]; exact hp
        · refine hnq ((hq (getSquareIndex r c) v).mpr ⟨p, ?_, hp⟩)
          rw [h, hqij.1, hqij.2]
      · rw [setCellWS_ne hqij] at hq'
        exact hvalid ⟨p, q, hpq, hu, x, hp, hq'⟩

lemma pInv_stepClosed : StepClosed PInv := by
  refine ⟨?_, ?_, ?_⟩
  · intro st r c v cc h hval hcc hv
    exact updateCell_PInv h hval hcc hv
  · intro st p v h
    obtain ⟨hsync, hsub, hvalid⟩ := h
    obtain ⟨hb, hs, -, -⟩ := @pruneCell_fields v st p
    refine ⟨?_, ?_, ?_⟩
    · unfold PSync at hsync ⊢
      rw [hb, hs]
      exact hsync
    · intro i j cc hcc x hx
      rw [hs]
      rw [pruneCell_cands] at hcc
      by_cases hij : i = p.1 ∧ j = p.2
      · rw [if_pos hij] at hcc
        rcases hcj : st.cands i j with _ | cc1
        · rw [hcj] at hcc; cases hcc
        · rw [hcj, Option.map_some'] at hcc
          injection hcc with hcc
          subst hcc
          exact hsub i j cc1 hcj x (Finset.mem_of_mem_erase hx)
      · rw [if_neg hij] at hcc
        exact hsub i j cc hcc x hx
    · rw [hb]
      exact hvalid
  · intro st hch hic h
    exact ⟨h.1, h.2.1, h.2.2⟩

lemma frameOf_stepClosed (b0 : BoardWS) : StepClosed (FrameOf b0) := by
  refine ⟨?_, ?_, ?_⟩
  · intro st r c v cc h hval hcc hv i j hfill
    rw [updateCell_newBoard]
    by_cases hij : i = r ∧ j = c
    · exfalso
      have heq := h i j hfill
      rw [hij.1, hij.2] at heq
      apply hfill
      rw [hij.1, hij.2, ← heq]
      exact hval
    · rw [setCellWS_ne hij]
      exact h i j hfill
  · intro st p v h i j hfill
    rw [pruneCell_fields.1]
    exact h i j hfill
  · intro st hch hic h i j hfill
    exact h i j hfill


lemma theOnly_mem {cc : Finset Nat} (h : cc.card = 1) : theOnly cc ∈ cc := by
  obtain ⟨a, rfl⟩ := Finset.card_eq_one.mp h
  rw [theOnly, Finset.fold_singleton]
  simp

lemma candHas_true {m : CandMap} {i j : Fin 9} {v : Nat} (h : candHas m i j v = true) :
    ∃ cc, m i j = some cc ∧ v ∈ cc := by
  unfold candHas at h
  split at h
  · rename_i cc hcc
    exact ⟨cc, hcc, by simpa using h⟩
  · cases h

lemma stepClosed_removeFlag {P : PropSt → Prop} (hP : StepClosed P) {st : PropSt}
    {i j : Fin 9} {v : Nat} (h : P st) : P (removeFlag st i j v) := by
  unfold removeFlag
  split
  · rename_i st' heq
    have hst' : st' = pruneCell v st (i, j) := by
      have := congrArg Prod.fst heq
      exact this.symm
    subst hst'
    exact hP.flags _ _ _ (hP.prune st (i, j) v h)
  · rename_i st' heq
    have hst' : st' = pruneCell v st (i, j) := by
      have := congrArg Prod.fst heq
      exact this.symm
    subst hst'
    exact hP.prune st (i, j) v h

lemma stepClosed_nakedStep {P : PropSt → Prop} (hP : StepClosed P) {st : PropSt}
    {p : Pos} (h : P st) : P (nakedStep st p) := by
  unfold nakedStep
  split
  · rename_i hval
    split
    · rename_i cc hcc
      split
      · rename_i hcard
        exact hP.update st p.1 p.2 (theOnly cc) cc h hval hcc (theOnly_mem hcard)
      · exact h
    · exact h
  · exact h

lemma stepClosed_hiddenRowStep {P : PropSt → Prop} (hP : StepClosed P) {st : PropSt}
    {row : Fin 9} {num : Nat} (h : P st) : P (hiddenRowStep st row num) := by
  unfold hiddenRowStep
  split
  · exact h
  · split
    · rename_i col heq
      have hcol : col ∈ (List.finRange 9).filter (fun col =>
          decide ((st.newBoard row col).value = none) && candHas st.cands row col num) := by
        rw [heq]
        exact List.mem_singleton_self col
      obtain ⟨-, hpred⟩ := List.mem_filter.mp hcol
      rw [Bool.and_eq_true] at hpred
      obtain ⟨cc, hcc, hv⟩ := candHas_true hpred.2
      exact hP.update st row col num cc h (of_decide_eq_true hpred.1) hcc hv
    · exact h

lemma stepClosed_hiddenColStep {P : PropSt → Prop} (hP : StepClosed P) {st : PropSt}
    {col : Fin 9} {num : Nat} (h : P st) : P (hiddenColStep st col num) := by
  unfold hiddenColStep
  split
  · exact h
  · split
    · rename_i row heq
      have hrow : row ∈ (List.finRange 9).filter (fun row =>
          decide ((st.newBoard row col).value = none) && candHas st.cands row col num) := by
        rw [heq]
        exact List.mem_singleton_self row
      obtain ⟨-, hpred⟩ := List.mem_filter.mp hrow
      rw [Bool.and_eq_true] at hpred
      obtain ⟨cc, hcc, hv⟩ := candHas_true hpred.2
      exact hP.update st row col num cc h (of_decide_eq_true hpred.1) hcc hv
    · exact h

lemma stepClosed_hiddenSquareStep {P : PropSt → Prop} (hP : StepClosed P) {st : PropSt}
    {q : Fin 9} {num : Nat} (h : P st) : P (hiddenSquareStep st q num) := by
  unfold hiddenSquareStep
  split
  · exact h
  · split
    · rename_i p heq
      have hp : p ∈ squarePossible st q num := by
        rw [heq]
        exact List.mem_singleton_self p
      obtain ⟨-, hpred⟩ := List.mem_filter.mp hp
      rw [Bool.and_eq_true] at hpred
      obtain ⟨cc, hcc, hv⟩ := candHas_true hpred.2
      exact hP.update st p.1 p.2 num cc h (of_decide_eq_true hpred.1) hcc hv
    · exact h

lemma stepClosed_boxLineRowStep {P : PropSt → Prop} (hP : StepClosed P) {st : PropSt}
    {q : Fin 9} {num : Nat} (h : P st) : P (boxLineRowStep st q num) := by
  unfold boxLineRowStep
  dsimp only
  split
  · refine List.foldlRecOn _ _ _ h ?_
    intro s hs col hcol
    split
    · exact hs
    · split
      · exact stepClosed_removeFlag hP hs
      · exact hs
  · exact h

lemma stepClosed_boxLineColStep {P : PropSt → Prop} (hP : StepClosed P) {st : PropSt}
    {q : Fin 9} {num : Nat} (h : P st) : P (boxLineColStep st q num) := by
  unfold boxLineColStep
  dsimp only
  split
  · refine List.foldlRecOn _ _ _ h ?_
    intro s hs row hrow
    split
    · exact hs
    · split
      · exact stepClosed_removeFlag hP hs
      · exact hs
  · exact h

lemma stepClosed_boxLineStep {P : PropSt → Prop} (hP : StepClosed P) {st : PropSt}
    {q : Fin 9} {num : Nat} (h : P st) : P (boxLineStep st q num) := by
  unfold boxLineStep
  split
  · exact h
  · exact stepClosed_boxLineColStep hP (stepClosed_boxLineRowStep hP h)

lemma stepClosed_nakedPass {P : PropSt → Prop} (hP : StepClosed P) {st : PropSt}
    (h : P st) : P (nakedPass st) := by
  unfold nakedPass
  refine List.foldlRecOn _ _ _ h ?_
  intro s hs p hp
  exact stepClosed_nakedStep hP hs

lemma stepClosed_hiddenRowsPass {P : PropSt → Prop} (hP : StepClosed P) {st : PropSt}
    (h : P st) : P (hiddenRowsPass st) := by
  unfold hiddenRowsPass
  refine List.foldlRecOn _ _ _ h ?_
  intro s hs row hrow
  refine List.foldlRecOn _ _ _ hs ?_
  intro s2 hs2 num hnum
  exact stepClosed_hiddenRowStep hP hs2

lemma stepClosed_hiddenColsPass {P : PropSt → Prop} (hP : StepClosed P) {st : PropSt}
    (h : P st) : P (hiddenColsPass st) := by
  unfold hiddenColsPass
  refine List.foldlRecOn _ _ _ h ?_
  intro s hs col hcol
  refine List.foldlRecOn _ _ _ hs ?_
  intro s2 hs2 num hnum
  exact stepClosed_hiddenColStep hP hs2

lemma stepClosed_hiddenSquaresPass {P : PropSt → Prop} (hP : StepClosed P) {st : PropSt}
    (h : P st) : P (hiddenSquaresPass st) := by
  unfold hiddenSquaresPass
  refine List.foldlRecOn _ _ _ h ?_
  intro s hs q hq
  refine List.foldlRecOn _ _ _ hs ?_
  intro s2 hs2 num hnum
  exact stepClosed_hiddenSquareStep hP hs2

lemma stepClosed_boxLinePass {P : PropSt → Prop} (hP : StepClosed P) {st : PropSt}
    (h : P st) : P (boxLinePass st) := by
  unfold boxLinePass
  refine List.foldlRecOn _ _ _ h ?_
  intro s hs q hq
  refine List.foldlRecOn _ _ _ hs ?_
  intro s2 hs2 num hnum
  exact stepClosed_boxLineStep hP hs2

lemma stepClosed_runRound {P : PropSt → Prop} (hP : StepClosed P) {st : PropSt}
    (h : P st) : P (runRound st) :=
  stepClosed_boxLinePass hP (stepClosed_hiddenSquaresPass hP
    (stepClosed_hiddenColsPass hP (stepClosed_hiddenRowsPass hP
      (stepClosed_nakedPass hP h))))

lemma stepClosed_propLoop {P : PropSt → Prop} (hP : StepClosed P) :
    ∀ (n : Nat) (st : PropSt), P st → P (propLoop n st) := by
  intro n
  induction n with
  | zero => intro st h; exact h
  | succ n ih =>
    intro st h
    rw [propLoop]
    split
    · exact ih _ (stepClosed_runRound hP (hP.flags st st.hasChanges false h))
    · exact h

lemma pInv_init (b : BoardWS) (hv : validB (boardWithSourceToSimple b)) :
    PInv (initPropSt b) := by
  refine ⟨?_, ?_, hv⟩
  · obtain ⟨h1, h2, h3⟩ := init_setsSync (boardWithSourceToSimple b)
    exact ⟨h1, h2, h3⟩
  · intro i j cc hcc x hx
    simp only [initPropSt, initCands] at hcc
    split at hcc
    · injection hcc with hcc
      subst hcc
      rw [List.mem_toFinset] at hx
      obtain ⟨-, h1, h2, h3⟩ := mem_getValidNumbers.mp hx
      exact ⟨h1, h2, h3⟩
    · cases hcc

lemma autoSolveCells_eq (b : BoardWS) :
    autoSolveCells b =
      if isValidBoard (boardWithSourceToSimple b) then
        if (propLoop maxIterations (initPropSt b)).hasChanges then
          (propLoop maxIterations (initPropSt b)).newBoard
        else b
      else b := rfl

/-- Claim C2. Invariant preservation: from a grid satisfying the uniqueness
invariant, every grid autoSolveCells produces and every grid solve produces
still satisfies it. -/
theorem claim_invariant_preservation :
    (∀ b : BoardWS, validB (boardWithSourceToSimple b) →
      validB (boardWithSourceToSimple (autoSolveCells b))) ∧
    (∀ g g' : SBoard, validB g → solve g = some g' → validB g') := by
  constructor
  · intro b hv
    rw [autoSolveCells_eq]
    split
    · split
      · exact (stepClosed_propLoop pInv_stepClosed maxIterations (initPropSt b)
          (pInv_init b hv)).2.2
      · exact hv
    · exact hv
  · intro g g' hv hs
    exact (solve_sound_general g hv g' hs).2.2

set_option maxRecDepth 40000 in
/-- Witness for C2 at concrete grids: the complete valid grid is preserved by
both propagate and solve. -/
theorem claim_invariant_preservation_witness :
    validB (boardWithSourceToSimple (toWS bComplete)) ∧
      validB (boardWithSourceToSimple (autoSolveCells (toWS bComplete))) ∧
      validB bComplete ∧ solve bComplete = some bComplete ∧ validB bComplete :=
  ⟨by decide,
   claim_invariant_preservation.1 (toWS bComplete) (by decide),
   by decide,
   solve_eq_of_cells (by decide) (by decide),
   claim_invariant_preservation.2 bComplete bComplete (by decide)
     (solve_eq_of_cells (by decide) (by decide))⟩

/-- Claim C6. Monotonic fill: autoSolveCells never changes a filled cell (in
particular never overwrites a system-tagged filled cell) and writes only into
cells that were empty. -/
theorem claim_monotonic_fill : ∀ (b : BoardWS) (i j : Fin 9),
    ((b i j).value ≠ none → autoSolveCells b i j = b i j) ∧
    ((b i j).source = some Src.system → (b i j).value ≠ none →
      autoSolveCells b i j = b i j) ∧
    (autoSolveCells b i j ≠ b i j → (b i j).value = none) := by
  intro b i j
  have hframe : ∀ a d : Fin 9, (b a d).value ≠ none → autoSolveCells b a d = b a d := by
    intro a d hf
    rw [autoSolveCells_eq]
    split
    · split
      · exact stepClosed_propLoop (frameOf_stepClosed b) maxIterations (initPropSt b)
          (fun _ _ _ => rfl) a d hf
      · rfl
    · rfl
  refine ⟨hframe i j, fun _ hf => hframe i j hf, ?_⟩
  intro hne
  by_contra hfill
  exact hne (hframe i j hfill)

/-- Witness for C6 at a concrete grid and cell. -/
theorem claim_monotonic_fill_witness :
    autoSolveCells (toWS bComplete) 0 0 = toWS bComplete 0 0 :=
  (claim_monotonic_fill (toWS bComplete) 0 0).1 (by decide)

/-- Claim C7. On input rejected by the validity gate, autoSolveCells returns
the input board itself, unmodified. -/
theorem claim_propagate_invalid : ∀ b : BoardWS,
    isValidBoard (boardWithSourceToSimple b) = false → autoSolveCells b = b := by
  intro b h
  rw [autoSolveCells_eq, h]
  rfl

/-- Witness for C7 at a concrete invalid grid. -/
theorem claim_propagate_invalid_witness :
    isValidBoard (boardWithSourceToSimple (toWS g9)) = false ∧
      autoSolveCells (toWS g9) = toWS g9 :=
  ⟨by decide, claim_propagate_invalid (toWS g9) (by decide)⟩

/-- Claim C10. applySolutionToBoard keeps every originally filled cell
exactly (value and tag) and gives provenance system to every cell it fills
from the solution. -/
theorem claim_applySolution_frame : ∀ (ob : BoardWS) (sol : SBoard) (i j : Fin 9),
    ((ob i j).value ≠ none → applySolutionToBoard ob sol i j = ob i j) ∧
    (∀ v, (ob i j).value = none → sol i j = some v →
      applySolutionToBoard ob sol i j = ⟨some v, some Src.system⟩) := by
  intro ob sol i j
  constructor
  · intro h
    simp only [applySolutionToBoard]
    rw [if_neg]
    rintro ⟨h1, -⟩
    exact h h1
  · intro v h1 h2
    simp only [applySolutionToBoard]
    rw [if_pos ⟨h1, by rw [h2]; simp⟩, h2]

/-- Witness for C10 at a concrete board and solution. -/
theorem claim_applySolution_frame_witness :
    applySolutionToBoard (toWS g9) bComplete 8 8 = ⟨some 8, some Src.system⟩ ∧
      applySolutionToBoard (toWS g9) bComplete 0 0 = toWS g9 0 0 :=
  ⟨(claim_applySolution_frame (toWS g9) bComplete 8 8).2 8 (by decide) (by decide),
   (claim_applySolution_frame (toWS g9) bComplete 0 0).1 (by decide)⟩


/-- Counterexample to C4: the loop cap is the constant 10, which is smaller
than the 81 empty cells of the valid all-empty grid. -/
theorem claim_cap_counterexample :
    isValidBoard (boardWithSourceToSimple emptyBoardWS) = true ∧
      ¬ (emptyCountWS emptyBoardWS ≤ maxIterations) :=
  ⟨by decide, by decide⟩

lemma propLoopCount_le : ∀ (n : Nat) (st : PropSt), propLoopCount n st ≤ n := by
  intro n
  induction n with
  | zero => intro st; exact Nat.le.refl
  | succ n ih =>
    intro st
    rw [propLoopCount]
    split
    · exact Nat.succ_le_succ (ih _)
    · exact Nat.zero_le _

/-- Amended C4: the number of rounds autoSolveCells runs is bounded by the
fixed cap maxIterations = 10, independent of the grid; the cap is not at
least the number of empty cells in general. -/
theorem claim_cap_amended : ∀ b : BoardWS, propagateRounds b ≤ maxIterations := by
  intro b
  rw [propagateRounds]
  split
  · exact propLoopCount_le _ _
  · exact Nat.zero_le _

lemma foldl_fixed {α : Type} {f : PropSt → α → PropSt} {st : PropSt}
    (h : ∀ a, f st a = st) : ∀ l : List α, l.foldl f st = st := by
  intro l
  induction l with
  | nil => rfl
  | cons a rest ih => rw [List.foldl_cons, h a, ih]

lemma nakedStep_complete {st : PropSt} (hc : ∀ i j, (st.newBoard i j).value ≠ none)
    (p : Pos) : nakedStep st p = st := by
  unfold nakedStep
  rw [if_neg (hc p.1 p.2)]

lemma hiddenRowStep_complete {st : PropSt} (hc : ∀ i j, (st.newBoard i j).value ≠ none)
    (row : Fin 9) (num : Nat) : hiddenRowStep st row num = st := by
  unfold hiddenRowStep
  split
  · rfl
  · rw [show (List.finRange 9).filter (fun col =>
        decide ((st.newBoard row col).value = none) && candHas st.cands row col num) = [] by
      refine List.filter_eq_nil.mpr ?_
      intro col hcol
      simp [hc row col]]

lemma hiddenColStep_complete {st : PropSt} (hc : ∀ i j, (st.newBoard i j).value ≠ none)
    (col : Fin 9) (num : Nat) : hiddenColStep st col num = st := by
  unfold hiddenColStep
  split
  · rfl
  · rw [show (List.finRange 9).filter (fun row =>
        decide ((st.newBoard row col).value = none) && candHas st.cands row col num) = [] by
      refine List.filter_eq_nil.mpr ?_
      intro row hrow
      simp [hc row col]]

lemma squarePossible_complete {st : PropSt} (hc : ∀ i j, (st.newBoard i j).value ≠ none)
    (q : Fin 9) (num : Nat) : squarePossible st q num = [] := by
  refine List.filter_eq_nil.mpr ?_
  intro p hp
  simp [hc p.1 p.2]

lemma hiddenSquareStep_complete {st : PropSt} (hc : ∀ i j, (st.newBoard i j).value ≠ none)
    (q : Fin 9) (num : Nat) : hiddenSquareStep st q num = st := by
  unfold hiddenSquareStep
  split
  · rfl
  · rw [squarePossible_complete hc]

lemma boxLineRowStep_complete {st : PropSt} (hc : ∀ i j, (st.newBoard i j).value ≠ none)
    (q : Fin 9) (num : Nat) : boxLineRowStep st q num = st := by
  have hcard : ((List.map Prod.fst (squarePossible st q num)).toFinset).card ≠ 1 := by
    rw [squarePossible_complete hc]
    simp
  unfold boxLineRowStep
  dsimp only
  rw [if_neg hcard]

lemma boxLineColStep_complete {st : PropSt} (hc : ∀ i j, (st.newBoard i j).value ≠ none)
    (q : Fin 9) (num : Nat) : boxLineColStep st q num = st := by
  have hcard : ((List.map Prod.snd (squarePossible st q num)).toFinset).card ≠ 1 := by
    rw [squarePossible_complete hc]
    simp
  unfold boxLineColStep
  dsimp only
  rw [if_neg hcard]

lemma boxLineStep_complete {st : PropSt} (hc : ∀ i j, (st.newBoard i j).value ≠ none)
    (q : Fin 9) (num : Nat) : boxLineStep st q num = st := by
  unfold boxLineStep
  split
  · rfl
  · rw [boxLineRowStep_complete hc, boxLineColStep_complete hc]

lemma nakedPass_complete {st : PropSt} (hc : ∀ i j, (st.newBoard i j).value ≠ none) :
    nakedPass st = st :=
  foldl_fixed (nakedStep_complete hc) allCells

lemma hiddenRowsPass_complete {st : PropSt} (hc : ∀ i j, (st.newBoard i j).value ≠ none) :
    hiddenRowsPass st = st :=
  foldl_fixed
    (fun row => foldl_fixed (fun num => hiddenRowStep_complete hc row num) digits)
    (List.finRange 9)

lemma hiddenColsPass_complete {st : PropSt} (hc : ∀ i j, (st.newBoard i j).value ≠ none) :
    hiddenColsPass st = st :=
  foldl_fixed
    (fun col => foldl_fixed (fun num => hiddenColStep_complete hc col num) digits)
    (List.finRange 9)

lemma hiddenSquaresPass_complete {st : PropSt} (hc : ∀ i j, (st.newBoard i j).value ≠ none) :
    hiddenSquaresPass st = st :=
  foldl_fixed
    (fun q => foldl_fixed (fun num => hiddenSquareStep_complete hc q num) digits)
    (List.finRange 9)

lemma boxLinePass_complete {st : PropSt} (hc : ∀ i j, (st.newBoard i j).value ≠ none) :
    boxLinePass st = st :=
  foldl_fixed
    (fun q => foldl_fixed (fun num => boxLineStep_complete hc q num) digits)
    (List.finRange 9)

lemma runRound_complete {st : PropSt} (hc : ∀ i j, (st.newBoard i j).value ≠ none) :
    runRound st = st := by
  unfold runRound
  rw [nakedPass_complete hc, hiddenRowsPass_complete hc, hiddenColsPass_complete hc,
    hiddenSquaresPass_complete hc, boxLinePass_complete hc]

lemma propLoop_of_not_iter {n : Nat} {st : PropSt} (h : st.iterChanges = false) :
    propLoop n st = st := by
  cases n
  · rfl
  · rw [propLoop, h]
    simp

lemma propLoop_succ_true {n : Nat} {st : PropSt} (h : st.iterChanges = true) :
    propLoop (n + 1) st = propLoop n (runRound { st with iterChanges := false }) := by
  rw [propLoop, h]
  simp

lemma asc_complete (b : BoardWS) (hc : ∀ i j, (b i j).value ≠ none) :
    autoSolveCells b = b := by
  rw [autoSolveCells_eq]
  split
  · have hc' : ∀ i j,
        (({ initPropSt b with iterChanges := false } : PropSt).newBoard i j).value ≠ none := hc
    have h1 : propLoop maxIterations (initPropSt b) =
        propLoop 9 (runRound { initPropSt b with iterChanges := false }) :=
      propLoop_succ_true rfl
    rw [h1, runRound_complete hc', propLoop_of_not_iter rfl, if_neg (by simp [initPropSt])]
  · rfl

/-- Amended C3: a second autoSolveCells call changes nothing whenever the
first call's result is completely filled (a complete board is a fixed point);
the unrestricted statement fails, see the counterexample. -/
theorem claim_propagate_idem_amended : ∀ b : BoardWS,
    (∀ i j, ((autoSolveCells b) i j).value ≠ none) →
    autoSolveCells (autoSolveCells b) = autoSolveCells b := by
  intro b h
  exact asc_complete (autoSolveCells b) h

/-- Witness for the amended C3 at a concrete grid. -/
theorem claim_propagate_idem_amended_witness :
    (∀ i j, ((autoSolveCells (toWS bComplete)) i j).value ≠ none) ∧
      autoSolveCells (autoSolveCells (toWS bComplete)) = autoSolveCells (toWS bComplete) := by
  have hfix : autoSolveCells (toWS bComplete) = toWS bComplete :=
    asc_complete (toWS bComplete) (by decide)
  constructor
  · rw [hfix]
    decide
  · exact claim_propagate_idem_amended (toWS bComplete) (by rw [hfix]; decide)


set_option maxRecDepth 100000 in
lemma stage_c1_r1_naked : nakedPass { Tc1_init with iterChanges := false } = Tc1_r1_naked := by decide

set_option maxRecDepth 100000 in
lemma stage_c1_r1_hrows : hiddenRowsPass Tc1_r1_naked = Tc1_r1_hrows := by decide

set_option maxRecDepth 100000 in
lemma stage_c1_r1_hcols : hiddenColsPass Tc1_r1_hrows = Tc1_r1_hcols := by decide

set_option maxRecDepth 100000 in
lemma stage_c1_r1_hsq : hiddenSquaresPass Tc1_r1_hcols = Tc1_r1_hsq := by decide

set_option maxRecDepth 100000 in
lemma stage_c1_r1_bline : boxLinePass Tc1_r1_hsq = Tc1_r1_bline := by decide

lemma round_c1_r1 : runRound { Tc1_init with iterChanges := false } = Tc1_r1_bline := by
  unfold runRound
  rw [stage_c1_r1_naked, stage_c1_r1_hrows, stage_c1_r1_hcols, stage_c1_r1_hsq, stage_c1_r1_bline]

set_option maxRecDepth 100000 in
lemma stage_c1_r2_naked : nakedPass { Tc1_r1_bline with iterChanges := false } = Tc1_r2_naked := by decide

set_option maxRecDepth 100000 in
lemma stage_c1_r2_hrows : hiddenRowsPass Tc1_r2_naked = Tc1_r2_hrows := by decide

set_option maxRecDepth 100000 in
lemma stage_c1_r2_hcols : hiddenColsPass Tc1_r2_hrows = Tc1_r2_hcols := by decide

set_option maxRecDepth 100000 in
lemma stage_c1_r2_hsq : hiddenSquaresPass Tc1_r2_hcols = Tc1_r2_hsq := by decide

set_option maxRecDepth 100000 in
lemma stage_c1_r2_bline : boxLinePass Tc1_r2_hsq = Tc1_r2_bline := by decide

lemma round_c1_r2 : runRound { Tc1_r1_bline with iterChanges := false } = Tc1_r2_bline := by
  unfold runRound
  rw [stage_c1_r2_naked, stage_c1_r2_hrows, stage_c1_r2_hcols, stage_c1_r2_hsq, stage_c1_r2_bline]

set_option maxRecDepth 100000 in
lemma stage_c1_r3_naked : nakedPass { Tc1_r2_bline with iterChanges := false } = Tc1_r3_naked := by decide

set_option maxRecDepth 100000 in
lemma stage_c1_r3_hrows : hiddenRowsPass Tc1_r3_naked = Tc1_r3_hrows := by decide

set_option maxRecDepth 100000 in
lemma stage_c1_r3_hcols : hiddenColsPass Tc1_r3_hrows = Tc1_r3_hcols := by decide

set_option maxRecDepth 100000 in
lemma stage_c1_r3_hsq : hiddenSquaresPass Tc1_r3_hcols = Tc1_r3_hsq := by decide

set_option maxRecDepth 100000 in
lemma stage_c1_r3_bline : boxLinePass Tc1_r3_hsq = Tc1_r3_bline := by decide

lemma round_c1_r3 : runRound { Tc1_r2_bline with iterChanges := false } = Tc1_r3_bline := by
  unfold runRound
  rw [stage_c1_r3_naked, stage_c1_r3_hrows, stage_c1_r3_hcols, stage_c1_r3_hsq, stage_c1_r3_bline]

lemma loop_c1 : propLoop maxIterations Tc1_init = Tc1_r3_bline := by
  have s1 : propLoop maxIterations Tc1_init =
      propLoop 9 (runRound { Tc1_init with iterChanges := false }) :=
    propLoop_succ_true rfl
  rw [s1, round_c1_r1]
  have s2 : propLoop 9 Tc1_r1_bline =
      propLoop 8 (runRound { Tc1_r1_bline with iterChanges := false }) :=
    propLoop_succ_true rfl
  rw [s2, round_c1_r2]
  have s3 : propLoop 8 Tc1_r2_bline =
      propLoop 7 (runRound { Tc1_r2_bline with iterChanges := false }) :=
    propLoop_succ_true rfl
  rw [s3, round_c1_r3]
  exact propLoop_of_not_iter rfl

set_option maxRecDepth 100000 in
lemma stage_c2_r1_naked : nakedPass { Tc2_init with iterChanges := false } = Tc2_r1_naked := by decide

set_option maxRecDepth 100000 in
lemma stage_c2_r1_hrows : hiddenRowsPass Tc2_r1_naked = Tc2_r1_hrows := by decide

set_option maxRecDepth 100000 in
lemma stage_c2_r1_hcols : hiddenColsPass Tc2_r1_hrows = Tc2_r1_hcols := by decide

set_option maxRecDepth 100000 in
lemma stage_c2_r1_hsq : hiddenSquaresPass Tc2_r1_hcols = Tc2_r1_hsq := by decide

set_option maxRecDepth 100000 in
lemma stage_c2_r1_bline : boxLinePass Tc2_r1_hsq = Tc2_r1_bline := by decide

lemma round_c2_r1 : runRound { Tc2_init with iterChanges := false } = Tc2_r1_bline := by
  unfold runRound
  rw [stage_c2_r1_naked, stage_c2_r1_hrows, stage_c2_r1_hcols, stage_c2_r1_hsq, stage_c2_r1_bline]

set_option maxRecDepth 100000 in
lemma stage_c2_r2_naked : nakedPass { Tc2_r1_bline with iterChanges := false } = Tc2_r2_naked := by decide

set_option maxRecDepth 100000 in
lemma stage_c2_r2_hrows : hiddenRowsPass Tc2_r2_naked = Tc2_r2_hrows := by decide

set_option maxRecDepth 100000 in
lemma stage_c2_r2_hcols : hiddenColsPass Tc2_r2_hrows = Tc2_r2_hcols := by decide

set_option maxRecDepth 100000 in
lemma stage_c2_r2_hsq : hiddenSquaresPass Tc2_r2_hcols = Tc2_r2_hsq := by decide

set_option maxRecDepth 100000 in
lemma stage_c2_r2_bline : boxLinePass Tc2_r2_hsq = Tc2_r2_bline := by decide

lemma round_c2_r2 : runRound { Tc2_r1_bline with iterChanges := false } = Tc2_r2_bline := by
  unfold runRound
  rw [stage_c2_r2_naked, stage_c2_r2_hrows, stage_c2_r2_hcols, stage_c2_r2_hsq, stage_c2_r2_bline]

lemma loop_c2 : propLoop maxIterations Tc2_init = Tc2_r2_bline := by
  have s1 : propLoop maxIterations Tc2_init =
      propLoop 9 (runRound { Tc2_init with iterChanges := false }) :=
    propLoop_succ_true rfl
  rw [s1, round_c2_r1]
  have s2 : propLoop 9 Tc2_r1_bline =
      propLoop 8 (runRound { Tc2_r1_bline with iterChanges := false }) :=
    propLoop_succ_true rfl
  rw [s2, round_c2_r2]
  exact propLoop_of_not_iter rfl

set_option maxRecDepth 100000 in
lemma init_c1_eq : initPropSt gC3 = Tc1_init := by decide

set_option maxRecDepth 100000 in
lemma init_c2_eq : initPropSt Tc1_r3_bline.newBoard = Tc2_init := by decide

lemma asc_gC3_eq : autoSolveCells gC3 = Tc1_r3_bline.newBoard := by
  rw [autoSolveCells_eq,
    if_pos (show isValidBoard (boardWithSourceToSimple gC3) = true from by decide),
    init_c1_eq, loop_c1, if_pos (show Tc1_r3_bline.hasChanges = true from rfl)]

lemma asc_B1_eq : autoSolveCells Tc1_r3_bline.newBoard = Tc2_r2_bline.newBoard := by
  rw [autoSolveCells_eq,
    if_pos (show isValidBoard (boardWithSourceToSimple Tc1_r3_bline.newBoard) = true from by decide),
    init_c2_eq, loop_c2, if_pos (show Tc2_r2_bline.hasChanges = true from rfl)]

set_option maxRecDepth 100000 in
/-- Counterexample to C3 as stated: gC3 satisfies the uniqueness invariant,
yet the second autoSolveCells call fills one more cell (row 8, column 7
receives 8), because the second call rebuilds the candidate map from scratch
and so recovers possibilities the first call's box/line pruning had removed.
So propagate of propagate differs from propagate at gC3. -/
theorem claim_propagate_idem_counterexample :
    validB (boardWithSourceToSimple gC3) ∧
      autoSolveCells (autoSolveCells gC3) ≠ autoSolveCells gC3 := by
  refine ⟨by decide, ?_⟩
  rw [asc_gC3_eq, asc_B1_eq]
  intro hEq
  have hcell := congrFun (congrFun hEq 8) 7
  exact absurd hcell (by decide)

lemma rmLt_irrefl (p : Pos) : ¬ rmLt p p := by
  unfold rmLt; omega

lemma rmLt_asymm {p q : Pos} (h : rmLt p q) : ¬ rmLt q p := by
  unfold rmLt at h ⊢; omega

lemma allCells_pairwise : allCells.Pairwise rmLt := by decide

lemma findBestAux_spec_strong (s : SolverState) :
    ∀ (l : List Pos) (acc : Option BestCell) (m : Nat),
    l.Pairwise rmLt →
    (acc = none → m = 10) →
    (∀ bc0, acc = some bc0 →
      s.board bc0.row bc0.col = none ∧
      bc0.options = getValidNumbers s bc0.row bc0.col ∧
      m = bc0.options.length ∧ 2 ≤ m ∧
      (∀ p ∈ l, rmLt (bc0.row, bc0.col) p)) →
    (∀ p ∈ l, s.board p.1 p.2 = none → 1 ≤ (getValidNumbers s p.1 p.2).length) →
    (findBestAux s l acc m = none → acc = none ∧ ∀ p ∈ l, s.board p.1 p.2 ≠ none) ∧
    (∀ bc', findBestAux s l acc m = some bc' →
      s.board bc'.row bc'.col = none ∧
      bc'.options = getValidNumbers s bc'.row bc'.col ∧
      bc'.options.length ≤ m ∧
      (∀ p ∈ l, s.board p.1 p.2 = none →
        bc'.options.length ≤ (getValidNumbers s p.1 p.2).length) ∧
      (∀ p ∈ l, s.board p.1 p.2 = none → rmLt p (bc'.row, bc'.col) →
        bc'.options.length < (getValidNumbers s p.1 p.2).length) ∧
      (∀ bc0, acc = some bc0 → bc' ≠ bc0 → bc'.options.length < m) ∧
      (acc = some bc' ∨ (bc'.row, bc'.col) ∈ l)) := by
  intro l
  induction l with
  | nil =>
    intro acc m _ _ hacc _
    constructor
    · intro h
      rw [findBestAux] at h
      exact ⟨h, fun p hp => absurd hp (List.not_mem_nil p)⟩
    · intro bc' h
      rw [findBestAux] at h
      obtain ⟨h1, h2, h3, _, -⟩ := hacc bc' h
      refine ⟨h1, h2, le_of_eq h3.symm, fun p hp => absurd hp (List.not_mem_nil p),
        fun p hp => absurd hp (List.not_mem_nil p), ?_, Or.inl h⟩
      intro bc0 hbc0 hne
      rw [h] at hbc0
      injection hbc0 with hbc0
      exact absurd hbc0 hne
  | cons q rest ih =>
    intro acc m hpair hm hacc hz
    have hpq : ∀ p ∈ rest, rmLt q p := (List.pairwise_cons.mp hpair).1
    have hpair' : rest.Pairwise rmLt := (List.pairwise_cons.mp hpair).2
    have hz' : ∀ p ∈ rest, s.board p.1 p.2 = none →
        1 ≤ (getValidNumbers s p.1 p.2).length :=
      fun p hp => hz p (List.mem_cons_of_mem q hp)
    rcases hbq : s.board q.1 q.2 with _ | w
    · have hq1 : 1 ≤ (getValidNumbers s q.1 q.2).length :=
        hz q (List.mem_cons_self q rest) hbq
      by_cases hlt : (getValidNumbers s q.1 q.2).length < m
      · by_cases h1 : (getValidNumbers s q.1 q.2).length = 1
        · constructor
          · intro h
            rw [findBestAux_cons_empty hbq, if_pos hlt, if_pos h1] at h
            cases h
          · intro bc' h
            rw [findBestAux_cons_empty hbq, if_pos hlt, if_pos h1] at h
            injection h with h
            subst h
            refine ⟨hbq, rfl, le_of_lt hlt, ?_, ?_, ?_,
              Or.inr (List.mem_cons_self q rest)⟩
            · intro p hp hpe
              show (getValidNumbers s q.1 q.2).length ≤ _
              have := hz p hp hpe
              omega
            · intro p hp hpe hplt
              exfalso
              rcases List.mem_cons.mp hp with he | hm2
              · subst he
                exact rmLt_irrefl p hplt
              · exact rmLt_asymm (hpq p hm2) hplt
            · intro bc0 _ _
              exact hlt
        · have hacc' : ∀ bc0,
              (some (⟨q.1, q.2, getValidNumbers s q.1 q.2⟩ : BestCell) = some bc0) →
              s.board bc0.row bc0.col = none ∧
              bc0.options = getValidNumbers s bc0.row bc0.col ∧
              (getValidNumbers s q.1 q.2).length = bc0.options.length ∧
              2 ≤ (getValidNumbers s q.1 q.2).length ∧
              (∀ p ∈ rest, rmLt (bc0.row, bc0.col) p) := by
            intro bc0 hbc0
            injection hbc0 with hbc0
            subst hbc0
            exact ⟨hbq, rfl, rfl, by omega, fun p hp => hpq p hp⟩
          obtain ⟨ihnone, ihsome⟩ := ih (some ⟨q.1, q.2, getValidNumbers s q.1 q.2⟩)
            ((getValidNumbers s q.1 q.2).length) hpair' (by rintro ⟨⟩) hacc' hz'
          constructor
          · intro h
            rw [findBestAux_cons_empty hbq, if_pos hlt, if_neg h1] at h
            obtain ⟨hcontra, -⟩ := ihnone h
            cases hcontra
          · intro bc' h
            rw [findBestAux_cons_empty hbq, if_pos hlt, if_neg h1] at h
            obtain ⟨g1, g2, g3, g4, g5, g6, g7⟩ := ihsome bc' h
            refine ⟨g1, g2, le_trans g3 (le_of_lt hlt), ?_, ?_, ?_, ?_⟩
            · intro p hp hpe
              rcases List.mem_cons.mp hp with he | hm2
              · subst he; exact g3
              · exact g4 p hm2 hpe
            · intro p hp hpe hplt
              rcases List.mem_cons.mp hp with he | hm2
              · subst he
                rcases g7 with hacc7 | hmem7
                · injection hacc7 with hacc7
                  subst hacc7
                  exact absurd hplt (rmLt_irrefl p)
                · have hne : bc' ≠ ⟨p.1, p.2, getValidNumbers s p.1 p.2⟩ := by
                    intro he2
                    rw [he2] at hmem7
                    exact rmLt_irrefl p (hpq _ hmem7)
                  exact g6 _ rfl hne
              · exact g5 p hm2 hpe hplt
            · intro bc0 _ _
              exact lt_of_le_of_lt g3 hlt
            · rcases g7 with hacc7 | hmem7
              · injection hacc7 with hacc7
                right
                rw [← hacc7]
                exact List.mem_cons_self q rest
              · exact Or.inr (List.mem_cons_of_mem q hmem7)
      · have hmle : m ≤ (getValidNumbers s q.1 q.2).length := Nat.le_of_not_lt hlt
        cases acc with
        | none =>
          exfalso
          have h10 := hm rfl
          have h9 : (getValidNumbers s q.1 q.2).length ≤ 9 := getValidNumbers_len_le
          omega
        | some bc0 =>
          obtain ⟨a1, a2, a3, a4, a5⟩ := hacc bc0 rfl
          have hacc'' : ∀ bc1, (some bc0 = some bc1) →
              s.board bc1.row bc1.col = none ∧
              bc1.options = getValidNumbers s bc1.row bc1.col ∧
              m = bc1.options.length ∧ 2 ≤ m ∧
              (∀ p ∈ rest, rmLt (bc1.row, bc1.col) p) := by
            intro bc1 hbc1
            injection hbc1 with hbc1
            subst hbc1
            exact ⟨a1, a2, a3, a4, fun p hp => a5 p (List.mem_cons_of_mem q hp)⟩
          obtain ⟨ihnone, ihsome⟩ := ih (some bc0) m hpair'
            (fun h => absurd h (Option.some_ne_none bc0)) hacc'' hz'
          constructor
          · intro h
            rw [findBestAux_cons_empty hbq, if_neg hlt] at h
            obtain ⟨hc, -⟩ := ihnone h
            cases hc
          · intro bc' h
            rw [findBestAux_cons_empty hbq, if_neg hlt] at h
            obtain ⟨g1, g2, g3, g4, g5, g6, g7⟩ := ihsome bc' h
            refine ⟨g1, g2, g3, ?_, ?_, g6, ?_⟩
            · intro p hp hpe
              rcases List.mem_cons.mp hp with he | hm2
              · subst he; exact le_trans g3 hmle
              · exact g4 p hm2 hpe
            · intro p hp hpe hplt
              rcases List.mem_cons.mp hp with he | hm2
              · subst he
                by_cases hbe : bc' = bc0
                · exfalso
                  subst hbe
                  exact rmLt_asymm (a5 p (List.mem_cons_self p rest)) hplt
                · exact lt_of_lt_of_le (g6 bc0 rfl hbe) hmle
              · exact g5 p hm2 hpe hplt
            · rcases g7 with h7 | h7
              · exact Or.inl h7
              · exact Or.inr (List.mem_cons_of_mem q h7)
    · have hacc2 : ∀ bc0, acc = some bc0 →
          s.board bc0.row bc0.col = none ∧
          bc0.options = getValidNumbers s bc0.row bc0.col ∧
          m = bc0.options.length ∧ 2 ≤ m ∧
          (∀ p ∈ rest, rmLt (bc0.row, bc0.col) p) := by
        intro bc0 h0
        obtain ⟨a1, a2, a3, a4, a5⟩ := hacc bc0 h0
        exact ⟨a1, a2, a3, a4, fun p hp => a5 p (List.mem_cons_of_mem q hp)⟩
      obtain ⟨ihnone, ihsome⟩ := ih acc m hpair' hm hacc2 hz'
      constructor
      · intro h
        rw [findBestAux_cons_filled hbq] at h
        obtain ⟨h1, h2⟩ := ihnone h
        refine ⟨h1, ?_⟩
        intro p hp
        rcases List.mem_cons.mp hp with he | hm2
        · subst he; rw [hbq]; simp
        · exact h2 p hm2
      · intro bc' h
        rw [findBestAux_cons_filled hbq] at h
        obtain ⟨g1, g2, g3, g4, g5, g6, g7⟩ := ihsome bc' h
        refine ⟨g1, g2, g3, ?_, ?_, g6, ?_⟩
        · intro p hp hpe
          rcases List.mem_cons.mp hp with he | hm2
          · subst he; rw [hbq] at hpe; cases hpe
          · exact g4 p hm2 hpe
        · intro p hp hpe hplt
          rcases List.mem_cons.mp hp with he | hm2
          · subst he; rw [hbq] at hpe; cases hpe
          · exact g5 p hm2 hpe hplt
        · rcases g7 with h7 | h7
          · exact Or.inl h7
          · exact Or.inr (List.mem_cons_of_mem q h7)

lemma findBestAux_stops (s : SolverState) :
    ∀ (l₁ : List Pos) (p : Pos) (acc : Option BestCell) (m : Nat),
    s.board p.1 p.2 = none →
    (getValidNumbers s p.1 p.2).length = 1 →
    (∀ q ∈ l₁, s.board q.1 q.2 = none → (getValidNumbers s q.1 q.2).length ≠ 1) →
    (∀ q ∈ l₁, s.board q.1 q.2 = none → 1 ≤ (getValidNumbers s q.1 q.2).length) →
    (acc = none → m = 10) →
    (∀ bc0, acc = some bc0 → 2 ≤ m) →
    ∀ l₃, findBestAux s (l₁ ++ p :: l₃) acc m =
      some ⟨p.1, p.2, getValidNumbers s p.1 p.2⟩ := by
  intro l₁
  induction l₁ with
  | nil =>
    intro p acc m hbp h1 _ _ hm hacc l₃
    have h1m : (getValidNumbers s p.1 p.2).length < m := by
      cases acc with
      | none => rw [hm rfl]; omega
      | some bc0 => have := hacc bc0 rfl; omega
    rw [List.nil_append, findBestAux_cons_empty hbp, if_pos h1m, if_pos h1]
  | cons q l₁' ih =>
    intro p acc m hbp h1 hne1 hz hm hacc l₃
    have hne1' : ∀ r ∈ l₁', s.board r.1 r.2 = none →
        (getValidNumbers s r.1 r.2).length ≠ 1 :=
      fun r hr => hne1 r (List.mem_cons_of_mem q hr)
    have hz' : ∀ r ∈ l₁', s.board r.1 r.2 = none →
        1 ≤ (getValidNumbers s r.1 r.2).length :=
      fun r hr => hz r (List.mem_cons_of_mem q hr)
    rw [List.cons_append]
    rcases hbq : s.board q.1 q.2 with _ | w
    · have h2 : 2 ≤ (getValidNumbers s q.1 q.2).length := by
        have ha := hz q (List.mem_cons_self q l₁') hbq
        have hb := hne1 q (List.mem_cons_self q l₁') hbq
        omega
      rw [findBestAux_cons_empty hbq]
      by_cases hlt : (getValidNumbers s q.1 q.2).length < m
      · rw [if_pos hlt, if_neg (by omega)]
        exact ih p _ _ hbp h1 hne1' hz' (by rintro ⟨⟩) (fun bc0 _ => h2) l₃
      · rw [if_neg hlt]
        exact ih p acc m hbp h1 hne1' hz' hm hacc l₃
    · rw [findBestAux_cons_filled hbq]
      exact ih p acc m hbp h1 hne1' hz' hm hacc l₃

/-- C8: under the proviso that no currently empty cell has an empty options
list, findBestCell returns an empty cell of minimal option count, the
row-major-first among the minima, and the scan stops at the row-major-first
cell with exactly one option: the result on any list that agrees up to that
cell is the same, whatever the remaining cells are. -/
theorem claim_findBestCell_heuristic :
    ∀ s : SolverState, NoZeroOptions s → FBCGood s := by
  intro s hnz
  have hz : ∀ p ∈ allCells, s.board p.1 p.2 = none →
      1 ≤ (getValidNumbers s p.1 p.2).length := by
    intro p _ hpe
    exact Nat.one_le_iff_ne_zero.mpr (hnz p hpe)
  constructor
  · intro bc hbc
    obtain ⟨-, hsome⟩ := findBestAux_spec_strong s allCells none 10
      allCells_pairwise (fun _ => rfl) (by rintro bc0 ⟨⟩) hz
    obtain ⟨g1, g2, -, g4, g5, -, -⟩ := hsome bc hbc
    exact ⟨g1, g2, fun p hpe => g4 p (mem_allCells p) hpe,
      fun p hpe hplt => g5 p (mem_allCells p) hpe hplt⟩
  · intro l₁ p l₂ hdec hbp h1 hmin l₃
    have hsub : ∀ q ∈ l₁, q ∈ allCells := by
      intro q hq; rw [hdec]; exact List.mem_append_left _ hq
    exact findBestAux_stops s l₁ p none 10 hbp h1 hmin
      (fun q hq hqe => hz q (hsub q hq) hqe) (fun _ => rfl) (by rintro bc0 ⟨⟩) l₃

theorem claim_findBestCell_heuristic_witness :
    NoZeroOptions (initState g9) ∧ FBCGood (initState g9) :=
  ⟨by decide, claim_findBestCell_heuristic _ (by decide)⟩

set_option maxRecDepth 40000 in
/-- Counterexample to C8 as stated: on the valid board gFB the cell in row 8,
column 8 is the only empty cell with exactly one option, yet findBestCell
does not select it: the zero-option empty cell at row 0, column 0 is scanned
first, sets minOptions to 0, and is never displaced. -/
theorem claim_findBestCell_heuristic_counterexample :
    isValidBoard gFB = true ∧
    (initState gFB).board 8 8 = none ∧
    (getValidNumbers (initState gFB) 8 8).length = 1 ∧
    (∀ p : Pos, (initState gFB).board p.1 p.2 = none →
      (getValidNumbers (initState gFB) p.1 p.2).length = 1 → p = (8, 8)) ∧
    findBestCell (initState gFB) = some ⟨0, 0, []⟩ ∧
    findBestCell (initState gFB) ≠
      some ⟨8, 8, getValidNumbers (initState gFB) 8 8⟩ := by
  refine ⟨by decide, by decide, by decide, by decide, by decide, by decide⟩

end Sudoku
